import Mathlib

/-! # Verification development for the dynamics controller (DjoleMNE/MT_testing)

Shallow embedding of `Controller/src/dynamics_controller.cpp`.

Conventions of the embedding:

* `double` values are elements of an arbitrary linearly ordered field `α`
  (the rationals are the executable instance used for concrete runs);
* `assert` is active (the build without `NDEBUG`): a failing assertion ends
  the run with `Result.assert_failed`;
* every collaborator that is not part of the translated file (hardware
  mediator, safety module, solvers, adaptive module, predictor, clock, file
  system) is a field of `Env`; the hidden state of all collaborators is one
  value of an arbitrary type `W` threaded through every call;
* every collaborator call and every printed message appends one `Event` to
  the ghost field `trace` of the controller;
* loops that the source leaves unbounded take a `fuel : Nat`; a run that
  needs more iterations ends with `Result.running`;
* the constructor and the task-configuration calls end in an `Outcome`: next
  to a failing assertion, an integer division by zero or a subscript outside
  its container ends the call with `Outcome.undefined`.
-/

namespace KDL

/-- KDL::Vector: three coordinates `data[0]`, `data[1]`, `data[2]`. -/
@[ext]
structure Vector (α : Type) where
  x : α
  y : α
  z : α

/-- KDL::Rotation: the nine entries `data[0..8]` of a 3x3 matrix, row-major. -/
@[ext]
structure Rotation (α : Type) where
  data : Fin 9 → α

/-- KDL::Twist: linear velocity `vel` and angular velocity `rot`. -/
@[ext]
structure Twist (α : Type) where
  vel : Vector α
  rot : Vector α

/-- KDL::Wrench: `force` and `torque`. -/
@[ext]
structure Wrench (α : Type) where
  force : Vector α
  torque : Vector α

/-- KDL::Frame: origin `p` and orientation `M`. -/
@[ext]
structure Frame (α : Type) where
  p : Vector α
  M : Rotation α

variable {α : Type}

/-- KDL::Vector::Zero(). -/
def Vector.Zero [Zero α] : Vector α := ⟨0, 0, 0⟩

/-- KDL `operator-(const Vector&, const Vector&)`: component-wise. -/
def Vector.sub [Sub α] (a b : Vector α) : Vector α :=
  ⟨a.x - b.x, a.y - b.y, a.z - b.z⟩

/-- KDL unary `operator-(const Vector&)`. -/
def Vector.neg [Neg α] (a : Vector α) : Vector α := ⟨-a.x, -a.y, -a.z⟩

/-- KDL `Vector::operator()(int)`: coordinate `i` of the vector. -/
def Vector.get (v : Vector α) (i : Fin 3) : α :=
  match i with
  | 0 => v.x
  | 1 => v.y
  | 2 => v.z

/-- KDL `Rotation(Xx, Yx, Zx, Xy, Yy, Zy, Xz, Yz, Zz)`: fills `data[0..8]` in order. -/
def Rotation.ofEntries (d0 d1 d2 d3 d4 d5 d6 d7 d8 : α) : Rotation α :=
  ⟨fun i =>
    match i with
    | 0 => d0
    | 1 => d1
    | 2 => d2
    | 3 => d3
    | 4 => d4
    | 5 => d5
    | 6 => d6
    | 7 => d7
    | 8 => d8⟩

/-- KDL::Rotation::Identity(). -/
def Rotation.Identity [Zero α] [One α] : Rotation α :=
  Rotation.ofEntries 1 0 0 0 1 0 0 0 1

/-- KDL `operator*(const Rotation&, const Rotation&)`: the matrix product. -/
def Rotation.mul [Add α] [Mul α] (l r : Rotation α) : Rotation α :=
  Rotation.ofEntries
    (l.data 0 * r.data 0 + l.data 1 * r.data 3 + l.data 2 * r.data 6)
    (l.data 0 * r.data 1 + l.data 1 * r.data 4 + l.data 2 * r.data 7)
    (l.data 0 * r.data 2 + l.data 1 * r.data 5 + l.data 2 * r.data 8)
    (l.data 3 * r.data 0 + l.data 4 * r.data 3 + l.data 5 * r.data 6)
    (l.data 3 * r.data 1 + l.data 4 * r.data 4 + l.data 5 * r.data 7)
    (l.data 3 * r.data 2 + l.data 4 * r.data 5 + l.data 5 * r.data 8)
    (l.data 6 * r.data 0 + l.data 7 * r.data 3 + l.data 8 * r.data 6)
    (l.data 6 * r.data 1 + l.data 7 * r.data 4 + l.data 8 * r.data 7)
    (l.data 6 * r.data 2 + l.data 7 * r.data 5 + l.data 8 * r.data 8)

/-- KDL::Rotation::Inverse(): the transpose (entries 1/3, 2/6 and 5/7 swapped). -/
def Rotation.Inverse (m : Rotation α) : Rotation α :=
  Rotation.ofEntries
    (m.data 0) (m.data 3) (m.data 6)
    (m.data 1) (m.data 4) (m.data 7)
    (m.data 2) (m.data 5) (m.data 8)

/-- KDL::Twist::Zero(). -/
def Twist.Zero [Zero α] : Twist α := ⟨Vector.Zero, Vector.Zero⟩

/-- KDL unary `operator-(const Twist&)`. -/
def Twist.neg [Neg α] (t : Twist α) : Twist α := ⟨t.vel.neg, t.rot.neg⟩

/-- KDL `Twist::operator()(int)`: index 0..2 is `vel`, 3..5 is `rot`. -/
def Twist.get (t : Twist α) (i : Fin 6) : α :=
  match i with
  | 0 => t.vel.x
  | 1 => t.vel.y
  | 2 => t.vel.z
  | 3 => t.rot.x
  | 4 => t.rot.y
  | 5 => t.rot.z

/-- KDL::Wrench::Zero(), what `KDL::SetToZero` stores in a wrench. -/
def Wrench.Zero [Zero α] : Wrench α := ⟨Vector.Zero, Vector.Zero⟩

/-- KDL `Wrench::operator()(int)`: index 0..2 is `force`, 3..5 is `torque`. -/
def Wrench.get (w : Wrench α) (i : Fin 6) : α :=
  match i with
  | 0 => w.force.x
  | 1 => w.force.y
  | 2 => w.force.z
  | 3 => w.torque.x
  | 4 => w.torque.y
  | 5 => w.torque.z

/-- Assignment `wrench(i) = v` through the writable `Wrench::operator()(int)`. -/
def Wrench.set (w : Wrench α) (i : Fin 6) (v : α) : Wrench α :=
  match i with
  | 0 => { w with force := { w.force with x := v } }
  | 1 => { w with force := { w.force with y := v } }
  | 2 => { w with force := { w.force with z := v } }
  | 3 => { w with torque := { w.torque with x := v } }
  | 4 => { w with torque := { w.torque with y := v } }
  | 5 => { w with torque := { w.torque with z := v } }

/-- KDL::Frame::Identity(). -/
def Frame.Identity [Zero α] [One α] : Frame α := ⟨Vector.Zero, Rotation.Identity⟩

end KDL

/-! ## Enumerations and plain data -/

/-- Modelled from the spec: `enum control_mode` of constants.hpp (not part of the
translated sources); the four joint-level command types. -/
inductive control_mode
  | STOP_MOTION
  | POSITION
  | VELOCITY
  | TORQUE
  deriving DecidableEq, Repr

/-- Modelled from the spec: `enum dynamics_interface` of constants.hpp (not part of
the translated sources); the quantity the adaptive command is injected as. -/
inductive dynamics_interface
  | CART_FORCE
  | CART_ACCELERATION
  | FF_JOINT_TORQUE
  deriving DecidableEq, Repr

/-- The `enum integration_method` of model_prediction.hpp. -/
inductive integration_method
  | PREDICTOR_CORRECTOR
  | SYMPLECTIC_EULER
  deriving DecidableEq, Repr

/-- The member `desired_control_mode_`: requested interface and the stored decision. -/
structure control_mode_decision where
  interface : control_mode
  is_safe : Bool
  deriving DecidableEq, Repr

/-- The three diagnostic log streams of the controller. -/
inductive LogFile
  | cart
  | joint
  | predictions
  deriving DecidableEq, Repr

/-- The messages the controller prints (`printf` / `std::cout`). -/
inductive Message
  | settings_info
  | fk_solver_error (status : Int)
  | stop_motion_selected
  | unable_to_open_file
  | control_loop_started
  | dynamics_solver_error
  | switched_to_velocity
  | switched_to_position
  | loop_too_slow
  | linear_norm_too_small
  deriving DecidableEq, Repr

/-- One observable action of the controller: a call of a collaborator, an
operation on a log stream, or a printed message. -/
inductive Event
  | stop_robot_motion
  | get_current_state
  | fk_JntToCart (status : Int)
  | hd_CartToJnt (status : Int)
  | hd_get_control_torque
  | set_control_commands (requested returned : control_mode)
  | abag_update_state
  | integrate_cartesian_space
  | file_open (f : LogFile) (is_open : Bool)
  | file_write (f : LogFile)
  | file_close (f : LogFile)
  | print (m : Message)
  deriving DecidableEq, Repr

/-- How a call ends: it returns a value, it stops at a failing `assert`, or it
is still running when the fuel of the run is used up. -/
inductive Result (β : Type)
  | ret (v : β)
  | assert_failed
  | running
  deriving DecidableEq, Repr

/-- Modelled from the spec: `state_specification` (state_specification.hpp is not
part of the translated sources), with the members dynamics_controller.cpp uses.
Joint arrays and per-segment sequences are lists; the constraint matrix has six
twist columns and the acceleration energy six entries. -/
structure state_specification (α : Type) where
  q : List α
  qd : List α
  qdd : List α
  feedforward_torque : List α
  control_torque : List α
  ee_unit_constraint_force : Fin 6 → KDL.Twist α
  ee_acceleration_energy : Fin 6 → α
  external_force : List (KDL.Wrench α)
  frame_pose : List (KDL.Frame α)
  frame_velocity : List (KDL.Twist α)

/-- The collaborators of the controller. `W` is the hidden state of all of them
(hardware, solvers, adaptive module, predictor, clock, file system); every call
takes the current `W` and gives back the next one. -/
structure Env (α W : Type) where
  /-- Library call `std::chrono::steady_clock::now()`, in microseconds. -/
  now : W → W × α
  /-- Collaborator call `safety_control_.get_current_state(state)`. -/
  get_current_state : W → state_specification α → W × state_specification α
  /-- Collaborator call `safety_control_.set_control_commands(state, dt, requested, method)`. -/
  set_control_commands :
    W → state_specification α → α → control_mode → integration_method → W × control_mode
  /-- Collaborator call `safety_control_.stop_robot_motion()`. -/
  stop_robot_motion : W → W
  /-- Collaborator call `fk_vereshchagin_.JntToCart(q, qd, frame_pose, frame_velocity)`. -/
  fk_JntToCart :
    W → List α → List α → List (KDL.Frame α) → List (KDL.Twist α) →
      W × Int × List (KDL.Frame α) × List (KDL.Twist α)
  /-- Collaborator call `hd_solver_.CartToJnt(...)`: status, joint accelerations, feedforward torques. -/
  hd_CartToJnt :
    W → state_specification α → List (KDL.Wrench α) → W × Int × List α × List α
  /-- Collaborator call `hd_solver_.get_control_torque(control_torque)`. -/
  hd_get_control_torque : W → List α → W × List α
  /-- Collaborator call `abag_.update_state(error)`. -/
  abag_update_state : W → (Fin 6 → α) → W × (Fin 6 → α)
  /-- Collaborator call `predictor_.integrate_cartesian_space(current, predicted, dt_sec, num_steps)`. -/
  integrate_cartesian_space :
    W → state_specification α → state_specification α → α → Int → W × state_specification α
  /-- Library call `std::ofstream::open` on a closed stream: whether the stream is open afterwards. -/
  open_file : W → LogFile → W × Bool
  /-- Collaborator call `geometry::log_map_so3`. -/
  log_map_so3 : KDL.Rotation α → KDL.Vector α
  /-- Library call `KDL::Vector::Norm()`. -/
  Norm : KDL.Vector α → α
  /-- Collaborator call `motion_profile::negative_step_decision_map`. -/
  negative_step_decision_map : α → α → α → α → α → α

/-- The data members of `class dynamics_controller`, the hidden state `world`
of its collaborators, and the ghost `trace` of everything it did. -/
structure dynamics_controller (α W : Type) where
  RATE_HZ_ : Int
  DT_MICRO_ : Int
  DT_SEC_ : α
  loop_start_time_ : α
  loop_interval_ : α
  NUM_OF_JOINTS_ : Int
  NUM_OF_SEGMENTS_ : Int
  NUM_OF_FRAMES_ : Int
  END_EFF_ : Nat
  CTRL_DIM_ : List Bool
  JOINT_TORQUE_LIMITS_ : List α
  current_error_twist_ : KDL.Twist α
  predicted_error_twist_ : Fin 6 → α
  transformed_error_ : Fin 6 → α
  use_transformed_driver_ : Bool
  horizon_amplitude_ : α
  horizon_slope_ : α
  abag_command_ : Fin 6 → α
  max_command_ : Fin 6 → α
  motion_profile_ : Fin 6 → α
  cart_force_command_ : List (KDL.Wrench α)
  desired_control_mode_ : control_mode_decision
  desired_task_inteface_ : dynamics_interface
  store_control_data_ : Bool
  robot_state_ : state_specification α
  desired_state_ : state_specification α
  predicted_state_ : state_specification α
  log_file_cart_ : Bool
  log_file_joint_ : Bool
  log_file_predictions_ : Bool
  world : W
  trace : List Event

namespace dynamics_controller

variable {α W : Type}

/-- The `#define SECOND 1000000`: microseconds in one second. -/
def SECOND : Int := 1000000

/-- The constant `MIN_NORM = 1e-10`. -/
def MIN_NORM [LinearOrderedField α] : α := 1e-10

/-- The initialiser `DT_MICRO_(SECOND / RATE_HZ_)`: integer division truncating
towards zero; no value when the divisor is zero. -/
def DT_MICRO_of (rate_hz : Int) : Option Int :=
  if rate_hz = 0 then none else some (Int.tdiv SECOND rate_hz)

/-- Record one event in the trace. -/
def emit (e : Event) (c : dynamics_controller α W) : dynamics_controller α W :=
  { c with trace := c.trace ++ [e] }

/-- Stream state of one log file. -/
def is_open (c : dynamics_controller α W) : LogFile → Bool
  | .cart => c.log_file_cart_
  | .joint => c.log_file_joint_
  | .predictions => c.log_file_predictions_

/-- Store the stream state of one log file. -/
def set_open (c : dynamics_controller α W) (f : LogFile) (b : Bool) :
    dynamics_controller α W :=
  match f with
  | .cart => { c with log_file_cart_ := b }
  | .joint => { c with log_file_joint_ := b }
  | .predictions => { c with log_file_predictions_ := b }

/-- Library call `std::ofstream::open`: a stream that is already open stays open (the call
only sets its fail bit); otherwise the file system decides. -/
def open_log (env : Env α W) (f : LogFile) (c : dynamics_controller α W) :
    dynamics_controller α W :=
  if c.is_open f then emit (.file_open f true) c
  else
    let r := env.open_file c.world f
    emit (.file_open f r.2) (set_open { c with world := r.1 } f r.2)

/-- Library call `std::ofstream::close`. -/
def close_log (f : LogFile) (c : dynamics_controller α W) : dynamics_controller α W :=
  emit (.file_close f) (set_open c f false)

/-- The three `close()` calls that control() and deinitialize() make together. -/
def close_logs (c : dynamics_controller α W) : dynamics_controller α W :=
  close_log .predictions (close_log .joint (close_log .cart c))

/-- Source function `stop_robot_motion()`: forwards to the safety module. -/
def stop_robot_motion (env : Env α W) (c : dynamics_controller α W) :
    dynamics_controller α W :=
  emit .stop_robot_motion { c with world := env.stop_robot_motion c.world }

/-- Source function `print_settings_info()`: prints the settings and the initial state. -/
def print_settings_info (c : dynamics_controller α W) : dynamics_controller α W :=
  emit (.print .settings_info) c

/-- Source function `update_current_state()`: joint state from the safety module, Cartesian state
from the forward-kinematics solver; a non-zero solver status is only printed. -/
def update_current_state (env : Env α W) (c : dynamics_controller α W) :
    dynamics_controller α W :=
  let r := env.get_current_state c.world c.robot_state_
  let c1 := emit .get_current_state { c with world := r.1, robot_state_ := r.2 }
  let k := env.fk_JntToCart c1.world c1.robot_state_.q c1.robot_state_.qd
    c1.robot_state_.frame_pose c1.robot_state_.frame_velocity
  let fk_solver_result := k.2.1
  let c2 := emit (.fk_JntToCart fk_solver_result)
    { c1 with
      world := k.1
      robot_state_ :=
        { c1.robot_state_ with frame_pose := k.2.2.1, frame_velocity := k.2.2.2 } }
  if fk_solver_result ≠ 0 then emit (.print (.fk_solver_error fk_solver_result)) c2
  else c2

/-- Source function `update_dynamics_interfaces()`: copy the desired task into the current state. -/
def update_dynamics_interfaces (c : dynamics_controller α W) : dynamics_controller α W :=
  { c with
    robot_state_ :=
      { c.robot_state_ with
        ee_unit_constraint_force := c.desired_state_.ee_unit_constraint_force
        ee_acceleration_energy := c.desired_state_.ee_acceleration_energy
        feedforward_torque := c.desired_state_.feedforward_torque
        external_force := c.desired_state_.external_force } }

/-- Source function `write_to_file()`: one record on the Cartesian log, one on the joint log. -/
def write_to_file (c : dynamics_controller α W) : dynamics_controller α W :=
  emit (.file_write .joint) (emit (.file_write .cart) c)

/-- The busy-wait of `enforce_loop_frequency`: re-read the clock while the
interval is below the period; `fuel` bounds the number of readings. -/
def busy_wait [LinearOrderedField α] (env : Env α W) :
    Nat → dynamics_controller α W → Result Int × dynamics_controller α W
  | 0, c => if c.loop_interval_ < (c.DT_MICRO_ : α) then (.running, c) else (.ret 0, c)
  | n + 1, c =>
    if c.loop_interval_ < (c.DT_MICRO_ : α) then
      let t := env.now c.world
      busy_wait env n { c with world := t.1, loop_interval_ := t.2 - c.loop_start_time_ }
    else (.ret 0, c)

/-- Source function `enforce_loop_frequency()`: 0 after waiting for the end of the period, -1 when
the period was already over at the first reading of the clock. -/
def enforce_loop_frequency [LinearOrderedField α] (env : Env α W) (fuel : Nat)
    (c : dynamics_controller α W) : Result Int × dynamics_controller α W :=
  let t := env.now c.world
  let c1 := { c with world := t.1, loop_interval_ := t.2 - c.loop_start_time_ }
  if c1.loop_interval_ < (c1.DT_MICRO_ : α) then busy_wait env fuel c1
  else (.ret (-1), c1)

/-- Source function `apply_joint_control_commands()`: hand the commands to the safety module,
store whether the requested mode was kept, and fail only on a stop. -/
def apply_joint_control_commands (env : Env α W)
    (c : dynamics_controller α W) : Result Int × dynamics_controller α W :=
  let r := env.set_control_commands c.world c.robot_state_ c.DT_SEC_
    c.desired_control_mode_.interface integration_method.SYMPLECTIC_EULER
  let safe_control_mode := r.2
  let c1 := emit (.set_control_commands c.desired_control_mode_.interface safe_control_mode)
    { c with
      world := r.1
      desired_control_mode_ :=
        { c.desired_control_mode_ with
          is_safe :=
            if c.desired_control_mode_.interface = safe_control_mode then true else false } }
  match safe_control_mode with
  | .TORQUE =>
    if c1.desired_control_mode_.is_safe then (.ret 0, c1) else (.assert_failed, c1)
  | .VELOCITY =>
    if !c1.desired_control_mode_.is_safe then (.ret 0, emit (.print .switched_to_velocity) c1)
    else (.ret 0, c1)
  | .POSITION =>
    if !c1.desired_control_mode_.is_safe then (.ret 0, emit (.print .switched_to_position) c1)
    else (.ret 0, c1)
  | _ => (.ret (-1), stop_robot_motion env c1)

/-- Source function `make_predictions(dt_sec, num_steps)`: one call of the predictor. -/
def make_predictions (env : Env α W) (dt_sec : α) (num_steps : Int)
    (c : dynamics_controller α W) : dynamics_controller α W :=
  let r := env.integrate_cartesian_space c.world c.robot_state_ c.predicted_state_
    dt_sec num_steps
  emit .integrate_cartesian_space { c with world := r.1, predicted_state_ := r.2 }

/-- Element `frame_pose[END_EFF_]` of a state. -/
def ee_pose [Zero α] [One α] (end_eff : Nat) (s : state_specification α) : KDL.Frame α :=
  s.frame_pose.getD end_eff KDL.Frame.Identity

/-- Source function `displacement_twist(state_a, state_b)`: decoupled difference of two end-effector
poses: difference of the positions, logarithmic map of the relative rotation. -/
def displacement_twist [LinearOrderedField α] (env : Env α W) (end_eff : Nat)
    (state_a state_b : state_specification α) : KDL.Twist α :=
  let twist : KDL.Twist α := KDL.Twist.Zero
  let twist := { twist with vel := (ee_pose end_eff state_a).p.sub (ee_pose end_eff state_b).p }
  let relative_rot_matrix :=
    (ee_pose end_eff state_a).M.mul (ee_pose end_eff state_b).M.Inverse
  let twist := { twist with rot := env.log_map_so3 relative_rot_matrix }
  twist

/-- Source function `conversions::kdl_twist_to_eigen(twist)`: the six entries of a twist. -/
def kdl_twist_to_eigen (t : KDL.Twist α) : Fin 6 → α := fun i => t.get i

/-- Source function `compute_control_error()`: error of the current pose, one prediction step of
length `horizon_amplitude_`, error of the predicted pose and its two norms. -/
def compute_control_error [LinearOrderedField α] (env : Env α W)
    (c : dynamics_controller α W) : dynamics_controller α W :=
  let c1 := { c with
    current_error_twist_ := displacement_twist env c.END_EFF_ c.desired_state_ c.robot_state_ }
  let time_horizon_sec := c1.horizon_amplitude_
  let c2 := emit (.file_write .predictions) c1
  let c3 := make_predictions env time_horizon_sec 1 c2
  let error_twist := displacement_twist env c3.END_EFF_ c3.desired_state_ c3.predicted_state_
  let c4 := { c3 with
    transformed_error_ := Function.update c3.transformed_error_ 0 (env.Norm error_twist.vel) }
  let c5 := { c4 with
    transformed_error_ := Function.update c4.transformed_error_ 3 (env.Norm error_twist.rot) }
  { c5 with predicted_error_twist_ := kdl_twist_to_eigen error_twist }

/-- Source function `transform_motion_driver()`: turn the two scalar commands of the adaptive
module into a 6D command along the direction of the predicted error. -/
def transform_motion_driver [LinearOrderedField α] (env : Env α W)
    (c : dynamics_controller α W) : dynamics_controller α W :=
  let r := env.abag_update_state c.world c.transformed_error_
  let c1 := emit .abag_update_state { c with world := r.1, abag_command_ := r.2 }
  let linear_1D_command := c1.abag_command_ 0
  let angular_1D_command := c1.abag_command_ 3
  let c2 : dynamics_controller α W :=
    if c1.transformed_error_ 0 ≥ (MIN_NORM : α) then
      { c1 with
        abag_command_ := ([0, 1, 2] : List (Fin 6)).foldl
          (fun cmd i => Function.update cmd i
            ((c1.predicted_error_twist_ i / c1.transformed_error_ 0) * linear_1D_command))
          c1.abag_command_ }
    else
      let c1p := emit (.print .linear_norm_too_small) c1
      { c1p with
        abag_command_ := ([0, 1, 2] : List (Fin 6)).foldl
          (fun cmd i => Function.update cmd i 0) c1p.abag_command_ }
  if c2.transformed_error_ 3 ≥ (MIN_NORM : α) then
    { c2 with
      abag_command_ := ([3, 4, 5] : List (Fin 6)).foldl
        (fun cmd i => Function.update cmd i
          ((c2.predicted_error_twist_ i / c2.transformed_error_ 3) * angular_1D_command))
        c2.abag_command_ }
  else
    { c2 with
      abag_command_ := ([3, 4, 5] : List (Fin 6)).foldl
        (fun cmd i => Function.update cmd i 0) c2.abag_command_ }

/-- One column of the unit constraint matrix: coordinate `i` set to `v`, the rest 0. -/
def unit_twist [Zero α] (i : Fin 6) (v : α) : KDL.Twist α :=
  match i with
  | 0 => ⟨⟨v, 0, 0⟩, ⟨0, 0, 0⟩⟩
  | 1 => ⟨⟨0, v, 0⟩, ⟨0, 0, 0⟩⟩
  | 2 => ⟨⟨0, 0, v⟩, ⟨0, 0, 0⟩⟩
  | 3 => ⟨⟨0, 0, 0⟩, ⟨v, 0, 0⟩⟩
  | 4 => ⟨⟨0, 0, 0⟩, ⟨0, v, 0⟩⟩
  | 5 => ⟨⟨0, 0, 0⟩, ⟨0, 0, v⟩⟩

/-- Source function `set_ee_acc_constraints(state, constraint_direction, cartesian_acceleration)`:
both vectors must have six entries; column `i` of the constraint matrix becomes
the unit twist of axis `i` when its flag is set, and the accelerations are stored
as the acceleration energy. -/
def set_ee_acc_constraints [LinearOrderedField α] (state : state_specification α)
    (constraint_direction : List Bool) (cartesian_acceleration : List α) :
    Result Unit × state_specification α :=
  if constraint_direction.length ≠ 6 then (.assert_failed, state)
  else if cartesian_acceleration.length ≠ 6 then (.assert_failed, state)
  else
    let state1 := ([0, 1, 2, 3, 4, 5] : List (Fin 6)).foldl
      (fun st i => { st with
        ee_unit_constraint_force := Function.update st.ee_unit_constraint_force i
          (unit_twist i (if constraint_direction.getD i.val false then 1 else 0)) })
      state
    (.ret (), ([0, 1, 2, 3, 4, 5] : List (Fin 6)).foldl
      (fun st i => { st with
        ee_acceleration_energy := Function.update st.ee_acceleration_energy i
          (cartesian_acceleration.getD i.val 0) })
      state1)

/-- Source function `compute_cart_control_commands()`: adaptive command, motion profile of the
linear axes, and routing of the shaped command into the chosen interface. -/
def compute_cart_control_commands [LinearOrderedField α] (env : Env α W)
    (c : dynamics_controller α W) : Result Unit × dynamics_controller α W :=
  let c1 : dynamics_controller α W :=
    if c.use_transformed_driver_ then transform_motion_driver env c
    else
      let r := env.abag_update_state c.world c.predicted_error_twist_
      emit .abag_update_state { c with world := r.1, abag_command_ := r.2 }
  let use_motion_profile := true
  let c2 : dynamics_controller α W :=
    if use_motion_profile then
      { c1 with
        motion_profile_ := ([0, 1, 2] : List (Fin 6)).foldl
          (fun prof i => Function.update prof i
            (env.negative_step_decision_map (env.Norm c1.current_error_twist_.vel)
              (c1.max_command_ i) 0.25 0.4 0.1))
          c1.motion_profile_ }
    else { c1 with motion_profile_ := c1.max_command_ }
  match c2.desired_task_inteface_ with
  | .CART_FORCE =>
    (.ret (), ([0, 1, 2, 3, 4, 5] : List (Fin 6)).foldl
      (fun cc i => { cc with
        cart_force_command_ := cc.cart_force_command_.set cc.END_EFF_
          ((cc.cart_force_command_.getD cc.END_EFF_ KDL.Wrench.Zero).set i
            (if cc.CTRL_DIM_.getD i.val false then cc.abag_command_ i * cc.motion_profile_ i
             else 0)) })
      c2)
  | .CART_ACCELERATION =>
    let r := set_ee_acc_constraints c2.robot_state_
      [c2.CTRL_DIM_.getD 0 false, c2.CTRL_DIM_.getD 1 false, c2.CTRL_DIM_.getD 2 false,
       c2.CTRL_DIM_.getD 3 false, c2.CTRL_DIM_.getD 4 false, c2.CTRL_DIM_.getD 5 false]
      [c2.abag_command_ 0 * c2.motion_profile_ 0, c2.abag_command_ 1 * c2.motion_profile_ 1,
       c2.abag_command_ 2 * c2.motion_profile_ 2, c2.abag_command_ 3 * c2.motion_profile_ 3,
       c2.abag_command_ 4 * c2.motion_profile_ 4, c2.abag_command_ 5 * c2.motion_profile_ 5]
    (r.1, { c2 with robot_state_ := r.2 })
  | _ => (.assert_failed, c2)

/-- Source function `evaluate_dynamics()`: one call of the hybrid dynamics solver; the control
torque is fetched only when the solver returns 0. -/
def evaluate_dynamics (env : Env α W) (c : dynamics_controller α W) :
    Int × dynamics_controller α W :=
  let r := env.hd_CartToJnt c.world c.robot_state_ c.cart_force_command_
  let hd_solver_result := r.2.1
  let c1 := emit (.hd_CartToJnt hd_solver_result)
    { c with
      world := r.1
      robot_state_ := { c.robot_state_ with qdd := r.2.2.1, feedforward_torque := r.2.2.2 } }
  if hd_solver_result ≠ 0 then (hd_solver_result, c1)
  else
    let t := env.hd_get_control_torque c1.world c1.robot_state_.control_torque
    (hd_solver_result,
      emit .hd_get_control_torque
        { c1 with world := t.1, robot_state_ := { c1.robot_state_ with control_torque := t.2 } })

/-- The block of control() and of `initialize` that opens the three log files
one after the other; it stops at the first stream that is not open afterwards
and reports whether all three are open. -/
def open_logs (env : Env α W) (c : dynamics_controller α W) :
    Bool × dynamics_controller α W :=
  let c1 := open_log env .cart c
  if !c1.is_open .cart then (false, c1)
  else
    let c2 := open_log env .joint c1
    if !c2.is_open .joint then (false, c2)
    else
      let c3 := open_log env .predictions c2
      if !c3.is_open .predictions then (false, c3)
      else (true, c3)

/-- The last statement of the loop body of control(),
`if(!enforce_loop_frequency() == 0) printf("WARNING: Control loop runs too slow")`;
the `!` binds before the `==`. The loop then goes on to the next cycle. -/
def check_loop_frequency [LinearOrderedField α] (env : Env α W) (fuel : Nat)
    (c : dynamics_controller α W) : Result (Option Int) × dynamics_controller α W :=
  match enforce_loop_frequency env fuel c with
  | (.assert_failed, c1) => (.assert_failed, c1)
  | (.running, c1) => (.running, c1)
  | (.ret e, c1) =>
    if (if e = 0 then (1 : Int) else 0) = 0 then (.ret none, emit (.print .loop_too_slow) c1)
    else (.ret none, c1)

/-- The body of the `while(1)` loop of control(): `ret none` when the loop goes
on to the next cycle, `ret (some r)` when control() returns `r` from this cycle. -/
def control_cycle [LinearOrderedField α] (env : Env α W) (store_control_data : Bool)
    (fuel : Nat) (c : dynamics_controller α W) :
    Result (Option Int) × dynamics_controller α W :=
  let t := env.now c.world
  let c1 := { c with world := t.1, loop_start_time_ := t.2 }
  let c2 := update_current_state env c1
  let c3 := compute_control_error env c2
  match compute_cart_control_commands env c3 with
  | (.assert_failed, c4) => (.assert_failed, c4)
  | (.running, c4) => (.running, c4)
  | (.ret (), c4) =>
    let c5 := if store_control_data then write_to_file c4 else c4
    let d := evaluate_dynamics env c5
    if d.1 ≠ 0 then
      let c6 := stop_robot_motion env d.2
      let c7 := if store_control_data then close_logs c6 else c6
      (.ret (some (-1)), emit (.print .dynamics_solver_error) c7)
    else
      match apply_joint_control_commands env d.2 with
      | (.assert_failed, c6) => (.assert_failed, c6)
      | (.running, c6) => (.running, c6)
      | (.ret a, c6) =>
        if a ≠ 0 then
          (.ret (some (-1)), if store_control_data then close_logs c6 else c6)
        else
          check_loop_frequency env fuel c6

/-- The `while(1)` loop of control(): at most `fuel` cycles. -/
def control_loop [LinearOrderedField α] (env : Env α W) (store_control_data : Bool)
    (fuel : Nat) : Nat → dynamics_controller α W → Result Int × dynamics_controller α W
  | 0, c => (.running, c)
  | n + 1, c =>
    match control_cycle env store_control_data fuel c with
    | (.ret none, c1) => control_loop env store_control_data fuel n c1
    | (.ret (some r), c1) => (.ret r, c1)
    | (.assert_failed, c1) => (.assert_failed, c1)
    | (.running, c1) => (.running, c1)

/-- Source function `control(desired_control_mode, store_control_data)`: the blocking control
loop. `fuel` bounds the number of cycles and the number of clock readings of
each busy-wait. -/
def control [LinearOrderedField α] (env : Env α W) (desired_control_mode : control_mode)
    (store_control_data : Bool) (fuel : Nat) (c : dynamics_controller α W) :
    Result Int × dynamics_controller α W :=
  let c1 := { c with
    desired_control_mode_ := { c.desired_control_mode_ with interface := desired_control_mode } }
  if c1.desired_control_mode_.interface = control_mode.STOP_MOTION then
    (.ret (-1), emit (.print .stop_motion_selected) c1)
  else
    let c2 := stop_robot_motion env c1
    let c3 := update_dynamics_interfaces (update_current_state env c2)
    let c4 := print_settings_info c3
    let o :=
      if store_control_data then
        let l := open_logs env c4
        if l.1 then (true, emit (.file_write .joint) l.2)
        else (false, emit (.print .unable_to_open_file) l.2)
      else (true, c4)
    if !o.1 then (.ret (-1), o.2)
    else
      control_loop env store_control_data fuel fuel (emit (.print .control_loop_started) o.2)

/-- The member function `initialize(desired_control_mode, desired_task_inteface,
use_transformed_driver, store_control_data)`; the trailing underscore keeps the
name apart from a reserved word. -/
def initialize_ (env : Env α W) (desired_control_mode : control_mode)
    (desired_task_inteface : dynamics_interface) (use_transformed_driver : Bool)
    (store_control_data : Bool) (c : dynamics_controller α W) :
    Result Unit × dynamics_controller α W :=
  let c1 := { c with
    desired_control_mode_ := { c.desired_control_mode_ with interface := desired_control_mode } }
  if c1.desired_control_mode_.interface = control_mode.STOP_MOTION then (.assert_failed, c1)
  else
    let c2 := { c1 with
      desired_task_inteface_ := desired_task_inteface
      use_transformed_driver_ := use_transformed_driver }
    let c3 := update_dynamics_interfaces c2
    let c4 := { c3 with store_control_data_ := store_control_data }
    if c4.store_control_data_ then
      let l := open_logs env c4
      if l.1 then (.ret (), emit (.file_write .joint) l.2)
      else (.assert_failed, l.2)
    else (.ret (), c4)

/-- The member function `deinitialize()`: stop the robot, close the logs when
logging is on. -/
def deinitialize_ (env : Env α W) (c : dynamics_controller α W) : dynamics_controller α W :=
  let c1 := stop_robot_motion env c
  if c1.store_control_data_ then close_logs c1 else c1

/-- Source function `step(q_input, qd_input, tau_output)`: one externally ticked cycle; the last
component of the result is the caller's `tau_output` after the call. -/
def step [LinearOrderedField α] (env : Env α W) (q_input qd_input : List α)
    (tau_output : List α) (c : dynamics_controller α W) :
    Result Int × List α × dynamics_controller α W :=
  let c1 := { c with robot_state_ := { c.robot_state_ with q := q_input, qd := qd_input } }
  let k := env.fk_JntToCart c1.world c1.robot_state_.q c1.robot_state_.qd
    c1.robot_state_.frame_pose c1.robot_state_.frame_velocity
  let fk_solver_result := k.2.1
  let c2 := emit (.fk_JntToCart fk_solver_result)
    { c1 with
      world := k.1
      robot_state_ :=
        { c1.robot_state_ with frame_pose := k.2.2.1, frame_velocity := k.2.2.2 } }
  if fk_solver_result ≠ 0 then
    (.ret (-1), tau_output,
      emit (.print (.fk_solver_error fk_solver_result)) (deinitialize_ env c2))
  else
    let c3 := compute_control_error env c2
    match compute_cart_control_commands env c3 with
    | (.assert_failed, c4) => (.assert_failed, tau_output, c4)
    | (.running, c4) => (.running, tau_output, c4)
    | (.ret (), c4) =>
      let c5 := if c4.store_control_data_ then write_to_file c4 else c4
      let d := evaluate_dynamics env c5
      if d.1 ≠ 0 then
        (.ret (-1), tau_output, emit (.print .dynamics_solver_error) (deinitialize_ env d.2))
      else (.ret 0, d.2.robot_state_.control_torque, d.2)

/-! ### Construction and task configuration -/

/-- What makes a call undefined in C++: an integer division by zero, or a
subscript outside its container. -/
inductive Fault
  | division_by_zero
  | index_out_of_bounds
  deriving DecidableEq, Repr

/-- How the constructor or a configuration call ends: it completes with the
new controller, it stops at a failing `assert`, or its behaviour is undefined. -/
inductive Outcome (β : Type)
  | done (v : β)
  | assert_failed
  | undefined (f : Fault)
  deriving DecidableEq, Repr

/-- What the constructor asks of the `robot_mediator` it is given:
`is_initialized()`, the joint and segment counts of `get_robot_model()`, and
`get_joint_torque_limits()`. -/
structure robot_mediator (α : Type) where
  is_initialized : Bool
  NrOfJoints : Nat
  NrOfSegments : Nat
  joint_torque_limits : List α

/-- Modelled from the spec: the constructor `state_specification(joints,
segments, frames, constraints)` (state_specification.hpp is not part of the
translated sources): every container has its size fixed here, all values zero,
all frames at the identity pose. -/
def state_specification.create [Zero α] [One α] (joints segments frames : Nat) :
    state_specification α where
  q := List.replicate joints 0
  qd := List.replicate joints 0
  qdd := List.replicate joints 0
  feedforward_torque := List.replicate joints 0
  control_torque := List.replicate joints 0
  ee_unit_constraint_force := fun _ => KDL.Twist.Zero
  ee_acceleration_energy := fun _ => 0
  external_force := List.replicate segments KDL.Wrench.Zero
  frame_pose := List.replicate frames KDL.Frame.Identity
  frame_velocity := List.replicate frames KDL.Twist.Zero

/-- The constructor `dynamics_controller(robot_driver, rate_hz)`. The member
initialisers run first, among them `DT_MICRO_(SECOND / RATE_HZ_)`; the
assertions of the body follow, and then `KDL::SetToZero(cart_force_command_[END_EFF_])`.
`world` is the hidden state of the collaborators once they are constructed and
configured. The members the constructor does not set are `false` (`store_control_data_`)
and zero (`loop_interval_`). -/
def construct [LinearOrderedField α] (robot_driver : robot_mediator α) (world : W)
    (rate_hz : Int) : Outcome (dynamics_controller α W) :=
  match DT_MICRO_of rate_hz with
  | none => .undefined .division_by_zero
  | some dt_micro =>
    let robot_state : state_specification α :=
      state_specification.create robot_driver.NrOfJoints robot_driver.NrOfSegments
        (robot_driver.NrOfSegments + 1)
    let c : dynamics_controller α W :=
      { RATE_HZ_ := rate_hz
        DT_MICRO_ := dt_micro
        DT_SEC_ := 1.0 / (rate_hz : α)
        loop_start_time_ := 0
        loop_interval_ := 0
        NUM_OF_JOINTS_ := robot_driver.NrOfJoints
        NUM_OF_SEGMENTS_ := robot_driver.NrOfSegments
        NUM_OF_FRAMES_ := robot_driver.NrOfSegments + 1
        END_EFF_ := robot_driver.NrOfSegments - 1
        CTRL_DIM_ := List.replicate 6 false
        JOINT_TORQUE_LIMITS_ := robot_driver.joint_torque_limits
        current_error_twist_ := KDL.Twist.Zero
        predicted_error_twist_ := fun _ => 0
        transformed_error_ := fun _ => 0
        use_transformed_driver_ := true
        horizon_amplitude_ := 1.0
        horizon_slope_ := 4.5
        abag_command_ := fun _ => 0
        max_command_ := fun _ => 0
        motion_profile_ := fun _ => 1
        cart_force_command_ := List.replicate robot_driver.NrOfSegments KDL.Wrench.Zero
        desired_control_mode_ := ⟨control_mode.STOP_MOTION, false⟩
        desired_task_inteface_ := dynamics_interface.CART_FORCE
        store_control_data_ := false
        robot_state_ := robot_state
        desired_state_ := robot_state
        predicted_state_ := robot_state
        log_file_cart_ := false
        log_file_joint_ := false
        log_file_predictions_ := false
        world := world
        trace := [] }
    if !robot_driver.is_initialized then .assert_failed
    else if c.NUM_OF_JOINTS_ ≠ c.NUM_OF_SEGMENTS_ then .assert_failed
    else if ¬ (1 ≤ c.RATE_HZ_) then .assert_failed
    else if ¬ (c.RATE_HZ_ ≤ 10000) then .assert_failed
    else
      let c1 := { c with
        desired_control_mode_ := ⟨control_mode.STOP_MOTION, false⟩
        desired_task_inteface_ := dynamics_interface.CART_FORCE }
      -- `END_EFF_` is `NUM_OF_SEGMENTS_ - 1`, which is -1 for a chain without segments
      if robot_driver.NrOfSegments = 0 then .undefined .index_out_of_bounds
      else if c1.END_EFF_ < c1.cart_force_command_.length then
        .done { c1 with
          cart_force_command_ := c1.cart_force_command_.set c1.END_EFF_ KDL.Wrench.Zero }
      else .undefined .index_out_of_bounds

/-- Turn the result of a sequence of checked subscripts into an outcome. -/
def Outcome.ofChecked {β : Type} : Option β → Outcome β
  | some v => .done v
  | none => .undefined .index_out_of_bounds

/-- Source function `define_desired_ee_pose(constraint_direction, cartesian_pose)`:
six flags and twelve values (position, then the rotation matrix row by row) are
required; the flags become `CTRL_DIM_`, the values the desired end-effector pose.
Every subscript is checked. -/
def define_desired_ee_pose (constraint_direction : List Bool) (cartesian_pose : List α)
    (c : dynamics_controller α W) : Outcome (dynamics_controller α W) :=
  if constraint_direction.length ≠ 6 then .assert_failed
  else if cartesian_pose.length ≠ 6 * 2 then .assert_failed
  else
    let c1 := { c with CTRL_DIM_ := constraint_direction }
    Outcome.ofChecked do
      let pose ← c1.desired_state_.frame_pose[c1.END_EFF_]?
      let p0 ← cartesian_pose[0]?
      let p1 ← cartesian_pose[1]?
      let p2 ← cartesian_pose[2]?
      let pose := { pose with p := ⟨p0, p1, p2⟩ }
      let m0 ← cartesian_pose[3]?
      let m1 ← cartesian_pose[4]?
      let m2 ← cartesian_pose[5]?
      let m3 ← cartesian_pose[6]?
      let m4 ← cartesian_pose[7]?
      let m5 ← cartesian_pose[8]?
      let m6 ← cartesian_pose[9]?
      let m7 ← cartesian_pose[10]?
      let m8 ← cartesian_pose[11]?
      let pose := { pose with M := KDL.Rotation.ofEntries m0 m1 m2 m3 m4 m5 m6 m7 m8 }
      pure { c1 with
        desired_state_ :=
          { c1.desired_state_ with
            frame_pose := c1.desired_state_.frame_pose.set c1.END_EFF_ pose } }

/-- Source function `define_ee_acc_constraint(constraint_direction,
cartesian_acceleration)`: `set_ee_acc_constraints` on the desired state. -/
def define_ee_acc_constraint [LinearOrderedField α] (constraint_direction : List Bool)
    (cartesian_acceleration : List α) (c : dynamics_controller α W) :
    Outcome (dynamics_controller α W) :=
  match set_ee_acc_constraints c.desired_state_ constraint_direction cartesian_acceleration with
  | (.ret (), state) => .done { c with desired_state_ := state }
  | (_, _) => .assert_failed

/-- Source function `set_external_forces(state, external_force)`: six values
are required; they become the wrench on the end-effector segment. Every
subscript is checked. -/
def set_external_forces (c : dynamics_controller α W) (state : state_specification α)
    (external_force : List α) : Outcome (state_specification α) :=
  if external_force.length ≠ 6 then .assert_failed
  else
    Outcome.ofChecked do
      let _ ← state.external_force[c.END_EFF_]?
      let f0 ← external_force[0]?
      let f1 ← external_force[1]?
      let f2 ← external_force[2]?
      let f3 ← external_force[3]?
      let f4 ← external_force[4]?
      let f5 ← external_force[5]?
      pure { state with
        external_force := state.external_force.set c.END_EFF_ ⟨⟨f0, f1, f2⟩, ⟨f3, f4, f5⟩⟩ }

/-- Source function `define_ee_external_force(external_force)`:
`set_external_forces` on the desired state. -/
def define_ee_external_force (external_force : List α) (c : dynamics_controller α W) :
    Outcome (dynamics_controller α W) :=
  match set_external_forces c c.desired_state_ external_force with
  | .done state => .done { c with desired_state_ := state }
  | .assert_failed => .assert_failed
  | .undefined f => .undefined f

/-- One pass of the loop of `set_feedforward_torque`:
`state.feedforward_torque(i) = ff_torque[i]`, both subscripts checked. -/
def set_feedforward_torque_step (ff_torque : List α) (state : Option (state_specification α))
    (i : Nat) : Option (state_specification α) := do
  let st ← state
  let v ← ff_torque[i]?
  let _ ← st.feedforward_torque[i]?
  pure { st with feedforward_torque := st.feedforward_torque.set i v }

/-- Source function `set_feedforward_torque(state, ff_torque)`: `NUM_OF_JOINTS_`
values are required; value `i` becomes the feedforward torque of joint `i`. -/
def set_feedforward_torque (c : dynamics_controller α W) (state : state_specification α)
    (ff_torque : List α) : Outcome (state_specification α) :=
  if (ff_torque.length : Int) ≠ c.NUM_OF_JOINTS_ then .assert_failed
  else
    Outcome.ofChecked
      ((List.range c.NUM_OF_JOINTS_.toNat).foldl (set_feedforward_torque_step ff_torque)
        (some state))

/-- Source function `define_feedforward_torque(ff_torque)`:
`set_feedforward_torque` on the desired state. -/
def define_feedforward_torque (ff_torque : List α) (c : dynamics_controller α W) :
    Outcome (dynamics_controller α W) :=
  match set_feedforward_torque c c.desired_state_ ff_torque with
  | .done state => .done { c with desired_state_ := state }
  | .assert_failed => .assert_failed
  | .undefined f => .undefined f

/-- The shape the constructor gives a controller and every member function
keeps: six constraint flags, the end-effector index inside the per-segment
containers the controller writes to, and one feedforward torque per joint. -/
def shape_invariant (c : dynamics_controller α W) : Prop :=
  c.CTRL_DIM_.length = 6 ∧
    c.END_EFF_ < c.cart_force_command_.length ∧
    c.END_EFF_ < c.desired_state_.frame_pose.length ∧
    c.END_EFF_ < c.desired_state_.external_force.length ∧
    (c.desired_state_.feedforward_torque.length : Int) = c.NUM_OF_JOINTS_

end dynamics_controller

/-! ## Vocabulary of the statements about traces -/

/-- The events that decide how a cycle of the control loop ends: the status of
the dynamics solver, the answer of the safety module, and the overrun warning. -/
def critical : Event → Bool
  | .hd_CartToJnt _ => true
  | .set_control_commands _ _ => true
  | .print .loop_too_slow => true
  | _ => false

/-- The events of the three `close()` calls on the log streams. -/
def close_events (store_control_data : Bool) : List Event :=
  if store_control_data then
    [Event.file_close LogFile.cart, Event.file_close LogFile.joint,
      Event.file_close LogFile.predictions]
  else []

/-- The events a call appended to the trace: those of `c1` after the ones
already in `c`. -/
def events_since {α W : Type} (c c1 : dynamics_controller α W) : List Event :=
  c1.trace.drop c.trace.length

/-- A stretch of a run from `c` to `c1` that appends only events that are not
critical. -/
def Quiet {α W : Type} (c c1 : dynamics_controller α W) : Prop :=
  ∃ evs, c1.trace = c.trace ++ evs ∧ ∀ e ∈ evs, critical e = false

/-- Modelled from the spec: the property of `geometry::log_map_so3`
(geometry_utils is not part of the translated sources) that the error engine
relies on: the logarithmic map of a rotation and of its inverse are negatives of
each other. -/
def log_map_antisymmetric {α W : Type} [Neg α] (env : Env α W) : Prop :=
  ∀ R : KDL.Rotation α, env.log_map_so3 R.Inverse = (env.log_map_so3 R).neg

/-! ## The three steps of `compute_cart_control_commands` by name -/

namespace dynamics_controller

variable {α W : Type}

/-- The first statement of `compute_cart_control_commands`: the command of the
adaptive module, reconstructed by `transform_motion_driver` when
`use_transformed_driver_` is set and taken as it is otherwise. -/
def adaptive_command [LinearOrderedField α] (env : Env α W) (c : dynamics_controller α W) :
    dynamics_controller α W :=
  if c.use_transformed_driver_ then transform_motion_driver env c
  else
    let r := env.abag_update_state c.world c.predicted_error_twist_
    emit .abag_update_state { c with world := r.1, abag_command_ := r.2 }

/-- The second statement of `compute_cart_control_commands`: the loop that
stores the motion profile of the axes 0, 1 and 2. -/
def apply_motion_profile [LinearOrderedField α] (env : Env α W)
    (c : dynamics_controller α W) : dynamics_controller α W :=
  { c with
    motion_profile_ := ([0, 1, 2] : List (Fin 6)).foldl
      (fun prof i => Function.update prof i
        (env.negative_step_decision_map (env.Norm c.current_error_twist_.vel)
          (c.max_command_ i) 0.25 0.4 0.1))
      c.motion_profile_ }

/-- The loop of the CART_FORCE branch of `compute_cart_control_commands`. -/
def write_cart_force [LinearOrderedField α] (c : dynamics_controller α W) :
    dynamics_controller α W :=
  ([0, 1, 2, 3, 4, 5] : List (Fin 6)).foldl
    (fun cc i => { cc with
      cart_force_command_ := cc.cart_force_command_.set cc.END_EFF_
        ((cc.cart_force_command_.getD cc.END_EFF_ KDL.Wrench.Zero).set i
          (if cc.CTRL_DIM_.getD i.val false then cc.abag_command_ i * cc.motion_profile_ i
           else 0)) })
    c

/-- The end-effector entry `cart_force_command_[END_EFF_]` of the controller. -/
def ee_force [Zero α] (c : dynamics_controller α W) : KDL.Wrench α :=
  c.cart_force_command_.getD c.END_EFF_ KDL.Wrench.Zero

end dynamics_controller


/-- Modelled from the spec: the value of `geometry::log_map_so3` (geometry_utils
is not part of the translated sources) at the identity rotation, the zero
rotation vector: the geodesic rotation vector of no rotation. It also follows
from the logarithmic maps of a rotation and of its inverse being negatives of
each other, the identity being its own inverse. -/
def log_map_identity {α W : Type} [Zero α] [One α] (env : Env α W) : Prop :=
  env.log_map_so3 KDL.Rotation.Identity = KDL.Vector.Zero

/-- Modelled from the spec: the bound on `motion_profile::negative_step_decision_map`
(the motion profile is not part of the translated sources): for a maximum
command that is not negative the multiplier lies between 0 and the maximum
command. -/
def motion_profile_bounded {α W : Type} [LinearOrderedField α] (env : Env α W) : Prop :=
  ∀ state max_command delta upper lower : α, 0 ≤ max_command →
    0 ≤ env.negative_step_decision_map state max_command delta upper lower ∧
      env.negative_step_decision_map state max_command delta upper lower ≤ max_command


/-! ## The stages of a cycle of control() and of step() by name -/

namespace dynamics_controller

variable {α W : Type}

/-- The start of a cycle of control(): the reading of the clock into
`loop_start_time_` and the call of `get_current_state` that opens
`update_current_state`. After it the joint positions and velocities of the
cycle are in `robot_state_`, where step() puts its two inputs. -/
def read_joint_state (env : Env α W) (c : dynamics_controller α W) :
    dynamics_controller α W :=
  let t := env.now c.world
  let c1 := { c with world := t.1, loop_start_time_ := t.2 }
  let r := env.get_current_state c1.world c1.robot_state_
  emit .get_current_state { c1 with world := r.1, robot_state_ := r.2 }

/-- The status that `fk_vereshchagin_.JntToCart` returns when it is called on
the joint state stored in `c`. -/
def fk_status (env : Env α W) (c : dynamics_controller α W) : Int :=
  (env.fk_JntToCart c.world c.robot_state_.q c.robot_state_.qd
    c.robot_state_.frame_pose c.robot_state_.frame_velocity).2.1

/-- The first two statements of step(): the inputs are stored as the joint
state. -/
def store_joint_state (q_input qd_input : List α) (c : dynamics_controller α W) :
    dynamics_controller α W :=
  { c with robot_state_ := { c.robot_state_ with q := q_input, qd := qd_input } }

/-- The statements of a cycle of control() that follow a successful call of
`evaluate_dynamics`: the commands go through the safety module, a stop ends
control() with -1 after the `close()` calls, and otherwise the period is
enforced. step() has none of them. -/
def finish_cycle [LinearOrderedField α] (env : Env α W) (store_control_data : Bool)
    (fuel : Nat) (c : dynamics_controller α W) :
    Result (Option Int) × dynamics_controller α W :=
  match apply_joint_control_commands env c with
  | (.assert_failed, c6) => (.assert_failed, c6)
  | (.running, c6) => (.running, c6)
  | (.ret a, c6) =>
    if a ≠ 0 then
      (.ret (some (-1)), if store_control_data then close_logs c6 else c6)
    else
      check_loop_frequency env fuel c6

/-- The call of the forward-kinematics solver on the joint state stored in `c`,
as `update_current_state` and step() both make it: the status goes to the trace,
the poses and velocities of the frames into `robot_state_`. -/
def forward_kinematics (env : Env α W) (c : dynamics_controller α W) :
    dynamics_controller α W :=
  let k := env.fk_JntToCart c.world c.robot_state_.q c.robot_state_.qd
    c.robot_state_.frame_pose c.robot_state_.frame_velocity
  emit (.fk_JntToCart k.2.1)
    { c with
      world := k.1
      robot_state_ :=
        { c.robot_state_ with frame_pose := k.2.2.1, frame_velocity := k.2.2.2 } }

/-- The statements of a cycle of control() that follow
`compute_cart_control_commands`: the record on the logs, the dynamics solver
with the stop on its failure, and then `finish_cycle`. -/
def solve_and_finish [LinearOrderedField α] (env : Env α W) (store_control_data : Bool)
    (fuel : Nat) (c : dynamics_controller α W) :
    Result (Option Int) × dynamics_controller α W :=
  let c5 := if store_control_data then write_to_file c else c
  let d := evaluate_dynamics env c5
  if d.1 ≠ 0 then
    let c6 := stop_robot_motion env d.2
    let c7 := if store_control_data then close_logs c6 else c6
    (.ret (some (-1)), emit (.print .dynamics_solver_error) c7)
  else finish_cycle env store_control_data fuel d.2

end dynamics_controller


/-! ## Sample collaborators and a sample controller over the rationals -/

/-- A state with `n` joints and `n` segments, everything zero, all frames at
the identity pose. -/
def sample_state (n : Nat) : state_specification ℚ where
  q := List.replicate n 0
  qd := List.replicate n 0
  qdd := List.replicate n 0
  feedforward_torque := List.replicate n 0
  control_torque := List.replicate n 0
  ee_unit_constraint_force := fun _ => KDL.Twist.Zero
  ee_acceleration_energy := fun _ => 0
  external_force := List.replicate n KDL.Wrench.Zero
  frame_pose := List.replicate (n + 1) KDL.Frame.Identity
  frame_velocity := List.replicate (n + 1) KDL.Twist.Zero

/-- Scripted collaborators over the rationals. The hidden state counts the
readings of the clock; reading number `k` shows `clock k` microseconds. The
dynamics solver always returns `hd_status`, the safety module always returns
`safe_mode`, the forward kinematics always succeeds, files always open, the
adaptive module returns its input, and the logarithmic map is the vector of the
skew-symmetric part of the rotation matrix. -/
def sample_env (hd_status : Int) (safe_mode : control_mode) (clock : Nat → ℚ) : Env ℚ Nat where
  now := fun w => (w + 1, clock w)
  get_current_state := fun w s => (w, s)
  set_control_commands := fun w _ _ _ _ => (w, safe_mode)
  stop_robot_motion := fun w => w
  fk_JntToCart := fun w _ _ poses twists => (w, 0, poses, twists)
  hd_CartToJnt := fun w s _ => (w, hd_status, s.qdd, s.feedforward_torque)
  hd_get_control_torque := fun w t => (w, t)
  abag_update_state := fun w e => (w, e)
  integrate_cartesian_space := fun w cur _ _ _ => (w, cur)
  open_file := fun w _ => (w, true)
  log_map_so3 := fun R =>
    ⟨(R.data 7 - R.data 5) / 2, (R.data 2 - R.data 6) / 2, (R.data 3 - R.data 1) / 2⟩
  Norm := fun v => |v.x| + |v.y| + |v.z|
  negative_step_decision_map := fun _ max_command _ _ _ => max_command

/-- A controller for a chain of two joints running at `rate_hz`, as the
constructor leaves it, with the period `dt_micro`. -/
def sample_controller (rate_hz dt_micro : Int) : dynamics_controller ℚ Nat where
  RATE_HZ_ := rate_hz
  DT_MICRO_ := dt_micro
  DT_SEC_ := 1 / (rate_hz : ℚ)
  loop_start_time_ := 0
  loop_interval_ := 0
  NUM_OF_JOINTS_ := 2
  NUM_OF_SEGMENTS_ := 2
  NUM_OF_FRAMES_ := 3
  END_EFF_ := 1
  CTRL_DIM_ := List.replicate 6 false
  JOINT_TORQUE_LIMITS_ := [10, 10]
  current_error_twist_ := KDL.Twist.Zero
  predicted_error_twist_ := fun _ => 0
  transformed_error_ := fun _ => 0
  use_transformed_driver_ := true
  horizon_amplitude_ := 1
  horizon_slope_ := 9 / 2
  abag_command_ := fun _ => 0
  max_command_ := fun _ => 0
  motion_profile_ := fun _ => 1
  cart_force_command_ := List.replicate 2 KDL.Wrench.Zero
  desired_control_mode_ := ⟨control_mode.STOP_MOTION, false⟩
  desired_task_inteface_ := dynamics_interface.CART_FORCE
  store_control_data_ := false
  robot_state_ := sample_state 2
  desired_state_ := sample_state 2
  predicted_state_ := sample_state 2
  log_file_cart_ := false
  log_file_joint_ := false
  log_file_predictions_ := false
  world := 0
  trace := []

/-- The scripted collaborators with a stop command that leaves a mark: every
`stop_robot_motion` of the safety module adds 1000 to the hidden state, every
reading of the clock adds 1. -/
def sample_env_stop_marker (hd_status : Int) (safe_mode : control_mode) : Env ℚ Nat :=
  { sample_env hd_status safe_mode (fun k => (2000 : ℚ) * k) with
    stop_robot_motion := fun w => w + 1000 }

/-- An initialised driver of a chain with two joints and two segments. -/
def sample_driver : dynamics_controller.robot_mediator ℚ where
  is_initialized := true
  NrOfJoints := 2
  NrOfSegments := 2
  joint_torque_limits := [10, 10]


/-- The scripted collaborators with a forward-kinematics solver that returns
status 5 on every call and leaves the frames as they are. -/
def sample_env_fk_failure : Env ℚ Nat :=
  { sample_env 0 control_mode.TORQUE (fun k => (2000 : ℚ) * k) with
    fk_JntToCart := fun w _ _ poses twists => (w, 5, poses, twists) }


/-! ## The conversions of `kdl_eigen_conversions.cpp` -/

namespace Eigen

/-- The type `Eigen::Matrix3d`: entry `(r, c)` by row and column. -/
abbrev Matrix3d (α : Type) := Fin 3 → Fin 3 → α

/-- The assignment `eigen_matrix(r, c) = v`. -/
def Matrix3d.set {α : Type} (m : Matrix3d α) (r c : Fin 3) (v : α) : Matrix3d α :=
  fun i j => if i = r ∧ j = c then v else m i j

end Eigen

/-- The assignment `kdl_matrix.data[i] = v`. -/
def KDL.Rotation.set {α : Type} (m : KDL.Rotation α) (i : Fin 9) (v : α) : KDL.Rotation α :=
  ⟨Function.update m.data i v⟩

namespace conversions

variable {α : Type}

/-- Source function `rotation_to_eigen(kdl_matrix, eigen_matrix)`: the nine assignments to the
output parameter `eigen_matrix`; the result is the matrix after the call. -/
def rotation_to_eigen (kdl_matrix : KDL.Rotation α) (eigen_matrix : Eigen.Matrix3d α) :
    Eigen.Matrix3d α :=
  let eigen_matrix := eigen_matrix.set 0 0 (kdl_matrix.data 0)
  let eigen_matrix := eigen_matrix.set 0 1 (kdl_matrix.data 1)
  let eigen_matrix := eigen_matrix.set 0 2 (kdl_matrix.data 2)
  let eigen_matrix := eigen_matrix.set 1 0 (kdl_matrix.data 3)
  let eigen_matrix := eigen_matrix.set 1 1 (kdl_matrix.data 4)
  let eigen_matrix := eigen_matrix.set 1 2 (kdl_matrix.data 5)
  let eigen_matrix := eigen_matrix.set 2 0 (kdl_matrix.data 6)
  let eigen_matrix := eigen_matrix.set 2 1 (kdl_matrix.data 7)
  let eigen_matrix := eigen_matrix.set 2 2 (kdl_matrix.data 8)
  eigen_matrix

/-- Source function `eigen_to_rotation(eigen_matrix, kdl_matrix)`: the nine assignments to the
output parameter `kdl_matrix`; the result is the rotation after the call. -/
def eigen_to_rotation (eigen_matrix : Eigen.Matrix3d α) (kdl_matrix : KDL.Rotation α) :
    KDL.Rotation α :=
  let kdl_matrix := kdl_matrix.set 0 (eigen_matrix 0 0)
  let kdl_matrix := kdl_matrix.set 1 (eigen_matrix 0 1)
  let kdl_matrix := kdl_matrix.set 2 (eigen_matrix 0 2)
  let kdl_matrix := kdl_matrix.set 3 (eigen_matrix 1 0)
  let kdl_matrix := kdl_matrix.set 4 (eigen_matrix 1 1)
  let kdl_matrix := kdl_matrix.set 5 (eigen_matrix 1 2)
  let kdl_matrix := kdl_matrix.set 6 (eigen_matrix 2 0)
  let kdl_matrix := kdl_matrix.set 7 (eigen_matrix 2 1)
  let kdl_matrix := kdl_matrix.set 8 (eigen_matrix 2 2)
  kdl_matrix

/-- The position of entry `(r, c)` in the row-major array `data`. -/
def row_major (r c : Fin 3) : Fin 9 := ⟨3 * r.val + c.val, by omega⟩

end conversions


/-- The sample controller with a predicted error of (3, 4, 0) in its linear
part, of Euclidean norm 5, and nothing in its angular part. -/
def sample_controller_with_error : dynamics_controller ℚ Nat :=
  { sample_controller 650 1538 with
    predicted_error_twist_ := fun i => if i = 0 then 3 else if i = 1 then 4 else 0
    transformed_error_ := fun i => if i = 0 then 5 else 0 }


/-! ## The reset of the desired state -/

/-- Modelled from the spec: `state_specification::reset_values()`
(state_specification.hpp is not part of the translated sources): the values of
a state are reset to zero. Every number becomes 0 and every pose the identity
pose (no displacement, no rotation); the containers keep their sizes. -/
def state_specification.reset_values {α : Type} [Zero α] [One α]
    (s : state_specification α) : state_specification α where
  q := List.replicate s.q.length 0
  qd := List.replicate s.qd.length 0
  qdd := List.replicate s.qdd.length 0
  feedforward_torque := List.replicate s.feedforward_torque.length 0
  control_torque := List.replicate s.control_torque.length 0
  ee_unit_constraint_force := fun _ => KDL.Twist.Zero
  ee_acceleration_energy := fun _ => 0
  external_force := List.replicate s.external_force.length KDL.Wrench.Zero
  frame_pose := List.replicate s.frame_pose.length KDL.Frame.Identity
  frame_velocity := List.replicate s.frame_velocity.length KDL.Twist.Zero

/-- What a parameter of type `state_specification &` can refer to: one of the
three states of the controller, or a state outside it. -/
inductive state_reference (α : Type)
  | robot_state_
  | desired_state_
  | predicted_state_
  | other (s : state_specification α)

namespace dynamics_controller

variable {α W : Type}

/-- The state a reference stands for, in the controller `c`. -/
def dereference (state : state_reference α) (c : dynamics_controller α W) :
    state_specification α :=
  match state with
  | .robot_state_ => c.robot_state_
  | .desired_state_ => c.desired_state_
  | .predicted_state_ => c.predicted_state_
  | .other s => s

/-- Source function `reset_state(state)`: the body is `desired_state_.reset_values()`; the
parameter is not used. The result is the controller after the call together
with the reference it was given. -/
def reset_state [Zero α] [One α] (state : state_reference α) (c : dynamics_controller α W) :
    dynamics_controller α W × state_reference α :=
  ({ c with desired_state_ := c.desired_state_.reset_values }, state)

/-- Source function `reset_desired_state()`: `reset_state(desired_state_)`. -/
def reset_desired_state [Zero α] [One α] (c : dynamics_controller α W) :
    dynamics_controller α W :=
  (reset_state state_reference.desired_state_ c).1

end dynamics_controller

/-! ## The ordering of the control modes -/

/-- Modelled from the spec: the ordering TORQUE > VELOCITY > POSITION >
STOP_MOTION of the control modes, as a rank. -/
def control_mode.rank : control_mode → Nat
  | .STOP_MOTION => 0
  | .POSITION => 1
  | .VELOCITY => 2
  | .TORQUE => 3

/-- Modelled from the spec: the safety module (safety_controller is not part of
the translated sources) never returns a mode above the requested one. -/
def never_upgrades {α W : Type} (env : Env α W) : Prop :=
  ∀ w state dt requested method,
    (env.set_control_commands w state dt requested method).2.rank ≤ requested.rank

/-! ## The pose integrator -/

namespace KDL

variable {α : Type}

/-- KDL `operator+(const Vector&, const Vector&)`: component-wise. -/
def Vector.add [Add α] (a b : Vector α) : Vector α :=
  ⟨a.x + b.x, a.y + b.y, a.z + b.z⟩

/-- KDL `operator*(const Vector&, double)`: every coordinate times the scalar. -/
def Vector.scale [Mul α] (a : Vector α) (k : α) : Vector α :=
  ⟨a.x * k, a.y * k, a.z * k⟩

/-- KDL `operator*(const Twist&, double)`: both parts times the scalar. -/
def Twist.scale [Mul α] (t : Twist α) (k : α) : Twist α :=
  ⟨t.vel.scale k, t.rot.scale k⟩

end KDL

/-- Modelled from the spec: what the pose integrator takes as given (the body
of `model_prediction::integrate_pose` and geometry_utils are not part of the
translated sources): the small epsilon of the small-angle test, the magnitude
of a rotation vector, the exponential map of SO(3), the wrapping of a rotation
vector whose angle exceeds π back into (−π, π], and the composition of the
exponential onto the current rotation, whose side the spec leaves open. -/
structure pose_integration (α : Type) where
  epsilon : α
  Norm : KDL.Vector α → α
  exp_map_so3 : KDL.Vector α → KDL.Rotation α
  rescale : KDL.Vector α → KDL.Vector α
  compose : KDL.Rotation α → KDL.Rotation α → KDL.Rotation α

namespace model_prediction

variable {α : Type}

/-- Modelled from the spec: `integrate_pose(current_pose, current_twist,
rescale_rotation)` (model_prediction.cpp is not part of the translated sources;
the header declares the function). The twist is already scaled with the time
step. The new position is the old position plus the linear part. When the
magnitude of the angular part is below the epsilon the rotation is left as it
is; otherwise the exponential map of the angular part, rescaled first when
`rescale_rotation` is set, is composed onto the current rotation. -/
def integrate_pose [LinearOrderedField α] (g : pose_integration α)
    (current_pose : KDL.Frame α) (current_twist : KDL.Twist α) (rescale_rotation : Bool) :
    KDL.Frame α :=
  let p := current_pose.p.add current_twist.vel
  if g.Norm current_twist.rot < g.epsilon then { current_pose with p := p }
  else
    let rot := if rescale_rotation then g.rescale current_twist.rot else current_twist.rot
    { p := p, M := g.compose current_pose.M (g.exp_map_so3 rot) }

end model_prediction

/-- A pose integrator over the rationals for concrete runs: epsilon 1e-6, the
sum of the absolute coordinates as magnitude, and stand-ins for the exponential
map and the composition. -/
def sample_pose_integration : pose_integration ℚ where
  epsilon := 1e-6
  Norm := fun v => |v.x| + |v.y| + |v.z|
  exp_map_so3 := fun _ => KDL.Rotation.Identity
  rescale := fun v => v
  compose := fun a b => a.mul b

/-- The scripted collaborators with a safety module that returns the mode it
is asked for. -/
def sample_env_obedient : Env ℚ Nat :=
  { sample_env 0 control_mode.TORQUE (fun k => (2000 : ℚ) * k) with
    set_control_commands := fun w _ _ requested _ => (w, requested) }


/-! ## What ends control() -/

/-- The events that end the loop of control(): a call of the dynamics solver
with a non-zero status, or a STOP_MOTION answered by the safety module. -/
def ends_the_loop (evs : List Event) : Prop :=
  (∃ st, st ≠ 0 ∧ Event.hd_CartToJnt st ∈ evs) ∨
    ∃ requested, Event.set_control_commands requested control_mode.STOP_MOTION ∈ evs

/-- Collaborators that never fail: the dynamics solver always returns status 0,
the safety module always answers with the mode it is asked for, and every log
file opens. -/
def never_fail {α W : Type} (env : Env α W) : Prop :=
  (∀ w state forces, (env.hd_CartToJnt w state forces).2.1 = 0) ∧
    (∀ w state dt requested method,
      (env.set_control_commands w state dt requested method).2 = requested) ∧
    ∀ w f, (env.open_file w f).2 = true

/-- The requested control mode and the dynamics interface of `c1` are those of
`c`. -/
def same_task {α W : Type} (c c1 : dynamics_controller α W) : Prop :=
  c1.desired_control_mode_.interface = c.desired_control_mode_.interface ∧
    c1.desired_task_inteface_ = c.desired_task_inteface_

namespace dynamics_controller

variable {α W : Type}

/-- The statements of control() between the test for STOP_MOTION and the loop:
the robot is stopped, the state is read, the settings are printed and, when
`store_control_data` is set, the log files are opened. The flag tells whether
control() goes on to its loop. -/
def control_start (env : Env α W) (store_control_data : Bool)
    (c : dynamics_controller α W) : Bool × dynamics_controller α W :=
  let c2 := stop_robot_motion env c
  let c3 := update_dynamics_interfaces (update_current_state env c2)
  let c4 := print_settings_info c3
  if store_control_data then
    let l := open_logs env c4
    if l.1 then (true, emit (.file_write .joint) l.2)
    else (false, emit (.print .unable_to_open_file) l.2)
  else (true, c4)

end dynamics_controller


/-! ## The prediction horizon -/

namespace dynamics_controller

variable {α W : Type}

/-- The controller `c` with the value `slope` in its member `horizon_slope_`. -/
def with_horizon_slope (slope : α) (c : dynamics_controller α W) : dynamics_controller α W :=
  { c with horizon_slope_ := slope }

end dynamics_controller


/-- The scripted collaborators with a safety module that answers every request
with the next lower mode of the ordering (VELOCITY to TORQUE, POSITION to
VELOCITY, STOP_MOTION to the rest) and counts its calls in the hidden state, and
with a stop command that adds 1000 to the hidden state. -/
def sample_env_downgrading : Env ℚ Nat :=
  { sample_env_stop_marker 0 control_mode.TORQUE with
    set_control_commands := fun w _ _ requested _ =>
      (w + 1,
        match requested with
        | .TORQUE => control_mode.VELOCITY
        | .VELOCITY => control_mode.POSITION
        | _ => control_mode.STOP_MOTION) }


/-! ## Poses a quarter-turn and a half-turn apart -/

/-- The rotation by a quarter-turn about the z axis. -/
def sample_quarter_turn_z : KDL.Rotation ℚ :=
  KDL.Rotation.ofEntries 0 (-1) 0 1 0 0 0 0 1

/-- The rotation by a half-turn about the z axis, which is its own inverse. -/
def sample_half_turn_z : KDL.Rotation ℚ :=
  KDL.Rotation.ofEntries (-1) 0 0 0 (-1) 0 0 0 1

/-- A state of the two-segment chain with every frame at the position `p` with
the orientation `M`. -/
def sample_state_at (p : KDL.Vector ℚ) (M : KDL.Rotation ℚ) : state_specification ℚ :=
  { sample_state 2 with frame_pose := List.replicate 3 ⟨p, M⟩ }

/-- Modelled from the spec: a logarithmic map (geometry_utils is not part of the
translated sources) that gives a rotation vector along z that is not zero at the
half-turn about the z axis, as the geodesic rotation vector does, whose length
there is the angle of the turn; the rational 22/7 stands for that length. At
every other rotation it is the sample map, the vector of the skew-symmetric
part. -/
def sample_env_half_turn : Env ℚ Nat :=
  { sample_env 0 control_mode.TORQUE (fun _ => 0) with
    log_map_so3 := fun R =>
      if R.data 0 = -1 ∧ R.data 4 = -1 ∧ R.data 8 = 1 then ⟨0, 0, 22 / 7⟩
      else ⟨(R.data 7 - R.data 5) / 2, (R.data 2 - R.data 6) / 2, (R.data 3 - R.data 1) / 2⟩ }


/-! ## Theorems -/

namespace dynamics_controller

variable {α W : Type}

/-- C1: for every pair of states, `displacement_twist` returns the twist whose
linear part is the component-wise difference of the two end-effector positions
(no rotation enters it) and whose angular part is the logarithmic map of the
rotation of the first state times the inverse of the rotation of the second. -/
theorem displacement_twist_spec [LinearOrderedField α] (env : Env α W) (end_eff : Nat)
    (state_a state_b : state_specification α) :
    (displacement_twist env end_eff state_a state_b).vel =
        ⟨(ee_pose end_eff state_a).p.x - (ee_pose end_eff state_b).p.x,
         (ee_pose end_eff state_a).p.y - (ee_pose end_eff state_b).p.y,
         (ee_pose end_eff state_a).p.z - (ee_pose end_eff state_b).p.z⟩ ∧
      (displacement_twist env end_eff state_a state_b).rot =
        env.log_map_so3
          (KDL.Rotation.mul (ee_pose end_eff state_a).M
            (KDL.Rotation.Inverse (ee_pose end_eff state_b).M)) :=
  ⟨rfl, rfl⟩

/-- Entry `i` of a rotation built from nine entries. -/
theorem ofEntries_data {β : Type} (d0 d1 d2 d3 d4 d5 d6 d7 d8 : β) :
    (KDL.Rotation.ofEntries d0 d1 d2 d3 d4 d5 d6 d7 d8).data 0 = d0 ∧
    (KDL.Rotation.ofEntries d0 d1 d2 d3 d4 d5 d6 d7 d8).data 1 = d1 ∧
    (KDL.Rotation.ofEntries d0 d1 d2 d3 d4 d5 d6 d7 d8).data 2 = d2 ∧
    (KDL.Rotation.ofEntries d0 d1 d2 d3 d4 d5 d6 d7 d8).data 3 = d3 ∧
    (KDL.Rotation.ofEntries d0 d1 d2 d3 d4 d5 d6 d7 d8).data 4 = d4 ∧
    (KDL.Rotation.ofEntries d0 d1 d2 d3 d4 d5 d6 d7 d8).data 5 = d5 ∧
    (KDL.Rotation.ofEntries d0 d1 d2 d3 d4 d5 d6 d7 d8).data 6 = d6 ∧
    (KDL.Rotation.ofEntries d0 d1 d2 d3 d4 d5 d6 d7 d8).data 7 = d7 ∧
    (KDL.Rotation.ofEntries d0 d1 d2 d3 d4 d5 d6 d7 d8).data 8 = d8 :=
  ⟨rfl, rfl, rfl, rfl, rfl, rfl, rfl, rfl, rfl⟩

/-- The inverse of `A * B.Inverse` is `B * A.Inverse`. -/
theorem rotation_inverse_mul_inverse {β : Type} [CommRing β] (A B : KDL.Rotation β) :
    KDL.Rotation.Inverse (KDL.Rotation.mul A (KDL.Rotation.Inverse B)) =
      KDL.Rotation.mul B (KDL.Rotation.Inverse A) := by
  ext i
  fin_cases i <;>
    simp only [KDL.Rotation.mul, KDL.Rotation.Inverse, ofEntries_data] <;>
    show _ = _ <;> simp only [KDL.Rotation.ofEntries] <;> ring

/-- The sample logarithmic map is antisymmetric under inversion. -/
theorem sample_env_log_map_antisymmetric (hd_status : Int) (safe_mode : control_mode)
    (clock : Nat → ℚ) : log_map_antisymmetric (sample_env hd_status safe_mode clock) := by
  intro R
  simp only [sample_env, KDL.Rotation.Inverse, ofEntries_data, KDL.Vector.neg]
  ext <;> simp only [] <;> ring

/-- C3: in `transform_motion_driver`, for the linear group (`g = 0`, components
0..2) and the angular group (`g = 3`, components 3..5), when the norm of the
group stored at index `g` is below 1e-10, the three reconstructed components of
the group are exactly 0, whatever the adaptive module returns. -/
theorem transform_motion_driver_zero_below_min_norm [LinearOrderedField α] (env : Env α W)
    (c : dynamics_controller α W) (g : Fin 6) (hg : g = 0 ∨ g = 3)
    (hnorm : c.transformed_error_ g < 1e-10) :
    (transform_motion_driver env c).abag_command_ g = 0 ∧
      (transform_motion_driver env c).abag_command_ (g + 1) = 0 ∧
      (transform_motion_driver env c).abag_command_ (g + 2) = 0 := by
  rcases hg with rfl | rfl
  · have h0 : ¬ (c.transformed_error_ 0 ≥ (MIN_NORM : α)) := not_le.mpr hnorm
    unfold transform_motion_driver
    simp only [emit, h0, if_false]
    split <;> simp [Function.update_apply]
  · have h3 : ¬ (c.transformed_error_ 3 ≥ (MIN_NORM : α)) := not_le.mpr hnorm
    unfold transform_motion_driver
    simp only [emit]
    split <;> simp [h3, Function.update_apply]

/-- C3, at a controller whose stored norms are 0 and an adaptive module that
returns 5 on every axis. -/
theorem transform_motion_driver_zero_below_min_norm_witness :
    ((0 : Fin 6) = 0 ∨ (0 : Fin 6) = 3) ∧
      (sample_controller 650 1538).transformed_error_ 0 < 1e-10 ∧
      ((transform_motion_driver
          { sample_env 0 control_mode.TORQUE (fun _ => 0) with
            abag_update_state := fun w _ => (w, fun _ => 5) }
          (sample_controller 650 1538)).abag_command_ 0 = 0 ∧
        (transform_motion_driver
          { sample_env 0 control_mode.TORQUE (fun _ => 0) with
            abag_update_state := fun w _ => (w, fun _ => 5) }
          (sample_controller 650 1538)).abag_command_ (0 + 1) = 0 ∧
        (transform_motion_driver
          { sample_env 0 control_mode.TORQUE (fun _ => 0) with
            abag_update_state := fun w _ => (w, fun _ => 5) }
          (sample_controller 650 1538)).abag_command_ (0 + 2) = 0) :=
  ⟨Or.inl rfl, by norm_num [sample_controller],
    transform_motion_driver_zero_below_min_norm _ _ 0 (Or.inl rfl)
      (by norm_num [sample_controller])⟩

/-- C7: after `apply_joint_control_commands` the stored `is_safe` flag is true
exactly when the mode returned by the safety module equals the requested
interface, and the requested interface is the one stored before the call. -/
theorem apply_joint_control_commands_is_safe (env : Env α W) (c : dynamics_controller α W) :
    ((apply_joint_control_commands env c).2.desired_control_mode_.is_safe = true ↔
        (env.set_control_commands c.world c.robot_state_ c.DT_SEC_
          c.desired_control_mode_.interface integration_method.SYMPLECTIC_EULER).2 =
          c.desired_control_mode_.interface) ∧
      (apply_joint_control_commands env c).2.desired_control_mode_.interface =
        c.desired_control_mode_.interface := by
  simp only [apply_joint_control_commands]
  generalize (env.set_control_commands c.world c.robot_state_ c.DT_SEC_
    c.desired_control_mode_.interface integration_method.SYMPLECTIC_EULER).2 = m
  cases m <;> cases hreq : c.desired_control_mode_.interface <;>
    simp [emit, stop_robot_motion, hreq]

/-- C10: `control` called with STOP_MOTION returns -1 for every fuel, having
only stored the mode and printed one message (no collaborator is called, no log
stream is touched); `initialize` called with STOP_MOTION fails its assertion
right after storing the mode. -/
theorem stop_motion_selected_aborts [LinearOrderedField α] (env : Env α W) (store_control_data : Bool) (fuel : Nat)
    (desired_task_inteface : dynamics_interface) (use_transformed_driver : Bool)
    (c : dynamics_controller α W) :
    control env control_mode.STOP_MOTION store_control_data fuel c =
        (Result.ret (-1),
          { c with
            desired_control_mode_ :=
              { c.desired_control_mode_ with interface := control_mode.STOP_MOTION }
            trace := c.trace ++ [Event.print Message.stop_motion_selected] }) ∧
      initialize_ env control_mode.STOP_MOTION desired_task_inteface use_transformed_driver
          store_control_data c =
        (Result.assert_failed,
          { c with
            desired_control_mode_ :=
              { c.desired_control_mode_ with interface := control_mode.STOP_MOTION } }) := by
  constructor
  · simp [control, emit]
  · simp [initialize_]

/-- Outside the ordering of the modes: at a request for VELOCITY that a scripted
safety module answers with TORQUE, the assertion of the TORQUE branch of
`apply_joint_control_commands` fails. -/
theorem apply_joint_control_commands_torque_not_requested :
    ((sample_env 0 control_mode.TORQUE (fun _ => 0)).set_control_commands 0 (sample_state 2)
        (1 / 650) control_mode.VELOCITY integration_method.SYMPLECTIC_EULER).2 =
        control_mode.TORQUE ∧
      (apply_joint_control_commands (sample_env 0 control_mode.TORQUE (fun _ => 0))
        { sample_controller 650 1538 with
          desired_control_mode_ := ⟨control_mode.VELOCITY, false⟩ }).1 =
        Result.assert_failed ∧
      (apply_joint_control_commands (sample_env 0 control_mode.TORQUE (fun _ => 0))
        { sample_controller 650 1538 with
          desired_control_mode_ := ⟨control_mode.VELOCITY, false⟩ }).1 ≠
        Result.ret 0 := by
  refine ⟨rfl, ?_, ?_⟩ <;>
    simp [apply_joint_control_commands, sample_env, sample_controller, emit]

/-- The result and the events of `apply_joint_control_commands` for every answer
of the safety module, inside the ordering of the modes or not: -1 and the stop
of the robot for STOP_MOTION, 0 for VELOCITY and POSITION (with a warning when
that is not the requested mode), 0 for a TORQUE that was requested, and a failed
assertion for a TORQUE that was not. -/
theorem apply_joint_control_commands_result (env : Env α W) (c : dynamics_controller α W) :
    (apply_joint_control_commands env c).1 =
        (match (env.set_control_commands c.world c.robot_state_ c.DT_SEC_
            c.desired_control_mode_.interface integration_method.SYMPLECTIC_EULER).2 with
          | control_mode.TORQUE =>
            if c.desired_control_mode_.interface = control_mode.TORQUE then Result.ret 0
            else Result.assert_failed
          | control_mode.VELOCITY => Result.ret 0
          | control_mode.POSITION => Result.ret 0
          | control_mode.STOP_MOTION => Result.ret (-1)) ∧
      ((apply_joint_control_commands env c).1 = Result.ret (-1) ↔
        (env.set_control_commands c.world c.robot_state_ c.DT_SEC_
          c.desired_control_mode_.interface integration_method.SYMPLECTIC_EULER).2 =
          control_mode.STOP_MOTION) ∧
      (apply_joint_control_commands env c).2.trace =
        c.trace ++
          [Event.set_control_commands c.desired_control_mode_.interface
            (env.set_control_commands c.world c.robot_state_ c.DT_SEC_
              c.desired_control_mode_.interface integration_method.SYMPLECTIC_EULER).2] ++
          (match (env.set_control_commands c.world c.robot_state_ c.DT_SEC_
              c.desired_control_mode_.interface integration_method.SYMPLECTIC_EULER).2 with
            | control_mode.TORQUE => []
            | control_mode.VELOCITY =>
              if c.desired_control_mode_.interface = control_mode.VELOCITY then []
              else [Event.print Message.switched_to_velocity]
            | control_mode.POSITION =>
              if c.desired_control_mode_.interface = control_mode.POSITION then []
              else [Event.print Message.switched_to_position]
            | control_mode.STOP_MOTION => [Event.stop_robot_motion]) := by
  simp only [apply_joint_control_commands]
  generalize (env.set_control_commands c.world c.robot_state_ c.DT_SEC_
    c.desired_control_mode_.interface integration_method.SYMPLECTIC_EULER).2 = m
  cases m <;> cases hreq : c.desired_control_mode_.interface <;>
    simp [emit, stop_robot_motion, hreq]

/-- What the busy-wait leaves behind: it returns only 0, only with an interval
that is not below the period, the interval it stores is a reading of the clock
minus the start of the cycle (or the one it started with), and it changes nothing
but the interval and the hidden state of the clock. -/
theorem busy_wait_spec [LinearOrderedField α] (env : Env α W) (fuel : Nat) :
    ∀ c : dynamics_controller α W,
      ((busy_wait env fuel c).1 = Result.ret 0 ∨ (busy_wait env fuel c).1 = Result.running) ∧
      ((busy_wait env fuel c).1 = Result.ret 0 →
        ((busy_wait env fuel c).2.DT_MICRO_ : α) ≤ (busy_wait env fuel c).2.loop_interval_) ∧
      (busy_wait env fuel c).2.DT_MICRO_ = c.DT_MICRO_ ∧
      (busy_wait env fuel c).2.loop_start_time_ = c.loop_start_time_ ∧
      (busy_wait env fuel c).2.trace = c.trace ∧
      ((busy_wait env fuel c).2 = c ∨
        ∃ w, (busy_wait env fuel c).2.loop_interval_ = (env.now w).2 - c.loop_start_time_ ∧
          (busy_wait env fuel c).2.world = (env.now w).1) := by
  induction fuel with
  | zero =>
    intro c
    unfold busy_wait
    by_cases h : c.loop_interval_ < (c.DT_MICRO_ : α)
    · simp [h]
    · simp [h, not_lt.mp h]
  | succ n ih =>
    intro c
    unfold busy_wait
    by_cases h : c.loop_interval_ < (c.DT_MICRO_ : α)
    · simp only [h, if_true]
      obtain ⟨h1, h2, h3, h4, h5, h6⟩ := ih
        { c with world := (env.now c.world).1,
                 loop_interval_ := (env.now c.world).2 - c.loop_start_time_ }
      refine ⟨h1, h2, h3, h4, h5, Or.inr ?_⟩
      rcases h6 with h6 | ⟨w, hw1, hw2⟩
      · exact ⟨c.world, by rw [h6], by rw [h6]⟩
      · exact ⟨w, hw1, hw2⟩
    · simp [h, not_lt.mp h]

/-- The period computed by the constructor for a rate between 1 and 10000 is the
integer part of 1000000 / rate. -/
theorem DT_MICRO_of_bounds (R dt : Int) (hR1 : 1 ≤ R) (hdt : DT_MICRO_of R = some dt) :
    dt * R ≤ 1000000 ∧ 1000000 < (dt + 1) * R := by
  have hpos : (0 : Int) < R := by omega
  have hne : R ≠ 0 := by omega
  simp only [DT_MICRO_of, hne, if_false, Option.some.injEq, SECOND] at hdt
  have hnn : (0 : Int) ≤ 1000000 := by norm_num
  rw [Int.tdiv_eq_ediv hnn hpos.le] at hdt
  subst hdt
  constructor
  · exact Int.ediv_mul_le _ hne
  · have := Int.lt_ediv_add_one_mul_self 1000000 hpos
    linarith

/-- Whenever `enforce_loop_frequency` returns, the interval it leaves is a
reading of the clock minus the start of the cycle and is not below the period;
nothing but the interval and the hidden state of the clock has changed. -/
theorem enforce_loop_frequency_spec [LinearOrderedField α] (env : Env α W) (fuel : Nat)
    (c : dynamics_controller α W) :
    ((enforce_loop_frequency env fuel c).1 = Result.ret 0 ∨
        (enforce_loop_frequency env fuel c).1 = Result.ret (-1) ∨
        (enforce_loop_frequency env fuel c).1 = Result.running) ∧
      ((enforce_loop_frequency env fuel c).1 = Result.ret (-1) ↔
        ¬ ((env.now c.world).2 - c.loop_start_time_ < (c.DT_MICRO_ : α))) ∧
      ((enforce_loop_frequency env fuel c).1 ≠ Result.running →
        (c.DT_MICRO_ : α) ≤ (enforce_loop_frequency env fuel c).2.loop_interval_) ∧
      (enforce_loop_frequency env fuel c).2.DT_MICRO_ = c.DT_MICRO_ ∧
      (enforce_loop_frequency env fuel c).2.loop_start_time_ = c.loop_start_time_ ∧
      (enforce_loop_frequency env fuel c).2.trace = c.trace ∧
      (∃ w, (enforce_loop_frequency env fuel c).2.loop_interval_ =
          (env.now w).2 - c.loop_start_time_ ∧
        (enforce_loop_frequency env fuel c).2.world = (env.now w).1) := by
  unfold enforce_loop_frequency
  by_cases h : (env.now c.world).2 - c.loop_start_time_ < (c.DT_MICRO_ : α)
  · simp only [h, if_true, not_true_eq_false, iff_false]
    obtain ⟨h1, h2, h3, h4, h5, h6⟩ := busy_wait_spec env fuel
      { c with world := (env.now c.world).1,
               loop_interval_ := (env.now c.world).2 - c.loop_start_time_ }
    refine ⟨?_, ?_, ?_, h3, h4, h5, ?_⟩
    · rcases h1 with h1 | h1
      · exact Or.inl h1
      · exact Or.inr (Or.inr h1)
    · rcases h1 with h1 | h1 <;> simp [h1]
    · intro hne
      rcases h1 with h1 | h1
      · have := h2 h1
        rw [h3] at this
        exact this
      · exact absurd h1 hne
    · rcases h6 with h6 | h6
      · exact ⟨c.world, by rw [h6], by rw [h6]⟩
      · exact h6
  · rw [if_neg h]
    exact ⟨Or.inr (Or.inl rfl), ⟨fun _ => h, fun _ => rfl⟩, fun _ => not_lt.mp h, rfl, rfl, rfl,
      c.world, rfl, rfl⟩

/-- C8 as stated fails: at 650 Hz the period is 1538 microseconds; with the
cycle started at 0 and the clock showing 1000 and then 1538.2 microseconds,
`enforce_loop_frequency` waits and returns 0 when 1538.2 microseconds have
elapsed, which is less than 1/650 of a second. -/
theorem enforce_loop_frequency_returns_before_inverse_rate :
    DT_MICRO_of 650 = some (sample_controller 650 1538).DT_MICRO_ ∧
      (enforce_loop_frequency
        (sample_env 0 control_mode.TORQUE (fun k => if k = 0 then 1000 else 7691 / 5)) 3
        (sample_controller 650 1538)).1 = Result.ret 0 ∧
      (enforce_loop_frequency
        (sample_env 0 control_mode.TORQUE (fun k => if k = 0 then 1000 else 7691 / 5)) 3
        (sample_controller 650 1538)).2.loop_interval_ / 1000000 < 1 / 650 := by
  refine ⟨by decide, ?_, ?_⟩ <;>
    norm_num [enforce_loop_frequency, busy_wait, sample_env, sample_controller]

/-- C8, amended: for a rate `R` of at least 1 Hz (in particular between 1 and
10000 Hz) and the period `DT_MICRO_ = 1000000 / R` of the constructor (integer
division), whenever `enforce_loop_frequency` returns, the interval since the
start of the cycle, a reading of the clock, is at least `DT_MICRO_`
microseconds; that is more than 1/R seconds less one microsecond, and at least
1/R seconds when `R` divides 1000000. -/
theorem enforce_loop_frequency_elapsed [LinearOrderedField α] (env : Env α W) (fuel : Nat)
    (c : dynamics_controller α W) (R : Int) (hR : 1 ≤ R)
    (hdt : DT_MICRO_of R = some c.DT_MICRO_) (v : Int) (c' : dynamics_controller α W)
    (hret : enforce_loop_frequency env fuel c = (Result.ret v, c')) :
    (c.DT_MICRO_ : α) ≤ c'.loop_interval_ ∧
      (∃ w, c'.loop_interval_ = (env.now w).2 - c.loop_start_time_ ∧
        c'.world = (env.now w).1) ∧
      (1000000 : α) / (R : α) - 1 < c'.loop_interval_ ∧
      (R ∣ 1000000 → (1000000 : α) / (R : α) ≤ c'.loop_interval_) := by
  obtain ⟨-, -, h3, -, -, -, h7⟩ := enforce_loop_frequency_spec env fuel c
  rw [hret] at h3 h7
  have hle : (c.DT_MICRO_ : α) ≤ c'.loop_interval_ := h3 (by simp)
  obtain ⟨hlo, hhi⟩ := DT_MICRO_of_bounds R c.DT_MICRO_ hR hdt
  have hRpos : (0 : α) < (R : α) := by exact_mod_cast (by omega : (0 : Int) < R)
  have hhi' : (1000000 : α) < ((c.DT_MICRO_ : α) + 1) * (R : α) := by exact_mod_cast hhi
  refine ⟨hle, h7, ?_, ?_⟩
  · have : (1000000 : α) / (R : α) < (c.DT_MICRO_ : α) + 1 := by
      rw [div_lt_iff₀ hRpos]
      exact hhi'
    linarith
  · rintro ⟨k, hk⟩
    have hne : R ≠ 0 := by omega
    have hdt' : c.DT_MICRO_ = k := by
      have h1 : DT_MICRO_of R = some k := by
        simp only [DT_MICRO_of, hne, if_false, SECOND, hk]
        rw [Int.mul_tdiv_cancel_left _ hne]
      rw [hdt] at h1
      exact Option.some.inj h1
    have hk' : (1000000 : α) = (R : α) * (k : α) := by exact_mod_cast hk
    rw [hk', mul_div_cancel_left₀ _ (ne_of_gt hRpos), ← hdt']
    exact hle

/-- C8, at 650 Hz with the clock showing 1000 and then 2000 microseconds. -/
theorem enforce_loop_frequency_elapsed_witness :
    (1 : Int) ≤ 650 ∧
      DT_MICRO_of 650 = some (sample_controller 650 1538).DT_MICRO_ ∧
      enforce_loop_frequency
          (sample_env 0 control_mode.TORQUE (fun k => if k = 0 then 1000 else 2000)) 3
          (sample_controller 650 1538) =
        (Result.ret 0, { sample_controller 650 1538 with world := 2, loop_interval_ := 2000 }) ∧
      (((sample_controller 650 1538).DT_MICRO_ : ℚ) ≤ 2000 ∧
        (1000000 : ℚ) / ((650 : Int) : ℚ) - 1 < 2000) := by
  have h : enforce_loop_frequency
      (sample_env 0 control_mode.TORQUE (fun k => if k = 0 then 1000 else 2000)) 3
      (sample_controller 650 1538) =
      (Result.ret 0, { sample_controller 650 1538 with world := 2, loop_interval_ := 2000 }) := by
    norm_num [enforce_loop_frequency, busy_wait, sample_env, sample_controller]
  exact ⟨by decide, by decide, h,
    (enforce_loop_frequency_elapsed _ 3 _ 650 (by decide) (by decide) 0 _ h).1,
    (enforce_loop_frequency_elapsed _ 3 _ 650 (by decide) (by decide) 0 _ h).2.2.1⟩

/-! ### Stretches of a run without critical events -/

theorem Quiet.refl (c : dynamics_controller α W) : Quiet c c :=
  ⟨[], by simp, by simp⟩

theorem Quiet.trans {a b c : dynamics_controller α W} (hab : Quiet a b) (hbc : Quiet b c) :
    Quiet a c := by
  obtain ⟨e1, h1, q1⟩ := hab
  obtain ⟨e2, h2, q2⟩ := hbc
  refine ⟨e1 ++ e2, by rw [h2, h1, List.append_assoc], ?_⟩
  intro e he
  rcases List.mem_append.mp he with h | h
  · exact q1 e h
  · exact q2 e h

/-- A stretch is quiet when the old trace is a prefix of the new one and what
follows it is not critical. -/
theorem Quiet.of_drop {c c1 : dynamics_controller α W} (hp : c.trace <+: c1.trace)
    (hq : ∀ e ∈ c1.trace.drop c.trace.length, critical e = false) : Quiet c c1 := by
  obtain ⟨evs, hevs⟩ := hp
  refine ⟨evs, hevs.symm, ?_⟩
  intro e he
  apply hq
  rw [← hevs, List.drop_left]
  exact he

theorem quiet_update_current_state (env : Env α W) (c : dynamics_controller α W) :
    Quiet c (update_current_state env c) := by
  apply Quiet.of_drop <;> unfold update_current_state <;> simp only [] <;> split <;>
    simp [emit, critical]

theorem quiet_compute_control_error [LinearOrderedField α] (env : Env α W)
    (c : dynamics_controller α W) : Quiet c (compute_control_error env c) := by
  apply Quiet.of_drop <;> simp [compute_control_error, make_predictions, emit, critical]

theorem quiet_transform_motion_driver [LinearOrderedField α] (env : Env α W)
    (c : dynamics_controller α W) : Quiet c (transform_motion_driver env c) := by
  apply Quiet.of_drop <;> unfold transform_motion_driver <;> simp only [] <;>
    split <;> split <;> simp [emit, critical]

theorem quiet_write_to_file (c : dynamics_controller α W) : Quiet c (write_to_file c) := by
  apply Quiet.of_drop <;> simp [write_to_file, emit, critical]

theorem quiet_compute_cart_control_commands [LinearOrderedField α] (env : Env α W)
    (c : dynamics_controller α W) : Quiet c (compute_cart_control_commands env c).2 := by
  have h1 : Quiet c
      (if c.use_transformed_driver_ then transform_motion_driver env c
       else emit .abag_update_state
        { c with world := (env.abag_update_state c.world c.predicted_error_twist_).1,
                 abag_command_ := (env.abag_update_state c.world c.predicted_error_twist_).2 }) := by
    split
    · exact quiet_transform_motion_driver env c
    · apply Quiet.of_drop <;> simp [emit, critical]
  refine Quiet.trans h1 ?_
  unfold compute_cart_control_commands
  simp only []
  generalize (if c.use_transformed_driver_ then transform_motion_driver env c
       else emit .abag_update_state
        { c with world := (env.abag_update_state c.world c.predicted_error_twist_).1,
                 abag_command_ := (env.abag_update_state c.world c.predicted_error_twist_).2 }) = c1
  cases hi : c1.desired_task_inteface_ <;>
    apply Quiet.of_drop <;> simp [hi, List.foldl]

/-- The stretch of a cycle before the dynamics solver is called is quiet. -/
theorem quiet_cycle_start [LinearOrderedField α] (env : Env α W) (c : dynamics_controller α W) :
    Quiet c (compute_cart_control_commands env (compute_control_error env
      (update_current_state env
        { c with world := (env.now c.world).1, loop_start_time_ := (env.now c.world).2 }))).2 := by
  refine Quiet.trans ?_ (quiet_compute_cart_control_commands env _)
  refine Quiet.trans ?_ (quiet_compute_control_error env _)
  refine Quiet.trans ?_ (quiet_update_current_state env _)
  exact Quiet.of_drop (by simp) (by simp)

/-- After `close_logs` no log stream is open, and the trace has the three
`close()` events at its end. -/
theorem close_logs_spec (c : dynamics_controller α W) :
    (close_logs c).trace = c.trace ++ close_events true ∧
      ∀ f, (close_logs c).is_open f = false := by
  constructor
  · simp [close_logs, close_log, emit, set_open, close_events]
  · intro f
    cases f <;> simp [close_logs, close_log, emit, set_open, is_open]

/-- The conditional `close_logs` of control(): trace and streams afterwards. -/
theorem close_logs_if_spec (store_control_data : Bool) (c : dynamics_controller α W) :
    (if store_control_data then close_logs c else c).trace =
        c.trace ++ close_events store_control_data ∧
      (store_control_data = true →
        ∀ f, (if store_control_data then close_logs c else c).is_open f = false) := by
  cases store_control_data
  · simp [close_events]
  · simpa using close_logs_spec c

/-- What `evaluate_dynamics` appends to the trace: the solver call with its
status, and the fetch of the control torque when the status is 0. -/
theorem evaluate_dynamics_spec (env : Env α W) (c : dynamics_controller α W) :
    (evaluate_dynamics env c).2.trace =
        c.trace ++ (if (evaluate_dynamics env c).1 ≠ 0
          then [Event.hd_CartToJnt (evaluate_dynamics env c).1]
          else [Event.hd_CartToJnt 0, Event.hd_get_control_torque]) ∧
      ∀ f, (evaluate_dynamics env c).2.is_open f = c.is_open f := by
  unfold evaluate_dynamics
  simp only []
  by_cases h : (env.hd_CartToJnt c.world c.robot_state_ c.cart_force_command_).2.1 = 0
  · constructor
    · simp [h, emit]
    · intro f
      cases f <;> simp [h, emit, is_open]
  · constructor
    · simp [h, emit]
    · intro f
      cases f <;> simp [h, emit, is_open]

/-- The complete behaviour of `apply_joint_control_commands` by the mode `m` the
safety module returns. -/
theorem apply_joint_control_commands_cases (env : Env α W) (c : dynamics_controller α W) :
    (∀ f, (apply_joint_control_commands env c).2.is_open f = c.is_open f) ∧
      ∃ m,
        m = (env.set_control_commands c.world c.robot_state_ c.DT_SEC_
          c.desired_control_mode_.interface integration_method.SYMPLECTIC_EULER).2 ∧
        ((m = control_mode.STOP_MOTION ∧
            (apply_joint_control_commands env c).1 = Result.ret (-1) ∧
            (apply_joint_control_commands env c).2.trace =
              c.trace ++ [Event.set_control_commands c.desired_control_mode_.interface m,
                Event.stop_robot_motion]) ∨
          (m ≠ control_mode.STOP_MOTION ∧
            ((apply_joint_control_commands env c).1 = Result.ret 0 ∨
              (apply_joint_control_commands env c).1 = Result.assert_failed) ∧
            ∃ tail,
              (apply_joint_control_commands env c).2.trace =
                c.trace ++ Event.set_control_commands c.desired_control_mode_.interface m ::
                  tail ∧
              ∀ e ∈ tail, critical e = false)) := by
  constructor
  · intro f
    simp only [apply_joint_control_commands]
    generalize (env.set_control_commands c.world c.robot_state_ c.DT_SEC_
      c.desired_control_mode_.interface integration_method.SYMPLECTIC_EULER).2 = m
    cases m <;> cases hreq : c.desired_control_mode_.interface <;> cases f <;>
      simp [emit, stop_robot_motion, hreq, is_open]
  · refine ⟨_, rfl, ?_⟩
    simp only [apply_joint_control_commands]
    generalize (env.set_control_commands c.world c.robot_state_ c.DT_SEC_
      c.desired_control_mode_.interface integration_method.SYMPLECTIC_EULER).2 = m
    cases m <;> cases hreq : c.desired_control_mode_.interface <;>
      simp [emit, stop_robot_motion, hreq, critical]

theorem busy_wait_is_open [LinearOrderedField α] (env : Env α W) (fuel : Nat) :
    ∀ (c : dynamics_controller α W) (f : LogFile),
      (busy_wait env fuel c).2.is_open f = c.is_open f := by
  induction fuel with
  | zero =>
    intro c f
    unfold busy_wait
    split <;> rfl
  | succ n ih =>
    intro c f
    unfold busy_wait
    split
    · rw [ih]
      cases f <;> rfl
    · rfl

theorem enforce_loop_frequency_is_open [LinearOrderedField α] (env : Env α W) (fuel : Nat)
    (c : dynamics_controller α W) (f : LogFile) :
    (enforce_loop_frequency env fuel c).2.is_open f = c.is_open f := by
  unfold enforce_loop_frequency
  simp only []
  split
  · rw [busy_wait_is_open]
    cases f <;> rfl
  · cases f <;> rfl

/-- The last statement of the loop body: the warning is printed exactly when
`enforce_loop_frequency` returns -1, and the cycle never ends the loop. -/
theorem check_loop_frequency_spec [LinearOrderedField α] (env : Env α W) (fuel : Nat)
    (c : dynamics_controller α W) :
    ((check_loop_frequency env fuel c).1 = Result.ret none ∨
        (check_loop_frequency env fuel c).1 = Result.running) ∧
      (check_loop_frequency env fuel c).2.trace =
        c.trace ++ (if (enforce_loop_frequency env fuel c).1 = Result.ret (-1)
          then [Event.print Message.loop_too_slow] else []) ∧
      ((enforce_loop_frequency env fuel c).1 = Result.ret (-1) →
        (check_loop_frequency env fuel c).1 = Result.ret none) ∧
      ∀ f, (check_loop_frequency env fuel c).2.is_open f = c.is_open f := by
  obtain ⟨h1, -, -, -, -, h6, -⟩ := enforce_loop_frequency_spec env fuel c
  have h7 := enforce_loop_frequency_is_open env fuel c
  unfold check_loop_frequency
  generalize enforce_loop_frequency env fuel c = e at h1 h6 h7
  obtain ⟨res, c1⟩ := e
  simp only at h1 h6 h7
  rcases h1 with h1 | h1 | h1 <;> subst h1
  · refine ⟨Or.inl (by simp), by simp [h6], by simp, ?_⟩
    intro f
    simpa using h7 f
  · refine ⟨Or.inl (by simp), by simp [h6, emit], by simp, ?_⟩
    intro f
    rw [← h7 f]
    cases f <;> simp [emit, is_open]
  · refine ⟨Or.inr rfl, by simp [h6], by simp, ?_⟩
    intro f
    simpa using h7 f

/-- The hidden state after `evaluate_dynamics` with a non-zero status is the one
the solver call left. -/
theorem evaluate_dynamics_failure_world (env : Env α W) (c : dynamics_controller α W) :
    (evaluate_dynamics env c).1 =
        (env.hd_CartToJnt c.world c.robot_state_ c.cart_force_command_).2.1 ∧
      ((evaluate_dynamics env c).1 ≠ 0 →
        (evaluate_dynamics env c).2.world =
          (env.hd_CartToJnt c.world c.robot_state_ c.cart_force_command_).1) := by
  unfold evaluate_dynamics
  simp only []
  by_cases h : (env.hd_CartToJnt c.world c.robot_state_ c.cart_force_command_).2.1 = 0
  · simp [h, emit]
  · simp [h, emit]

/-- After a STOP_MOTION answer the hidden state is what the stop command of the
safety module makes of the state the answer left. -/
theorem apply_joint_control_commands_stop_world (env : Env α W)
    (c : dynamics_controller α W)
    (h : (env.set_control_commands c.world c.robot_state_ c.DT_SEC_
      c.desired_control_mode_.interface integration_method.SYMPLECTIC_EULER).2 =
      control_mode.STOP_MOTION) :
    (apply_joint_control_commands env c).2.world =
      env.stop_robot_motion (env.set_control_commands c.world c.robot_state_ c.DT_SEC_
        c.desired_control_mode_.interface integration_method.SYMPLECTIC_EULER).1 := by
  unfold apply_joint_control_commands
  simp only []
  rw [h]
  rfl

/-- Every way one cycle of the control loop can go, with the events it appends:
a quiet start `pre`, then either nothing more (the routing assertion failed),
or a failing solver call with the stop, the `close()` calls and the message, or
a good solver call followed by the answer of the safety module: a stop with the
`close()` calls, or any other mode with at most warnings after it. -/
theorem control_cycle_cases [LinearOrderedField α] (env : Env α W) (store_control_data : Bool)
    (fuel : Nat) (c : dynamics_controller α W) :
    ∃ pre, (∀ e ∈ pre, critical e = false) ∧
      ((((control_cycle env store_control_data fuel c).1 = Result.assert_failed ∨
            (control_cycle env store_control_data fuel c).1 = Result.running) ∧
          (control_cycle env store_control_data fuel c).2.trace = c.trace ++ pre) ∨
        (∃ st, st ≠ 0 ∧
          (control_cycle env store_control_data fuel c).1 = Result.ret (some (-1)) ∧
          (control_cycle env store_control_data fuel c).2.trace =
            c.trace ++ (pre ++ (Event.hd_CartToJnt st :: Event.stop_robot_motion ::
              (close_events store_control_data ++
                [Event.print Message.dynamics_solver_error]))) ∧
          (store_control_data = true →
            ∀ f, (control_cycle env store_control_data fuel c).2.is_open f = false) ∧
          ∃ w state forces, (env.hd_CartToJnt w state forces).2.1 = st ∧
            (control_cycle env store_control_data fuel c).2.world =
              env.stop_robot_motion (env.hd_CartToJnt w state forces).1) ∨
        (∃ req,
          (control_cycle env store_control_data fuel c).1 = Result.ret (some (-1)) ∧
          (control_cycle env store_control_data fuel c).2.trace =
            c.trace ++ (pre ++ (Event.hd_CartToJnt 0 :: Event.hd_get_control_torque ::
              Event.set_control_commands req control_mode.STOP_MOTION ::
              Event.stop_robot_motion :: close_events store_control_data)) ∧
          (store_control_data = true →
            ∀ f, (control_cycle env store_control_data fuel c).2.is_open f = false) ∧
          ∃ w state dt method,
            (env.set_control_commands w state dt req method).2 = control_mode.STOP_MOTION ∧
            (control_cycle env store_control_data fuel c).2.world =
              env.stop_robot_motion (env.set_control_commands w state dt req method).1) ∨
        (∃ req m tail, m ≠ control_mode.STOP_MOTION ∧
          ((control_cycle env store_control_data fuel c).1 = Result.ret none ∨
            (control_cycle env store_control_data fuel c).1 = Result.assert_failed ∨
            (control_cycle env store_control_data fuel c).1 = Result.running) ∧
          (control_cycle env store_control_data fuel c).2.trace =
            c.trace ++ (pre ++ (Event.hd_CartToJnt 0 :: Event.hd_get_control_torque ::
              Event.set_control_commands req m :: tail)) ∧
          (∀ e ∈ tail, critical e = false ∨ e = Event.print Message.loop_too_slow) ∧
          (Event.print Message.loop_too_slow ∈ tail →
            (control_cycle env store_control_data fuel c).1 = Result.ret none))) := by
  obtain ⟨pre0, hpre0, hq0⟩ := quiet_cycle_start env c
  unfold control_cycle
  simp only []
  generalize compute_cart_control_commands env (compute_control_error env
      (update_current_state env
        { c with world := (env.now c.world).1, loop_start_time_ := (env.now c.world).2 })) = rc
    at hpre0 ⊢
  obtain ⟨res, c4⟩ := rc
  simp only at hpre0
  cases res with
  | assert_failed => exact ⟨pre0, hq0, Or.inl ⟨Or.inl rfl, hpre0⟩⟩
  | running => exact ⟨pre0, hq0, Or.inl ⟨Or.inr rfl, hpre0⟩⟩
  | ret u =>
    simp only []
    have hq5 : Quiet c4 (if store_control_data then write_to_file c4 else c4) := by
      split
      · exact quiet_write_to_file _
      · exact Quiet.refl _
    obtain ⟨pre1, hpre1, hq1⟩ := hq5
    generalize (if store_control_data then write_to_file c4 else c4) = c5 at hpre1 ⊢
    obtain ⟨hdt, -⟩ := evaluate_dynamics_spec env c5
    obtain ⟨hsd, hwd⟩ := evaluate_dynamics_failure_world env c5
    generalize evaluate_dynamics env c5 = d at hdt hsd hwd ⊢
    obtain ⟨st, c6⟩ := d
    simp only at hdt hsd hwd
    have hpre : ∀ e ∈ pre0 ++ pre1, critical e = false := by
      intro e he
      rcases List.mem_append.mp he with h | h
      · exact hq0 e h
      · exact hq1 e h
    refine ⟨pre0 ++ pre1, hpre, ?_⟩
    by_cases hst : st = 0
    · subst hst
      simp only [ne_eq, not_true_eq_false, if_false] at hdt ⊢
      obtain ⟨-, m, hmeq, hcase⟩ := apply_joint_control_commands_cases env c6
      have hws := apply_joint_control_commands_stop_world env c6
      generalize apply_joint_control_commands env c6 = a at hcase hws ⊢
      obtain ⟨ares, c7⟩ := a
      simp only at hcase hws
      rcases hcase with ⟨hm, hres, htr⟩ | ⟨hm, hres, tail, htr, htail⟩
      · have hstop := hmeq.symm.trans hm
        have hw7 := hws hstop
        subst hm hres
        refine Or.inr (Or.inr (Or.inl ⟨c6.desired_control_mode_.interface, ?_, ?_, ?_, ?_⟩))
        · simp
        · cases store_control_data <;>
            simp [close_logs, close_log, set_open, emit, close_events, htr, hdt, hpre1, hpre0]
        · intro hs f
          subst hs
          cases f <;> simp [close_logs, close_log, set_open, emit, is_open]
        · refine ⟨c6.world, c6.robot_state_, c6.DT_SEC_, integration_method.SYMPLECTIC_EULER,
            hstop, ?_⟩
          rw [← hw7]
          cases store_control_data <;> simp [close_logs, close_log, set_open, emit]
      · refine Or.inr (Or.inr (Or.inr ⟨c6.desired_control_mode_.interface, m, ?_⟩))
        rcases hres with hres | hres <;> subst hres
        · obtain ⟨k1, k2, k3, -⟩ := check_loop_frequency_spec env fuel c7
          simp only [ne_eq, not_true_eq_false, if_false]
          refine ⟨tail ++ (if (enforce_loop_frequency env fuel c7).1 = Result.ret (-1)
            then [Event.print Message.loop_too_slow] else []), hm, ?_, ?_, ?_, ?_⟩
          · rcases k1 with k1 | k1
            · exact Or.inl k1
            · exact Or.inr (Or.inr k1)
          · rw [k2, htr, hdt, hpre1, hpre0]
            simp
          · intro e he
            rcases List.mem_append.mp he with h | h
            · exact Or.inl (htail e h)
            · split at h
              · exact Or.inr (by simpa using h)
              · simp at h
          · intro he
            rcases List.mem_append.mp he with h | h
            · have := htail _ h
              simp [critical] at this
            · split at h
              · exact k3 (by assumption)
              · simp at h
        · refine ⟨tail, hm, Or.inr (Or.inl rfl), ?_, fun e he => Or.inl (htail e he), ?_⟩
          · simp only []
            rw [htr, hdt, hpre1, hpre0]
            simp
          · intro he
            have := htail _ he
            simp [critical] at this
    · refine Or.inr (Or.inl ⟨st, hst, ?_, ?_, ?_, ?_⟩)
      · simp [hst]
      · cases store_control_data <;>
          simp [hst, close_logs, close_log, set_open, emit, close_events, stop_robot_motion,
            hdt, hpre1, hpre0]
      · intro hs f
        subst hs
        cases f <;> simp [hst, close_logs, close_log, set_open, emit, is_open]
      · refine ⟨c5.world, c5.robot_state_, c5.cart_force_command_, hsd.symm, ?_⟩
        rw [← hwd hst]
        cases store_control_data <;>
          simp [hst, close_logs, close_log, set_open, emit, stop_robot_motion]

/-- A property of single cycles of the form "a trigger event `e` among the
events of the cycle means that the cycle returns -1, that `e` is followed by
exactly `S e` and that `F` holds afterwards" carries over to the whole loop. -/
theorem control_loop_lift [LinearOrderedField α] (env : Env α W) (store_control_data : Bool)
    (fuel : Nat) (T : Event → Prop) (S : Event → List Event)
    (F : dynamics_controller α W → Prop)
    (hcycle : ∀ c : dynamics_controller α W, ∃ evs,
      (control_cycle env store_control_data fuel c).2.trace = c.trace ++ evs ∧
      ∀ e, T e → e ∈ evs →
        (control_cycle env store_control_data fuel c).1 = Result.ret (some (-1)) ∧
        (∃ p, evs = p ++ e :: S e) ∧ F (control_cycle env store_control_data fuel c).2) :
    ∀ (n : Nat) (c : dynamics_controller α W), ∃ evs,
      (control_loop env store_control_data fuel n c).2.trace = c.trace ++ evs ∧
      ∀ e, T e → e ∈ evs →
        (control_loop env store_control_data fuel n c).1 = Result.ret (-1) ∧
        (∃ p, evs = p ++ e :: S e) ∧ F (control_loop env store_control_data fuel n c).2 := by
  intro n
  induction n with
  | zero =>
    intro c
    exact ⟨[], by simp [control_loop], by simp⟩
  | succ n ih =>
    intro c
    obtain ⟨evs1, ht1, hp1⟩ := hcycle c
    unfold control_loop
    generalize control_cycle env store_control_data fuel c = r at ht1 hp1 ⊢
    obtain ⟨res, c1⟩ := r
    simp only at ht1 hp1
    cases res with
    | assert_failed =>
      refine ⟨evs1, ht1, ?_⟩
      intro e hT he
      have := (hp1 e hT he).1
      simp at this
    | running =>
      refine ⟨evs1, ht1, ?_⟩
      intro e hT he
      have := (hp1 e hT he).1
      simp at this
    | ret v =>
      cases v with
      | some code =>
        refine ⟨evs1, ht1, ?_⟩
        intro e hT he
        obtain ⟨h1, h2, h3⟩ := hp1 e hT he
        simp only [Result.ret.injEq, Option.some.injEq] at h1
        subst h1
        exact ⟨rfl, h2, h3⟩
      | none =>
        obtain ⟨evs2, ht2, hp2⟩ := ih c1
        refine ⟨evs1 ++ evs2, by simp only []; rw [ht2, ht1, List.append_assoc], ?_⟩
        intro e hT he
        rcases List.mem_append.mp he with h | h
        · have := (hp1 e hT h).1
          simp at this
        · obtain ⟨h1, ⟨p, h2⟩, h3⟩ := hp2 e hT h
          exact ⟨h1, ⟨evs1 ++ p, by rw [h2, List.append_assoc]⟩, h3⟩

theorem quiet_open_log (env : Env α W) (f : LogFile) (c : dynamics_controller α W) :
    Quiet c (open_log env f c) := by
  apply Quiet.of_drop <;> unfold open_log <;> split <;> cases f <;>
    simp [emit, set_open, critical]

theorem quiet_open_logs (env : Env α W) (c : dynamics_controller α W) :
    Quiet c (open_logs env c).2 := by
  have h1 := quiet_open_log env .cart c
  have h2 := quiet_open_log env .joint (open_log env .cart c)
  have h3 := quiet_open_log env .predictions (open_log env .joint (open_log env .cart c))
  unfold open_logs
  simp only []
  split
  · exact h1
  · split
    · exact Quiet.trans h1 h2
    · split
      · exact Quiet.trans (Quiet.trans h1 h2) h3
      · exact Quiet.trans (Quiet.trans h1 h2) h3

/-- Before its loop starts, control() appends no critical event. -/
theorem quiet_control_start (env : Env α W) (store_control_data : Bool)
    (c : dynamics_controller α W) :
    Quiet c
      (if store_control_data then
        (if (open_logs env (print_settings_info (update_dynamics_interfaces
            (update_current_state env (stop_robot_motion env c))))).1
          then (true, emit (.file_write .joint) (open_logs env (print_settings_info
            (update_dynamics_interfaces (update_current_state env
              (stop_robot_motion env c))))).2)
          else (false, emit (.print .unable_to_open_file) (open_logs env (print_settings_info
            (update_dynamics_interfaces (update_current_state env
              (stop_robot_motion env c))))).2))
       else (true, print_settings_info (update_dynamics_interfaces
          (update_current_state env (stop_robot_motion env c))))).2 := by
  have h1 : Quiet c (stop_robot_motion env c) := by
    apply Quiet.of_drop <;> simp [stop_robot_motion, emit, critical]
  have h2 := quiet_update_current_state env (stop_robot_motion env c)
  have h3 : Quiet (update_current_state env (stop_robot_motion env c))
      (print_settings_info (update_dynamics_interfaces
        (update_current_state env (stop_robot_motion env c)))) := by
    apply Quiet.of_drop <;>
      simp [print_settings_info, update_dynamics_interfaces, emit, critical]
  have h4 := Quiet.trans (Quiet.trans h1 h2) h3
  have h5 := quiet_open_logs env (print_settings_info (update_dynamics_interfaces
    (update_current_state env (stop_robot_motion env c))))
  split
  · split
    · exact Quiet.trans (Quiet.trans h4 h5) (by apply Quiet.of_drop <;> simp [emit, critical])
    · exact Quiet.trans (Quiet.trans h4 h5) (by apply Quiet.of_drop <;> simp [emit, critical])
  · exact h4

/-- The lifting of `control_loop_lift` to the whole of control(), for triggers
that are critical events. -/
theorem control_lift [LinearOrderedField α] (env : Env α W) (store_control_data : Bool)
    (fuel : Nat) (T : Event → Prop) (S : Event → List Event)
    (F : dynamics_controller α W → Prop) (hT : ∀ e, T e → critical e = true)
    (hcycle : ∀ c : dynamics_controller α W, ∃ evs,
      (control_cycle env store_control_data fuel c).2.trace = c.trace ++ evs ∧
      ∀ e, T e → e ∈ evs →
        (control_cycle env store_control_data fuel c).1 = Result.ret (some (-1)) ∧
        (∃ p, evs = p ++ e :: S e) ∧ F (control_cycle env store_control_data fuel c).2)
    (desired_control_mode : control_mode) (c : dynamics_controller α W) :
    ∃ evs,
      (control env desired_control_mode store_control_data fuel c).2.trace = c.trace ++ evs ∧
      ∀ e, T e → e ∈ evs →
        (control env desired_control_mode store_control_data fuel c).1 = Result.ret (-1) ∧
        (∃ p, evs = p ++ e :: S e) ∧
        F (control env desired_control_mode store_control_data fuel c).2 := by
  have hno : ∀ (evs : List Event), (∀ e ∈ evs, critical e = false) → ∀ e, T e → e ∉ evs := by
    intro evs hq e hTe he
    have h1 := hq e he
    rw [hT e hTe] at h1
    exact absurd h1 (by simp)
  unfold control
  simp only []
  split
  · refine ⟨[Event.print Message.stop_motion_selected], by simp [emit], ?_⟩
    intro e hTe he
    exact absurd he (hno _ (by simp [critical]) e hTe)
  · obtain ⟨evs0, h0, q0⟩ := quiet_control_start env store_control_data
      { c with desired_control_mode_ :=
        { c.desired_control_mode_ with interface := desired_control_mode } }
    generalize (if store_control_data then
        (if (open_logs env (print_settings_info (update_dynamics_interfaces
            (update_current_state env (stop_robot_motion env
              { c with desired_control_mode_ :=
                { c.desired_control_mode_ with interface := desired_control_mode } }))))).1
          then (true, emit (.file_write .joint) (open_logs env (print_settings_info
            (update_dynamics_interfaces (update_current_state env
              (stop_robot_motion env
                { c with desired_control_mode_ :=
                  { c.desired_control_mode_ with interface := desired_control_mode } }))))).2)
          else (false, emit (.print .unable_to_open_file) (open_logs env (print_settings_info
            (update_dynamics_interfaces (update_current_state env
              (stop_robot_motion env
                { c with desired_control_mode_ :=
                  { c.desired_control_mode_ with interface := desired_control_mode } }))))).2))
       else (true, print_settings_info (update_dynamics_interfaces
          (update_current_state env (stop_robot_motion env
            { c with desired_control_mode_ :=
              { c.desired_control_mode_ with interface := desired_control_mode } }))))) = o
      at h0 ⊢
    simp only at h0
    split
    · refine ⟨evs0, h0, ?_⟩
      intro e hTe he
      exact absurd he (hno _ q0 e hTe)
    · obtain ⟨evs1, h1, p1⟩ := control_loop_lift env store_control_data fuel T S F hcycle fuel
        (emit (.print .control_loop_started) o.2)
      refine ⟨evs0 ++ (Event.print Message.control_loop_started :: evs1), ?_, ?_⟩
      · rw [h1]
        simp [emit, h0]
      · intro e hTe he
        rcases List.mem_append.mp he with h | h
        · exact absurd h (hno _ q0 e hTe)
        · rcases List.mem_cons.mp h with h | h
          · subst h
            have := hT _ hTe
            simp [critical] at this
          · obtain ⟨k1, ⟨p, k2⟩, k3⟩ := p1 e hTe h
            exact ⟨k1, ⟨evs0 ++ (Event.print Message.control_loop_started :: p), by
              rw [k2]; simp⟩, k3⟩

/-- In one cycle, a STOP_MOTION returned by the safety module for the request
`requested` is followed by the stop of the robot and the `close()` calls, and
the cycle returns -1; the hidden state afterwards is what the stop command of
the safety module makes of the state that answer left. -/
theorem control_cycle_safety_stop [LinearOrderedField α] (env : Env α W)
    (store_control_data : Bool) (fuel : Nat) (requested : control_mode)
    (c : dynamics_controller α W) :
    ∃ evs,
      (control_cycle env store_control_data fuel c).2.trace = c.trace ++ evs ∧
      ∀ e, e = Event.set_control_commands requested control_mode.STOP_MOTION → e ∈ evs →
        (control_cycle env store_control_data fuel c).1 = Result.ret (some (-1)) ∧
        (∃ p, evs = p ++ e :: (Event.stop_robot_motion :: close_events store_control_data)) ∧
        ((store_control_data = true →
            ∀ f, (control_cycle env store_control_data fuel c).2.is_open f = false) ∧
          ∃ w state dt method,
            (env.set_control_commands w state dt requested method).2 =
              control_mode.STOP_MOTION ∧
            (control_cycle env store_control_data fuel c).2.world =
              env.stop_robot_motion
                (env.set_control_commands w state dt requested method).1) := by
  obtain ⟨pre, hq, hcases⟩ := control_cycle_cases env store_control_data fuel c
  have hpre : ∀ req m, Event.set_control_commands req m ∉ pre := by
    intro req m h
    have := hq _ h
    simp [critical] at this
  rcases hcases with ⟨-, htr⟩ | ⟨st, -, -, htr, -⟩ | ⟨req, hres, htr, hF, hW⟩ |
    ⟨req, m, tail, hm, -, htr, htail, -⟩
  · refine ⟨pre, htr, ?_⟩
    rintro e rfl he
    exact absurd he (hpre requested _)
  · refine ⟨_, htr, ?_⟩
    rintro e rfl he
    exfalso
    rcases List.mem_append.mp he with h | h
    · exact hpre requested _ h
    · cases store_control_data <;> simp [close_events] at h
  · refine ⟨_, htr, ?_⟩
    rintro e rfl he
    have hr : requested = req := by
      rcases List.mem_append.mp he with h | h
      · exact absurd h (hpre requested _)
      · cases store_control_data <;> simpa [close_events] using h
    subst hr
    refine ⟨hres, ⟨pre ++ [Event.hd_CartToJnt 0, Event.hd_get_control_torque], ?_⟩, hF, hW⟩
    simp
  · refine ⟨_, htr, ?_⟩
    rintro e rfl he
    exfalso
    rcases List.mem_append.mp he with h | h
    · exact hpre requested _ h
    · simp only [List.mem_cons, reduceCtorEq, false_or, Event.set_control_commands.injEq] at h
      rcases h with h | h
      · exact hm h.2.symm
      · rcases htail _ h with k | k
        · simp [critical] at k
        · simp at k

/-- C5: if in a run of `control` the safety module returns STOP_MOTION for a
requested mode `requested` (TORQUE in particular), then `control` returns -1,
the call of the safety module is followed at once by the stop of the robot and
the `close()` call on each of the three log streams when `store_control_data`
is set, with which the run ends: no further cycle starts; with
`store_control_data` set no log stream is open afterwards; and the robot is
commanded to stop: the hidden state of the collaborators at the end is what
`stop_robot_motion` of the safety module makes of the state that STOP_MOTION
answer left. -/
theorem control_safety_stop [LinearOrderedField α] (env : Env α W)
    (desired_control_mode : control_mode) (store_control_data : Bool) (fuel : Nat)
    (c : dynamics_controller α W) (requested : control_mode)
    (hev : Event.set_control_commands requested control_mode.STOP_MOTION ∈
      events_since c (control env desired_control_mode store_control_data fuel c).2) :
    (control env desired_control_mode store_control_data fuel c).1 = Result.ret (-1) ∧
      (∃ p, events_since c (control env desired_control_mode store_control_data fuel c).2 =
        p ++ Event.set_control_commands requested control_mode.STOP_MOTION ::
          Event.stop_robot_motion :: close_events store_control_data) ∧
      (store_control_data = true →
        ∀ f, (control env desired_control_mode store_control_data fuel c).2.is_open f =
          false) ∧
      ∃ w state dt method,
        (env.set_control_commands w state dt requested method).2 =
          control_mode.STOP_MOTION ∧
        (control env desired_control_mode store_control_data fuel c).2.world =
          env.stop_robot_motion (env.set_control_commands w state dt requested method).1 := by
  obtain ⟨evs, htr, h⟩ := control_lift env store_control_data fuel
    (fun e => e = Event.set_control_commands requested control_mode.STOP_MOTION)
    (fun _ => Event.stop_robot_motion :: close_events store_control_data)
    (fun c1 => (store_control_data = true → ∀ f, c1.is_open f = false) ∧
      ∃ w state dt method,
        (env.set_control_commands w state dt requested method).2 =
          control_mode.STOP_MOTION ∧
        c1.world =
          env.stop_robot_motion (env.set_control_commands w state dt requested method).1)
    (by rintro e rfl; rfl)
    (control_cycle_safety_stop env store_control_data fuel requested) desired_control_mode c
  have hevs : events_since c (control env desired_control_mode store_control_data fuel c).2 =
      evs := by
    unfold events_since
    rw [htr, List.drop_left]
  rw [hevs] at hev ⊢
  obtain ⟨h1, h2, h3, h4⟩ := h _ rfl hev
  exact ⟨h1, h2, h3, h4⟩

/-- C5, at a run in which TORQUE is requested, the safety module returns
STOP_MOTION and its stop command adds 1000 to the hidden state: control() sends
it once before the loop and once after the STOP_MOTION answer. -/
theorem control_safety_stop_witness :
    Event.set_control_commands control_mode.TORQUE control_mode.STOP_MOTION ∈
        events_since (sample_controller 650 1538)
          (control (sample_env_stop_marker 0 control_mode.STOP_MOTION)
            control_mode.TORQUE true 2 (sample_controller 650 1538)).2 ∧
      (control (sample_env_stop_marker 0 control_mode.STOP_MOTION)
        control_mode.TORQUE true 2 (sample_controller 650 1538)).1 = Result.ret (-1) ∧
      (∀ f, (control (sample_env_stop_marker 0 control_mode.STOP_MOTION)
        control_mode.TORQUE true 2 (sample_controller 650 1538)).2.is_open f = false) ∧
      (∃ w state dt method,
        ((sample_env_stop_marker 0 control_mode.STOP_MOTION).set_control_commands w state dt
          control_mode.TORQUE method).2 = control_mode.STOP_MOTION ∧
        (control (sample_env_stop_marker 0 control_mode.STOP_MOTION)
          control_mode.TORQUE true 2 (sample_controller 650 1538)).2.world =
          (sample_env_stop_marker 0 control_mode.STOP_MOTION).stop_robot_motion
            ((sample_env_stop_marker 0 control_mode.STOP_MOTION).set_control_commands w state
              dt control_mode.TORQUE method).1) ∧
      (control (sample_env_stop_marker 0 control_mode.STOP_MOTION)
        control_mode.TORQUE true 2 (sample_controller 650 1538)).2.world = 2001 :=
  ⟨by decide!,
    (control_safety_stop (sample_env_stop_marker 0 control_mode.STOP_MOTION)
      control_mode.TORQUE true 2 (sample_controller 650 1538) control_mode.TORQUE
      (by decide!)).1,
    (control_safety_stop (sample_env_stop_marker 0 control_mode.STOP_MOTION)
      control_mode.TORQUE true 2 (sample_controller 650 1538) control_mode.TORQUE
      (by decide!)).2.2.1 rfl,
    (control_safety_stop (sample_env_stop_marker 0 control_mode.STOP_MOTION)
      control_mode.TORQUE true 2 (sample_controller 650 1538) control_mode.TORQUE
      (by decide!)).2.2.2,
    by decide!⟩

/-- C9: `enforce_loop_frequency` returns 0, returns -1 or is still waiting, and
it returns -1 exactly when the interval at its first reading of the clock is not
below the period; the statement of control() that calls it appends the overrun
warning exactly when it returns -1 and never ends the loop; and a cycle of
control() in which the warning is printed goes on to the next cycle. -/
theorem overrun_flagged_not_fatal [LinearOrderedField α] (env : Env α W)
    (store_control_data : Bool) (fuel n : Nat) (c c0 : dynamics_controller α W) :
    (((enforce_loop_frequency env fuel c).1 = Result.ret 0 ∨
          (enforce_loop_frequency env fuel c).1 = Result.ret (-1) ∨
          (enforce_loop_frequency env fuel c).1 = Result.running) ∧
        ((enforce_loop_frequency env fuel c).1 = Result.ret (-1) ↔
          ¬ ((env.now c.world).2 - c.loop_start_time_ < (c.DT_MICRO_ : α)))) ∧
      ((check_loop_frequency env fuel c).2.trace =
          c.trace ++ (if (enforce_loop_frequency env fuel c).1 = Result.ret (-1)
            then [Event.print Message.loop_too_slow] else []) ∧
        ((check_loop_frequency env fuel c).1 = Result.ret none ∨
          (check_loop_frequency env fuel c).1 = Result.running) ∧
        ((enforce_loop_frequency env fuel c).1 = Result.ret (-1) →
          (check_loop_frequency env fuel c).1 = Result.ret none)) ∧
      (Event.print Message.loop_too_slow ∈
          events_since c0 (control_cycle env store_control_data fuel c0).2 →
        (control_cycle env store_control_data fuel c0).1 = Result.ret none ∧
        control_loop env store_control_data fuel (n + 1) c0 =
          control_loop env store_control_data fuel n
            (control_cycle env store_control_data fuel c0).2) := by
  obtain ⟨h1, h2, -⟩ := enforce_loop_frequency_spec env fuel c
  obtain ⟨k1, k2, k3, -⟩ := check_loop_frequency_spec env fuel c
  refine ⟨⟨h1, h2⟩, ⟨k2, k1, k3⟩, ?_⟩
  intro hev
  have hres : (control_cycle env store_control_data fuel c0).1 = Result.ret none := by
    obtain ⟨pre, hq, hcases⟩ := control_cycle_cases env store_control_data fuel c0
    have hpre : Event.print Message.loop_too_slow ∉ pre := by
      intro h
      have := hq _ h
      simp [critical] at this
    unfold events_since at hev
    rcases hcases with ⟨-, htr⟩ | ⟨st, -, -, htr, -⟩ | ⟨req, -, htr, -⟩ |
      ⟨req, m, tail, -, -, htr, -, hwarn⟩
    · rw [htr, List.drop_left] at hev
      exact absurd hev hpre
    · rw [htr, List.drop_left] at hev
      exfalso
      rcases List.mem_append.mp hev with h | h
      · exact hpre h
      · cases store_control_data <;> simp [close_events] at h
    · rw [htr, List.drop_left] at hev
      exfalso
      rcases List.mem_append.mp hev with h | h
      · exact hpre h
      · cases store_control_data <;> simp [close_events] at h
    · rw [htr, List.drop_left] at hev
      rcases List.mem_append.mp hev with h | h
      · exact absurd h hpre
      · simp only [List.mem_cons, reduceCtorEq, false_or] at h
        exact hwarn h
  refine ⟨hres, ?_⟩
  conv_lhs => unfold control_loop
  generalize control_cycle env store_control_data fuel c0 = r at hres
  obtain ⟨res, c1⟩ := r
  simp only at hres
  subst hres
  rfl

/-- C9, at a cycle that starts at time 0 and reads 2000 microseconds, more than
the period of 1538, at the end of its work. -/
theorem overrun_flagged_not_fatal_witness :
    Event.print Message.loop_too_slow ∈
        events_since
          { sample_controller 650 1538 with desired_control_mode_ := ⟨control_mode.TORQUE, false⟩ }
          (control_cycle (sample_env 0 control_mode.TORQUE (fun k => (2000 : ℚ) * k)) false 2
            { sample_controller 650 1538 with
              desired_control_mode_ := ⟨control_mode.TORQUE, false⟩ }).2 ∧
      (control_cycle (sample_env 0 control_mode.TORQUE (fun k => (2000 : ℚ) * k)) false 2
        { sample_controller 650 1538 with
          desired_control_mode_ := ⟨control_mode.TORQUE, false⟩ }).1 = Result.ret none :=
  ⟨by decide!,
    ((overrun_flagged_not_fatal (sample_env 0 control_mode.TORQUE (fun k => (2000 : ℚ) * k))
      false 2 0 (sample_controller 650 1538)
      { sample_controller 650 1538 with
        desired_control_mode_ := ⟨control_mode.TORQUE, false⟩ }).2.2 (by decide!)).1⟩

/-! ### Construction, routing of the shaped command, configuration -/

/-- Reading back entry `k` of a list after writing it. -/
theorem getD_set_self {β : Type} (l : List β) (k : Nat) (v d : β) (hk : k < l.length) :
    (l.set k v).getD k d = v := by
  simp [List.getD_eq_getElem?_getD, List.getElem?_set, hk]

/-- Reading a component of a wrench after writing one. -/
theorem wrench_get_set (w : KDL.Wrench α) (i j : Fin 6) (v : α) :
    (w.set i v).get j = if j = i then v else w.get j := by
  fin_cases i <;> fin_cases j <;> simp [KDL.Wrench.set, KDL.Wrench.get]

/-- The function `compute_cart_control_commands` is its three steps in a row:
adaptive command, motion profile, routing by the interface. -/
theorem compute_cart_control_commands_eq [LinearOrderedField α] (env : Env α W)
    (c : dynamics_controller α W) :
    ((adaptive_command env c).desired_task_inteface_ = dynamics_interface.CART_FORCE →
        compute_cart_control_commands env c =
          (.ret (), write_cart_force (apply_motion_profile env (adaptive_command env c)))) ∧
      ((adaptive_command env c).desired_task_inteface_ = dynamics_interface.CART_ACCELERATION →
        compute_cart_control_commands env c =
          ((set_ee_acc_constraints (apply_motion_profile env (adaptive_command env c)).robot_state_
              [(apply_motion_profile env (adaptive_command env c)).CTRL_DIM_.getD 0 false,
                (apply_motion_profile env (adaptive_command env c)).CTRL_DIM_.getD 1 false,
                (apply_motion_profile env (adaptive_command env c)).CTRL_DIM_.getD 2 false,
                (apply_motion_profile env (adaptive_command env c)).CTRL_DIM_.getD 3 false,
                (apply_motion_profile env (adaptive_command env c)).CTRL_DIM_.getD 4 false,
                (apply_motion_profile env (adaptive_command env c)).CTRL_DIM_.getD 5 false]
              [(apply_motion_profile env (adaptive_command env c)).abag_command_ 0 *
                  (apply_motion_profile env (adaptive_command env c)).motion_profile_ 0,
                (apply_motion_profile env (adaptive_command env c)).abag_command_ 1 *
                  (apply_motion_profile env (adaptive_command env c)).motion_profile_ 1,
                (apply_motion_profile env (adaptive_command env c)).abag_command_ 2 *
                  (apply_motion_profile env (adaptive_command env c)).motion_profile_ 2,
                (apply_motion_profile env (adaptive_command env c)).abag_command_ 3 *
                  (apply_motion_profile env (adaptive_command env c)).motion_profile_ 3,
                (apply_motion_profile env (adaptive_command env c)).abag_command_ 4 *
                  (apply_motion_profile env (adaptive_command env c)).motion_profile_ 4,
                (apply_motion_profile env (adaptive_command env c)).abag_command_ 5 *
                  (apply_motion_profile env (adaptive_command env c)).motion_profile_ 5]).1,
            { (apply_motion_profile env (adaptive_command env c)) with
              robot_state_ :=
                (set_ee_acc_constraints (apply_motion_profile env (adaptive_command env c)).robot_state_
                  [(apply_motion_profile env (adaptive_command env c)).CTRL_DIM_.getD 0 false,
                    (apply_motion_profile env (adaptive_command env c)).CTRL_DIM_.getD 1 false,
                    (apply_motion_profile env (adaptive_command env c)).CTRL_DIM_.getD 2 false,
                    (apply_motion_profile env (adaptive_command env c)).CTRL_DIM_.getD 3 false,
                    (apply_motion_profile env (adaptive_command env c)).CTRL_DIM_.getD 4 false,
                    (apply_motion_profile env (adaptive_command env c)).CTRL_DIM_.getD 5 false]
                  [(apply_motion_profile env (adaptive_command env c)).abag_command_ 0 *
                      (apply_motion_profile env (adaptive_command env c)).motion_profile_ 0,
                    (apply_motion_profile env (adaptive_command env c)).abag_command_ 1 *
                      (apply_motion_profile env (adaptive_command env c)).motion_profile_ 1,
                    (apply_motion_profile env (adaptive_command env c)).abag_command_ 2 *
                      (apply_motion_profile env (adaptive_command env c)).motion_profile_ 2,
                    (apply_motion_profile env (adaptive_command env c)).abag_command_ 3 *
                      (apply_motion_profile env (adaptive_command env c)).motion_profile_ 3,
                    (apply_motion_profile env (adaptive_command env c)).abag_command_ 4 *
                      (apply_motion_profile env (adaptive_command env c)).motion_profile_ 4,
                    (apply_motion_profile env (adaptive_command env c)).abag_command_ 5 *
                      (apply_motion_profile env (adaptive_command env c)).motion_profile_ 5]).2 })) ∧
      ((adaptive_command env c).desired_task_inteface_ = dynamics_interface.FF_JOINT_TORQUE →
        compute_cart_control_commands env c =
          (.assert_failed, apply_motion_profile env (adaptive_command env c))) := by
  have h2 : (apply_motion_profile env (adaptive_command env c)).desired_task_inteface_ =
      (adaptive_command env c).desired_task_inteface_ := rfl
  have key : compute_cart_control_commands env c =
      match (apply_motion_profile env (adaptive_command env c)).desired_task_inteface_ with
      | .CART_FORCE =>
        (.ret (), write_cart_force (apply_motion_profile env (adaptive_command env c)))
      | .CART_ACCELERATION =>
        ((set_ee_acc_constraints (apply_motion_profile env (adaptive_command env c)).robot_state_
            [(apply_motion_profile env (adaptive_command env c)).CTRL_DIM_.getD 0 false,
              (apply_motion_profile env (adaptive_command env c)).CTRL_DIM_.getD 1 false,
              (apply_motion_profile env (adaptive_command env c)).CTRL_DIM_.getD 2 false,
              (apply_motion_profile env (adaptive_command env c)).CTRL_DIM_.getD 3 false,
              (apply_motion_profile env (adaptive_command env c)).CTRL_DIM_.getD 4 false,
              (apply_motion_profile env (adaptive_command env c)).CTRL_DIM_.getD 5 false]
            [(apply_motion_profile env (adaptive_command env c)).abag_command_ 0 *
                (apply_motion_profile env (adaptive_command env c)).motion_profile_ 0,
              (apply_motion_profile env (adaptive_command env c)).abag_command_ 1 *
                (apply_motion_profile env (adaptive_command env c)).motion_profile_ 1,
              (apply_motion_profile env (adaptive_command env c)).abag_command_ 2 *
                (apply_motion_profile env (adaptive_command env c)).motion_profile_ 2,
              (apply_motion_profile env (adaptive_command env c)).abag_command_ 3 *
                (apply_motion_profile env (adaptive_command env c)).motion_profile_ 3,
              (apply_motion_profile env (adaptive_command env c)).abag_command_ 4 *
                (apply_motion_profile env (adaptive_command env c)).motion_profile_ 4,
              (apply_motion_profile env (adaptive_command env c)).abag_command_ 5 *
                (apply_motion_profile env (adaptive_command env c)).motion_profile_ 5]).1,
          { apply_motion_profile env (adaptive_command env c) with
            robot_state_ :=
              (set_ee_acc_constraints
                (apply_motion_profile env (adaptive_command env c)).robot_state_
                [(apply_motion_profile env (adaptive_command env c)).CTRL_DIM_.getD 0 false,
                  (apply_motion_profile env (adaptive_command env c)).CTRL_DIM_.getD 1 false,
                  (apply_motion_profile env (adaptive_command env c)).CTRL_DIM_.getD 2 false,
                  (apply_motion_profile env (adaptive_command env c)).CTRL_DIM_.getD 3 false,
                  (apply_motion_profile env (adaptive_command env c)).CTRL_DIM_.getD 4 false,
                  (apply_motion_profile env (adaptive_command env c)).CTRL_DIM_.getD 5 false]
                [(apply_motion_profile env (adaptive_command env c)).abag_command_ 0 *
                    (apply_motion_profile env (adaptive_command env c)).motion_profile_ 0,
                  (apply_motion_profile env (adaptive_command env c)).abag_command_ 1 *
                    (apply_motion_profile env (adaptive_command env c)).motion_profile_ 1,
                  (apply_motion_profile env (adaptive_command env c)).abag_command_ 2 *
                    (apply_motion_profile env (adaptive_command env c)).motion_profile_ 2,
                  (apply_motion_profile env (adaptive_command env c)).abag_command_ 3 *
                    (apply_motion_profile env (adaptive_command env c)).motion_profile_ 3,
                  (apply_motion_profile env (adaptive_command env c)).abag_command_ 4 *
                    (apply_motion_profile env (adaptive_command env c)).motion_profile_ 4,
                  (apply_motion_profile env (adaptive_command env c)).abag_command_ 5 *
                    (apply_motion_profile env (adaptive_command env c)).motion_profile_ 5]).2 })
      | _ => (.assert_failed, apply_motion_profile env (adaptive_command env c)) := by
    unfold compute_cart_control_commands
    simp only [if_true]
    rfl
  rw [key, h2]
  refine ⟨?_, ?_, ?_⟩ <;> intro h <;> rw [h]

/-- What `transform_motion_driver` leaves as it is. -/
theorem transform_motion_driver_frame [LinearOrderedField α] (env : Env α W)
    (c : dynamics_controller α W) :
    (transform_motion_driver env c).desired_task_inteface_ = c.desired_task_inteface_ ∧
      (transform_motion_driver env c).CTRL_DIM_ = c.CTRL_DIM_ ∧
      (transform_motion_driver env c).END_EFF_ = c.END_EFF_ ∧
      (transform_motion_driver env c).cart_force_command_ = c.cart_force_command_ ∧
      (transform_motion_driver env c).robot_state_ = c.robot_state_ ∧
      (transform_motion_driver env c).motion_profile_ = c.motion_profile_ ∧
      (transform_motion_driver env c).max_command_ = c.max_command_ ∧
      (transform_motion_driver env c).current_error_twist_ = c.current_error_twist_ := by
  unfold transform_motion_driver
  simp only []
  split <;> split <;> simp [emit]

/-- What the first step of `compute_cart_control_commands` leaves as it is. -/
theorem adaptive_command_frame [LinearOrderedField α] (env : Env α W)
    (c : dynamics_controller α W) :
    (adaptive_command env c).desired_task_inteface_ = c.desired_task_inteface_ ∧
      (adaptive_command env c).CTRL_DIM_ = c.CTRL_DIM_ ∧
      (adaptive_command env c).END_EFF_ = c.END_EFF_ ∧
      (adaptive_command env c).cart_force_command_ = c.cart_force_command_ ∧
      (adaptive_command env c).robot_state_ = c.robot_state_ ∧
      (adaptive_command env c).motion_profile_ = c.motion_profile_ ∧
      (adaptive_command env c).max_command_ = c.max_command_ ∧
      (adaptive_command env c).current_error_twist_ = c.current_error_twist_ := by
  unfold adaptive_command
  split
  · exact transform_motion_driver_frame env c
  · simp [emit]

/-- The loop of the CART_FORCE branch: component `i` of the end-effector force
becomes the shaped command of axis `i` when its flag is set and 0 otherwise;
command, profile and current state stay as they are. -/
theorem write_cart_force_spec [LinearOrderedField α] (cc : dynamics_controller α W)
    (hee : cc.END_EFF_ < cc.cart_force_command_.length) :
    (∀ i : Fin 6, (ee_force (write_cart_force cc)).get i =
        if cc.CTRL_DIM_.getD i.val false then cc.abag_command_ i * cc.motion_profile_ i
        else 0) ∧
      (write_cart_force cc).abag_command_ = cc.abag_command_ ∧
      (write_cart_force cc).motion_profile_ = cc.motion_profile_ ∧
      (write_cart_force cc).robot_state_ = cc.robot_state_ ∧
      (write_cart_force cc).END_EFF_ = cc.END_EFF_ := by
  refine ⟨?_, ?_, ?_, ?_, ?_⟩
  · intro i
    simp only [ee_force, write_cart_force, List.foldl, getD_set_self, hee, List.length_set,
      List.set_set]
    fin_cases i <;> simp [wrench_get_set] <;> rfl
  all_goals simp [write_cart_force, List.foldl]

/-- C11 at the failing rate and beside it: for every driver, constructing the
controller at 0 Hz divides by zero in the member initialisers before any
assertion is reached; with an initialised driver whose chain has as many joints
as segments and at least one segment, every other rate outside [1, 10000] fails
an assertion and every rate inside is accepted with the period
1000000 / rate. -/
theorem construct_rate_check [LinearOrderedField α] (robot_driver : robot_mediator α)
    (world : W) (rate_hz : Int) :
    construct robot_driver world 0 = Outcome.undefined Fault.division_by_zero ∧
      (robot_driver.is_initialized = true →
        robot_driver.NrOfJoints = robot_driver.NrOfSegments →
        1 ≤ robot_driver.NrOfSegments →
        (rate_hz ≠ 0 → (rate_hz < 1 ∨ 10000 < rate_hz) →
          construct robot_driver world rate_hz = Outcome.assert_failed) ∧
        (1 ≤ rate_hz → rate_hz ≤ 10000 →
          ∃ c, construct robot_driver world rate_hz = Outcome.done c ∧
            c.RATE_HZ_ = rate_hz ∧ c.DT_MICRO_ = Int.tdiv 1000000 rate_hz)) := by
  refine ⟨by simp [construct, DT_MICRO_of], ?_⟩
  intro hinit hchain hseg
  have hseg0 : robot_driver.NrOfSegments ≠ 0 := by omega
  have hlt : robot_driver.NrOfSegments - 1 < robot_driver.NrOfSegments := by omega
  constructor
  · intro h0 hout
    have : ¬ (1 ≤ rate_hz ∧ rate_hz ≤ 10000) := by omega
    simp only [construct, DT_MICRO_of, h0, if_false, hinit, hchain]
    by_cases h1 : 1 ≤ rate_hz
    · have h2 : ¬ rate_hz ≤ 10000 := by omega
      simp [h1, h2]
    · simp [h1]
  · intro h1 h2
    have h0 : rate_hz ≠ 0 := by omega
    simp only [construct, DT_MICRO_of, h0, if_false, hinit, hchain]
    simp only [Bool.not_true, Bool.false_eq_true, if_false, ne_eq, not_true_eq_false, h1,
      h2, hseg0, List.length_replicate, hlt, if_true]
    exact ⟨_, rfl, rfl, rfl⟩

/-- With six flags and six accelerations `set_ee_acc_constraints` passes both
assertions, column `i` of the constraint matrix becomes the unit twist of axis
`i` scaled by the flag, and entry `i` of the energy vector acceleration `i`. -/
theorem set_ee_acc_constraints_six [LinearOrderedField α] (state : state_specification α)
    (d0 d1 d2 d3 d4 d5 : Bool) (a0 a1 a2 a3 a4 a5 : α) :
    (set_ee_acc_constraints state [d0, d1, d2, d3, d4, d5] [a0, a1, a2, a3, a4, a5]).1 =
        Result.ret () ∧
      (∀ i : Fin 6,
        (set_ee_acc_constraints state [d0, d1, d2, d3, d4, d5]
            [a0, a1, a2, a3, a4, a5]).2.ee_unit_constraint_force i =
          unit_twist i (if [d0, d1, d2, d3, d4, d5].getD i.val false then 1 else 0)) ∧
      (∀ i : Fin 6,
        (set_ee_acc_constraints state [d0, d1, d2, d3, d4, d5]
            [a0, a1, a2, a3, a4, a5]).2.ee_acceleration_energy i =
          [a0, a1, a2, a3, a4, a5].getD i.val 0) := by
  refine ⟨by simp [set_ee_acc_constraints], ?_, ?_⟩ <;> intro i <;>
    fin_cases i <;> simp [set_ee_acc_constraints, List.foldl, Function.update_apply] <;> rfl

/-- Entry `j` of the unit twist of axis `i`. -/
theorem unit_twist_get [Zero α] (i j : Fin 6) (v : α) :
    (unit_twist i v).get j = if j = i then v else 0 := by
  fin_cases i <;> fin_cases j <;> simp [unit_twist, KDL.Twist.get]

/-- C16: the routing step of `compute_cart_control_commands` completes exactly
for the interfaces CART_FORCE and CART_ACCELERATION and fails its assertion
exactly for every other interface, FF_JOINT_TORQUE in particular. -/
theorem compute_cart_control_commands_interface [LinearOrderedField α] (env : Env α W)
    (c : dynamics_controller α W) :
    ((compute_cart_control_commands env c).1 = Result.ret () ↔
        (c.desired_task_inteface_ = dynamics_interface.CART_FORCE ∨
          c.desired_task_inteface_ = dynamics_interface.CART_ACCELERATION)) ∧
      ((compute_cart_control_commands env c).1 = Result.assert_failed ↔
        (c.desired_task_inteface_ ≠ dynamics_interface.CART_FORCE ∧
          c.desired_task_inteface_ ≠ dynamics_interface.CART_ACCELERATION)) ∧
      (c.desired_task_inteface_ = dynamics_interface.FF_JOINT_TORQUE →
        (compute_cart_control_commands env c).1 = Result.assert_failed) := by
  obtain ⟨hi, -⟩ := adaptive_command_frame env c
  obtain ⟨e1, e2, e3⟩ := compute_cart_control_commands_eq env c
  rw [hi] at e1 e2 e3
  cases h : c.desired_task_inteface_
  · rw [e1 h]
    simp
  · rw [e2 h]
    simp [(set_ee_acc_constraints_six _ _ _ _ _ _ _ _ _ _ _ _ _).1]
  · rw [e3 h]
    simp

/-- C14: with the CART_FORCE interface and the end-effector index inside
`cart_force_command_`, after `compute_cart_control_commands` component `i` of
the end-effector force is the reconstructed command of axis `i` times its
motion profile when constraint flag `i` is set and exactly 0 when it is not, for
each of the six axes; the constraint matrix and the energy vector of the
current state are as before. -/
theorem cart_force_routing [LinearOrderedField α] (env : Env α W)
    (c : dynamics_controller α W)
    (hee : c.END_EFF_ < c.cart_force_command_.length)
    (hif : c.desired_task_inteface_ = dynamics_interface.CART_FORCE) :
    (compute_cart_control_commands env c).1 = Result.ret () ∧
      (∀ i : Fin 6,
        (ee_force (compute_cart_control_commands env c).2).get i =
          if c.CTRL_DIM_.getD i.val false then
            (compute_cart_control_commands env c).2.abag_command_ i *
              (compute_cart_control_commands env c).2.motion_profile_ i
          else 0) ∧
      (compute_cart_control_commands env c).2.robot_state_.ee_unit_constraint_force =
        c.robot_state_.ee_unit_constraint_force ∧
      (compute_cart_control_commands env c).2.robot_state_.ee_acceleration_energy =
        c.robot_state_.ee_acceleration_energy := by
  obtain ⟨hi, hdim, hend, hcf, hrs, -⟩ := adaptive_command_frame env c
  obtain ⟨e1, -, -⟩ := compute_cart_control_commands_eq env c
  rw [e1 (hi.trans hif)]
  have hee2 : (apply_motion_profile env (adaptive_command env c)).END_EFF_ <
      (apply_motion_profile env (adaptive_command env c)).cart_force_command_.length := by
    show (adaptive_command env c).END_EFF_ < (adaptive_command env c).cart_force_command_.length
    rw [hend, hcf]
    exact hee
  obtain ⟨k1, k2, k3, k4, -⟩ := write_cart_force_spec _ hee2
  refine ⟨rfl, ?_, ?_, ?_⟩
  · intro i
    simp only [k1 i, k2, k3]
    show (if (adaptive_command env c).CTRL_DIM_.getD i.val false = true then _ else _) = _
    rw [hdim]
  · simp only [k4]
    show (adaptive_command env c).robot_state_.ee_unit_constraint_force = _
    rw [hrs]
  · simp only [k4]
    show (adaptive_command env c).robot_state_.ee_acceleration_energy = _
    rw [hrs]

/-- C15: with the CART_ACCELERATION interface `compute_cart_control_commands`
completes and overwrites the acceleration constraint of the current state:
entry `j` of column `i` of the constraint matrix is 1 when `j = i` and flag `i`
is set and 0 otherwise, and entry `i` of the energy vector is the command of
axis `i` times its motion profile, for each of the six axes. -/
theorem cart_acceleration_routing [LinearOrderedField α] (env : Env α W)
    (c : dynamics_controller α W)
    (hif : c.desired_task_inteface_ = dynamics_interface.CART_ACCELERATION) :
    (compute_cart_control_commands env c).1 = Result.ret () ∧
      (∀ i j : Fin 6,
        ((compute_cart_control_commands env c).2.robot_state_.ee_unit_constraint_force i).get j =
          if j = i ∧ c.CTRL_DIM_.getD i.val false = true then 1 else 0) ∧
      (∀ i : Fin 6,
        (compute_cart_control_commands env c).2.robot_state_.ee_acceleration_energy i =
          (compute_cart_control_commands env c).2.abag_command_ i *
            (compute_cart_control_commands env c).2.motion_profile_ i) := by
  obtain ⟨hi, hdim, -⟩ := adaptive_command_frame env c
  obtain ⟨-, e2, -⟩ := compute_cart_control_commands_eq env c
  rw [e2 (hi.trans hif)]
  obtain ⟨s1, s2, s3⟩ := set_ee_acc_constraints_six
    (apply_motion_profile env (adaptive_command env c)).robot_state_
    ((apply_motion_profile env (adaptive_command env c)).CTRL_DIM_.getD 0 false)
    ((apply_motion_profile env (adaptive_command env c)).CTRL_DIM_.getD 1 false)
    ((apply_motion_profile env (adaptive_command env c)).CTRL_DIM_.getD 2 false)
    ((apply_motion_profile env (adaptive_command env c)).CTRL_DIM_.getD 3 false)
    ((apply_motion_profile env (adaptive_command env c)).CTRL_DIM_.getD 4 false)
    ((apply_motion_profile env (adaptive_command env c)).CTRL_DIM_.getD 5 false)
    ((apply_motion_profile env (adaptive_command env c)).abag_command_ 0 *
      (apply_motion_profile env (adaptive_command env c)).motion_profile_ 0)
    ((apply_motion_profile env (adaptive_command env c)).abag_command_ 1 *
      (apply_motion_profile env (adaptive_command env c)).motion_profile_ 1)
    ((apply_motion_profile env (adaptive_command env c)).abag_command_ 2 *
      (apply_motion_profile env (adaptive_command env c)).motion_profile_ 2)
    ((apply_motion_profile env (adaptive_command env c)).abag_command_ 3 *
      (apply_motion_profile env (adaptive_command env c)).motion_profile_ 3)
    ((apply_motion_profile env (adaptive_command env c)).abag_command_ 4 *
      (apply_motion_profile env (adaptive_command env c)).motion_profile_ 4)
    ((apply_motion_profile env (adaptive_command env c)).abag_command_ 5 *
      (apply_motion_profile env (adaptive_command env c)).motion_profile_ 5)
  have hdim2 : (apply_motion_profile env (adaptive_command env c)).CTRL_DIM_ = c.CTRL_DIM_ :=
    hdim
  refine ⟨s1, ?_, ?_⟩
  · intro i j
    simp only [s2 i, unit_twist_get]
    rw [hdim2]
    fin_cases i <;> fin_cases j <;> simp
  · intro i
    simp only [s3 i]
    fin_cases i <;> rfl

/-- C11, at an initialised driver of a two-joint chain: 0 Hz divides by zero,
-5 Hz and 10001 Hz fail an assertion, 650 Hz is accepted. -/
theorem construct_rate_check_witness :
    construct sample_driver (0 : Nat) 0 = Outcome.undefined Fault.division_by_zero ∧
      construct sample_driver (0 : Nat) (-5) = Outcome.assert_failed ∧
      ∃ c, construct sample_driver (0 : Nat) 650 = Outcome.done c ∧
        c.RATE_HZ_ = 650 ∧ c.DT_MICRO_ = Int.tdiv 1000000 650 :=
  ⟨(construct_rate_check sample_driver (0 : Nat) 0).1,
    ((construct_rate_check sample_driver (0 : Nat) (-5)).2 rfl rfl (by decide)).1 (by decide)
      (Or.inl (by decide)),
    ((construct_rate_check sample_driver (0 : Nat) 650).2 rfl rfl (by decide)).2 (by decide)
      (by decide)⟩

/-- C14, at the sample controller, whose interface is CART_FORCE. -/
theorem cart_force_routing_witness :
    (sample_controller 650 1538).END_EFF_ < (sample_controller 650 1538).cart_force_command_.length ∧
      (sample_controller 650 1538).desired_task_inteface_ = dynamics_interface.CART_FORCE ∧
      (compute_cart_control_commands (sample_env 0 control_mode.TORQUE (fun _ => 0))
        (sample_controller 650 1538)).1 = Result.ret () :=
  ⟨by decide, rfl,
    (cart_force_routing (sample_env 0 control_mode.TORQUE (fun _ => 0))
      (sample_controller 650 1538) (by decide) rfl).1⟩

/-- C15, at the sample controller switched to CART_ACCELERATION. -/
theorem cart_acceleration_routing_witness :
    ({ sample_controller 650 1538 with
        desired_task_inteface_ := dynamics_interface.CART_ACCELERATION } :
        dynamics_controller ℚ Nat).desired_task_inteface_ =
        dynamics_interface.CART_ACCELERATION ∧
      (compute_cart_control_commands (sample_env 0 control_mode.TORQUE (fun _ => 0))
        { sample_controller 650 1538 with
          desired_task_inteface_ := dynamics_interface.CART_ACCELERATION }).1 = Result.ret () :=
  ⟨rfl,
    (cart_acceleration_routing (sample_env 0 control_mode.TORQUE (fun _ => 0))
      { sample_controller 650 1538 with
        desired_task_inteface_ := dynamics_interface.CART_ACCELERATION } rfl).1⟩

/-- The reconstruction of `transform_motion_driver` gives the zero command when
both stored norms are below `MIN_NORM`. -/
theorem transform_motion_driver_zero [LinearOrderedField α] (env : Env α W)
    (c : dynamics_controller α W) (hlin : c.transformed_error_ 0 < 1e-10)
    (hang : c.transformed_error_ 3 < 1e-10) (i : Fin 6) :
    (transform_motion_driver env c).abag_command_ i = 0 := by
  have h0 : ¬ (c.transformed_error_ 0 ≥ (MIN_NORM : α)) := not_le.mpr hlin
  have h3 : ¬ (c.transformed_error_ 3 ≥ (MIN_NORM : α)) := not_le.mpr hang
  unfold transform_motion_driver
  simp only [emit, h0, h3, if_false]
  fin_cases i <;> simp [Function.update_apply]

/-- The profile loop writes the axes 0, 1 and 2 and no other. -/
theorem apply_motion_profile_spec [LinearOrderedField α] (env : Env α W)
    (c : dynamics_controller α W) (i : Fin 6) :
    (apply_motion_profile env c).motion_profile_ i =
      if i.val < 3 then
        env.negative_step_decision_map (env.Norm c.current_error_twist_.vel)
          (c.max_command_ i) 0.25 0.4 0.1
      else c.motion_profile_ i := by
  fin_cases i <;> simp [apply_motion_profile, List.foldl, Function.update_apply]

/-- The routing step leaves the motion profile, the maximum command and the
command as the first two steps made them. -/
theorem compute_cart_control_commands_frame [LinearOrderedField α] (env : Env α W)
    (c : dynamics_controller α W) :
    (compute_cart_control_commands env c).2.motion_profile_ =
        (apply_motion_profile env (adaptive_command env c)).motion_profile_ ∧
      (compute_cart_control_commands env c).2.abag_command_ =
        (adaptive_command env c).abag_command_ ∧
      (compute_cart_control_commands env c).2.max_command_ = c.max_command_ ∧
      (compute_cart_control_commands env c).2.current_error_twist_ =
        c.current_error_twist_ := by
  obtain ⟨-, -, -, -, -, -, hmax, herr⟩ := adaptive_command_frame env c
  obtain ⟨e1, e2, e3⟩ := compute_cart_control_commands_eq env c
  have hm : (apply_motion_profile env (adaptive_command env c)).max_command_ = c.max_command_ :=
    hmax
  have he : (apply_motion_profile env (adaptive_command env c)).current_error_twist_ =
      c.current_error_twist_ := herr
  cases h : (adaptive_command env c).desired_task_inteface_
  · rw [e1 h]
    refine ⟨?_, ?_, ?_, ?_⟩
    · simp [write_cart_force, List.foldl]
    · simp [write_cart_force, List.foldl, apply_motion_profile]
    · rw [← hm]
      simp [write_cart_force, List.foldl]
    · rw [← he]
      simp [write_cart_force, List.foldl]
  · rw [e2 h]
    exact ⟨rfl, rfl, hm, he⟩
  · rw [e3 h]
    exact ⟨rfl, rfl, hm, he⟩

/-- C17 as stated fails: with `use_transformed_driver_` off, both stored norms 0
and an adaptive module that returns 5 on every axis, the energy entry of axis 3
under CART_ACCELERATION is 5, not 0. -/
theorem shaped_command_not_zero_without_transformed_driver :
    (({ sample_controller 650 1538 with
          use_transformed_driver_ := false
          desired_task_inteface_ := dynamics_interface.CART_ACCELERATION } :
          dynamics_controller ℚ Nat).transformed_error_ 0 < 1e-10 ∧
        ({ sample_controller 650 1538 with
          use_transformed_driver_ := false
          desired_task_inteface_ := dynamics_interface.CART_ACCELERATION } :
          dynamics_controller ℚ Nat).transformed_error_ 3 < 1e-10) ∧
      (compute_cart_control_commands
        { sample_env 0 control_mode.TORQUE (fun _ => 0) with
          abag_update_state := fun w _ => (w, fun _ => 5) }
        { sample_controller 650 1538 with
          use_transformed_driver_ := false
          desired_task_inteface_ := dynamics_interface.CART_ACCELERATION }).2.robot_state_.ee_acceleration_energy
          3 = 5 := by
  refine ⟨⟨by norm_num [sample_controller], by norm_num [sample_controller]⟩, ?_⟩
  decide!

/-- C17, amended: when the transformed driver is in use and the linear and the
angular norm stored by `compute_control_error` are both below 1e-10, the shaped
command of `compute_cart_control_commands` is the zero vector: the end-effector
force under CART_FORCE, the energy vector under CART_ACCELERATION, whatever the
maximum command, the constraint flags and the output of the adaptive module. -/
theorem shaped_command_zero_below_min_norm [LinearOrderedField α] (env : Env α W)
    (c : dynamics_controller α W) (hdrv : c.use_transformed_driver_ = true)
    (hlin : c.transformed_error_ 0 < 1e-10) (hang : c.transformed_error_ 3 < 1e-10) :
    (c.desired_task_inteface_ = dynamics_interface.CART_FORCE →
        ∀ i : Fin 6, (ee_force (compute_cart_control_commands env c).2).get i = 0) ∧
      (c.desired_task_inteface_ = dynamics_interface.CART_ACCELERATION →
        ∀ i : Fin 6,
          (compute_cart_control_commands env c).2.robot_state_.ee_acceleration_energy i = 0) := by
  have hcmd : ∀ i : Fin 6, (adaptive_command env c).abag_command_ i = 0 := by
    intro i
    unfold adaptive_command
    rw [if_pos hdrv]
    exact transform_motion_driver_zero env c hlin hang i
  obtain ⟨hi, -, hend, hcf, -⟩ := adaptive_command_frame env c
  obtain ⟨e1, e2, -⟩ := compute_cart_control_commands_eq env c
  constructor
  · intro hif i
    rw [e1 (hi.trans hif)]
    by_cases hee : (apply_motion_profile env (adaptive_command env c)).END_EFF_ <
        (apply_motion_profile env (adaptive_command env c)).cart_force_command_.length
    · rw [(write_cart_force_spec _ hee).1 i]
      have : (apply_motion_profile env (adaptive_command env c)).abag_command_ i = 0 := hcmd i
      rw [this]
      simp
    · have hlen : (write_cart_force
          (apply_motion_profile env (adaptive_command env c))).cart_force_command_.length ≤
          (write_cart_force (apply_motion_profile env (adaptive_command env c))).END_EFF_ := by
        simp only [write_cart_force, List.foldl, List.length_set]
        exact not_lt.mp hee
      unfold ee_force
      rw [List.getD_eq_getElem?_getD, List.getElem?_eq_none hlen]
      fin_cases i <;> rfl
  · intro hif i
    rw [e2 (hi.trans hif)]
    simp only [(set_ee_acc_constraints_six _ _ _ _ _ _ _ _ _ _ _ _ _).2.2 i]
    have h0 : ∀ k : Fin 6, (apply_motion_profile env (adaptive_command env c)).abag_command_ k *
        (apply_motion_profile env (adaptive_command env c)).motion_profile_ k = 0 := by
      intro k
      have : (apply_motion_profile env (adaptive_command env c)).abag_command_ k = 0 := hcmd k
      rw [this, zero_mul]
    simp only [h0]
    fin_cases i <;> rfl

/-- C17, at the sample controller (transformed driver on, stored norms 0) and an
adaptive module that returns 5 on every axis. -/
theorem shaped_command_zero_below_min_norm_witness :
    (sample_controller 650 1538).use_transformed_driver_ = true ∧
      (sample_controller 650 1538).transformed_error_ 0 < 1e-10 ∧
      (sample_controller 650 1538).transformed_error_ 3 < 1e-10 ∧
      ∀ i : Fin 6,
        (ee_force (compute_cart_control_commands
          { sample_env 0 control_mode.TORQUE (fun _ => 0) with
            abag_update_state := fun w _ => (w, fun _ => 5) }
          (sample_controller 650 1538)).2).get i = 0 :=
  ⟨rfl, by norm_num [sample_controller], by norm_num [sample_controller],
    (shaped_command_zero_below_min_norm _ (sample_controller 650 1538) rfl
      (by norm_num [sample_controller]) (by norm_num [sample_controller])).1 rfl⟩

/-- The sample motion profile returns the maximum command, which is within the
bound of the specification. -/
theorem sample_env_motion_profile_bounded (hd_status : Int) (safe_mode : control_mode)
    (clock : Nat → ℚ) : motion_profile_bounded (sample_env hd_status safe_mode clock) := by
  intro state max_command delta upper lower h
  exact ⟨h, le_refl _⟩

/-- One call of `compute_cart_control_commands` at the sample controller, whose
maximum command is 0 on every axis as after construction, with a motion profile
that keeps the bound of the specification: the multiplier of the angular axis 3
is 1 afterwards, which is above the maximum command 0. -/
theorem motion_profile_angular_axis_above_max_command :
    motion_profile_bounded (sample_env 0 control_mode.TORQUE (fun _ => 0)) ∧
      (compute_cart_control_commands (sample_env 0 control_mode.TORQUE (fun _ => 0))
        (sample_controller 650 1538)).2.motion_profile_ 3 = 1 ∧
      (compute_cart_control_commands (sample_env 0 control_mode.TORQUE (fun _ => 0))
        (sample_controller 650 1538)).2.max_command_ 3 = 0 ∧
      ¬ ((compute_cart_control_commands (sample_env 0 control_mode.TORQUE (fun _ => 0))
          (sample_controller 650 1538)).2.motion_profile_ 3 ≤
        (compute_cart_control_commands (sample_env 0 control_mode.TORQUE (fun _ => 0))
          (sample_controller 650 1538)).2.max_command_ 3) := by
  refine ⟨sample_env_motion_profile_bounded _ _ _, ?_, ?_, ?_⟩ <;> decide!

/-- One call of `compute_cart_control_commands` on any controller: the
multiplier of each linear axis (0, 1, 2) is the motion profile of the norm of
the linear part of the stored `current_error_twist_` and of the maximum command
of that axis, and it lies in [0, max_command(i)] when the maximum command is
not negative and the profile function keeps the bound of the specification; the
multipliers of the angular axes (3, 4, 5) and the maximum commands are as they
were before the call. -/
theorem motion_profile_after_commands [LinearOrderedField α] (env : Env α W)
    (hprof : motion_profile_bounded env) (c : dynamics_controller α W) :
    (∀ i : Fin 6, i.val < 3 →
        (compute_cart_control_commands env c).2.motion_profile_ i =
          env.negative_step_decision_map (env.Norm c.current_error_twist_.vel)
            (c.max_command_ i) 0.25 0.4 0.1) ∧
      (∀ i : Fin 6, i.val < 3 → 0 ≤ c.max_command_ i →
        0 ≤ (compute_cart_control_commands env c).2.motion_profile_ i ∧
          (compute_cart_control_commands env c).2.motion_profile_ i ≤
            (compute_cart_control_commands env c).2.max_command_ i) ∧
      (∀ i : Fin 6, 3 ≤ i.val →
        (compute_cart_control_commands env c).2.motion_profile_ i = c.motion_profile_ i) ∧
      (compute_cart_control_commands env c).2.max_command_ = c.max_command_ := by
  obtain ⟨hm, -, hmax, -⟩ := compute_cart_control_commands_frame env c
  obtain ⟨-, -, -, -, -, hprof0, hmax0, herr0⟩ := adaptive_command_frame env c
  have hlin : ∀ i : Fin 6, i.val < 3 →
      (compute_cart_control_commands env c).2.motion_profile_ i =
        env.negative_step_decision_map (env.Norm c.current_error_twist_.vel)
          (c.max_command_ i) 0.25 0.4 0.1 := by
    intro i hi
    rw [hm, apply_motion_profile_spec, if_pos hi, hmax0, herr0]
  refine ⟨hlin, ?_, ?_, hmax⟩
  · intro i hi hnn
    rw [hlin i hi, hmax]
    exact hprof _ _ _ _ _ hnn
  · intro i hi
    rw [hm, apply_motion_profile_spec, if_neg (by omega), hprof0]

/-- One call of `compute_cart_control_commands` at the sample collaborators and
the sample controller leaves the maximum commands as they were. -/
theorem motion_profile_after_commands_witness :
    motion_profile_bounded (sample_env 0 control_mode.TORQUE (fun _ => 0)) ∧
      (compute_cart_control_commands (sample_env 0 control_mode.TORQUE (fun _ => 0))
        (sample_controller 650 1538)).2.max_command_ = (sample_controller 650 1538).max_command_ :=
  ⟨sample_env_motion_profile_bounded _ _ _,
    (motion_profile_after_commands _ (sample_env_motion_profile_bounded _ _ _)
      (sample_controller 650 1538)).2.2.2⟩

/-- The identity rotation times its inverse is the identity rotation. -/
theorem rotation_identity_mul_inverse {β : Type} [CommRing β] :
    KDL.Rotation.mul (KDL.Rotation.Identity : KDL.Rotation β)
      (KDL.Rotation.Inverse KDL.Rotation.Identity) = KDL.Rotation.Identity := by
  ext i
  fin_cases i <;>
    simp only [KDL.Rotation.mul, KDL.Rotation.Inverse, KDL.Rotation.Identity, ofEntries_data] <;>
    show _ = _ <;> simp only [KDL.Rotation.ofEntries] <;> ring

/-- The value of the logarithmic map at the identity follows from its
antisymmetry under inversion. -/
theorem log_map_identity_of_antisymmetric [LinearOrderedField α] (env : Env α W)
    (h : log_map_antisymmetric env) : log_map_identity env := by
  have hinv : KDL.Rotation.Inverse (KDL.Rotation.Identity : KDL.Rotation α) =
      KDL.Rotation.Identity := by
    ext i
    fin_cases i <;> rfl
  have h1 := h KDL.Rotation.Identity
  rw [hinv] at h1
  unfold log_map_identity
  have hx : ∀ x : α, x = -x → x = 0 := by
    intro x hx
    linarith
  have e1 := congrArg KDL.Vector.x h1
  have e2 := congrArg KDL.Vector.y h1
  have e3 := congrArg KDL.Vector.z h1
  simp only [KDL.Vector.neg] at e1 e2 e3
  ext
  · exact hx _ e1
  · exact hx _ e2
  · exact hx _ e3

/-- The sample logarithmic map gives the zero vector at the identity. -/
theorem sample_env_log_map_identity (hd_status : Int) (safe_mode : control_mode)
    (clock : Nat → ℚ) : log_map_identity (sample_env hd_status safe_mode clock) := by
  simp only [log_map_identity, sample_env, KDL.Rotation.Identity, ofEntries_data,
    KDL.Vector.Zero]
  ext <;> simp only [] <;> norm_num

/-- C18: for a desired end-effector pose at position (1, 0, 0) with the
identity rotation and a current end-effector pose at position (0, 0, 0) with the
identity rotation, `displacement_twist desired current` is the twist with
linear part (1, 0, 0) and angular part (0, 0, 0), the logarithmic map giving
the zero vector at the identity rotation. -/
theorem displacement_twist_scenario [LinearOrderedField α] (env : Env α W)
    (hid : log_map_identity env) (end_eff : Nat) (desired current : state_specification α)
    (hdes : ee_pose end_eff desired = ⟨⟨1, 0, 0⟩, KDL.Rotation.Identity⟩)
    (hcur : ee_pose end_eff current = ⟨⟨0, 0, 0⟩, KDL.Rotation.Identity⟩) :
    displacement_twist env end_eff desired current = ⟨⟨1, 0, 0⟩, ⟨0, 0, 0⟩⟩ := by
  unfold displacement_twist
  simp only [hdes, hcur, rotation_identity_mul_inverse]
  rw [hid]
  simp [KDL.Vector.sub, KDL.Vector.Zero]

/-- C18, at the sample logarithmic map and two states of a two-segment chain. -/
theorem displacement_twist_scenario_witness :
    log_map_identity (sample_env 0 control_mode.TORQUE (fun _ => 0)) ∧
      displacement_twist (sample_env 0 control_mode.TORQUE (fun _ => 0)) 1
          { sample_state 2 with
            frame_pose := [KDL.Frame.Identity, ⟨⟨1, 0, 0⟩, KDL.Rotation.Identity⟩,
              KDL.Frame.Identity] }
          (sample_state 2) =
        ⟨⟨1, 0, 0⟩, ⟨0, 0, 0⟩⟩ :=
  ⟨sample_env_log_map_identity _ _ _,
    displacement_twist_scenario _ (sample_env_log_map_identity _ _ _) 1 _ _ rfl rfl⟩

/-! ### Task configuration -/

/-- The controller the constructor builds has the shape invariant. -/
theorem construct_shape_invariant [LinearOrderedField α] (robot_driver : robot_mediator α)
    (world : W) (rate_hz : Int) (c : dynamics_controller α W)
    (h : construct robot_driver world rate_hz = Outcome.done c) : shape_invariant c := by
  unfold construct at h
  split at h
  · exact absurd h (by simp)
  · simp only [] at h
    split at h
    · exact absurd h (by simp)
    · split at h
      · exact absurd h (by simp)
      · split at h
        · exact absurd h (by simp)
        · split at h
          · exact absurd h (by simp)
          · split at h
            · exact absurd h (by simp)
            · rename_i hj _ _ hseg
              split at h
              · rename_i hlt
                simp only [Outcome.done.injEq] at h
                subst h
                simp only [ne_eq, Nat.cast_inj, Decidable.not_not] at hj
                refine ⟨by simp, ?_, ?_, ?_, ?_⟩
                · simpa using hlt
                · simp [state_specification.create]
                  omega
                · simp [state_specification.create]
                  omega
                · simp [state_specification.create]
              · exact absurd h (by simp)

/-- The loop of `set_feedforward_torque` over the first `n` joints: with as many
stored torques as values every subscript is inside its container, the first `n`
torques become the first `n` values and nothing else changes. -/
theorem set_feedforward_torque_loop (ff_torque : List α) (state : state_specification α)
    (hlen : state.feedforward_torque.length = ff_torque.length) :
    ∀ n, n ≤ ff_torque.length →
      ∃ st, (List.range n).foldl (set_feedforward_torque_step ff_torque) (some state) = some st ∧
        st.feedforward_torque.length = ff_torque.length ∧
        st.frame_pose = state.frame_pose ∧ st.external_force = state.external_force ∧
        (∀ i, i < n → st.feedforward_torque[i]? = ff_torque[i]?) := by
  intro n
  induction n with
  | zero =>
    intro _
    exact ⟨state, rfl, hlen, rfl, rfl, by simp⟩
  | succ n ih =>
    intro hn
    obtain ⟨st, h1, h2, h3, h4, h5⟩ := ih (by omega)
    have hn1 : n < ff_torque.length := by omega
    have hn2 : n < st.feedforward_torque.length := by omega
    refine ⟨{ st with feedforward_torque := st.feedforward_torque.set n (ff_torque[n]) }, ?_, ?_,
      h3, h4, ?_⟩
    · rw [List.range_succ, List.foldl_append, h1]
      simp [set_feedforward_torque_step, List.getElem?_eq_getElem hn1,
        List.getElem?_eq_getElem hn2]
    · simpa using h2
    · intro i hi
      by_cases hin : i = n
      · subst hin
        simp [List.getElem?_set, hn2, List.getElem?_eq_getElem hn1]
      · have : n ≠ i := fun h => hin h.symm
        simp only [List.getElem?_set_ne this]
        exact h5 i (by omega)

/-- With `NUM_OF_JOINTS_` values and as many stored torques `set_feedforward_torque`
completes, and the stored torques become the values. -/
theorem set_feedforward_torque_done (c : dynamics_controller α W)
    (state : state_specification α) (ff_torque : List α)
    (hlen : (state.feedforward_torque.length : Int) = c.NUM_OF_JOINTS_)
    (hff : (ff_torque.length : Int) = c.NUM_OF_JOINTS_) :
    ∃ st, set_feedforward_torque c state ff_torque = Outcome.done st ∧
      st.feedforward_torque = ff_torque ∧ st.frame_pose = state.frame_pose ∧
      st.external_force = state.external_force := by
  have hl : state.feedforward_torque.length = ff_torque.length := by omega
  have hn : c.NUM_OF_JOINTS_.toNat = ff_torque.length := by omega
  obtain ⟨st, h1, h2, h3, h4, h5⟩ :=
    set_feedforward_torque_loop ff_torque state hl ff_torque.length (le_refl _)
  refine ⟨st, ?_, ?_, h3, h4⟩
  · simp [set_feedforward_torque, hff, hn, h1, Outcome.ofChecked]
  · apply List.ext_getElem? 
    intro i
    by_cases hi : i < ff_torque.length
    · exact h5 i hi
    · rw [List.getElem?_eq_none (by omega), List.getElem?_eq_none (by omega)]

/-- With six flags, twelve values and the end-effector index inside the frames
of the desired state `define_desired_ee_pose` completes; it keeps the shape of
the controller and stores the flags. -/
theorem define_desired_ee_pose_done (c : dynamics_controller α W)
    (constraint_direction : List Bool) (cartesian_pose : List α)
    (hd : constraint_direction.length = 6) (hp : cartesian_pose.length = 12)
    (hshape : shape_invariant c) :
    ∃ c1, define_desired_ee_pose constraint_direction cartesian_pose c = Outcome.done c1 ∧
      c1.CTRL_DIM_ = constraint_direction ∧ shape_invariant c1 := by
  obtain ⟨-, s2, s3, s4, s5⟩ := hshape
  have h0 : 0 < cartesian_pose.length := by omega
  have h1 : 1 < cartesian_pose.length := by omega
  have h2 : 2 < cartesian_pose.length := by omega
  have h3 : 3 < cartesian_pose.length := by omega
  have h4 : 4 < cartesian_pose.length := by omega
  have h5 : 5 < cartesian_pose.length := by omega
  have h6 : 6 < cartesian_pose.length := by omega
  have h7 : 7 < cartesian_pose.length := by omega
  have h8 : 8 < cartesian_pose.length := by omega
  have h9 : 9 < cartesian_pose.length := by omega
  have h10 : 10 < cartesian_pose.length := by omega
  have h11 : 11 < cartesian_pose.length := by omega
  simp only [define_desired_ee_pose, hd, hp, ne_eq, not_true_eq_false, if_false,
    List.getElem?_eq_getElem s3, List.getElem?_eq_getElem h0, List.getElem?_eq_getElem h1,
    List.getElem?_eq_getElem h2, List.getElem?_eq_getElem h3, List.getElem?_eq_getElem h4,
    List.getElem?_eq_getElem h5, List.getElem?_eq_getElem h6, List.getElem?_eq_getElem h7,
    List.getElem?_eq_getElem h8, List.getElem?_eq_getElem h9, List.getElem?_eq_getElem h10,
    List.getElem?_eq_getElem h11, Option.pure_def, Option.bind_eq_bind, Option.some_bind,
    Outcome.ofChecked, Nat.reduceMul]
  exact ⟨_, rfl, rfl, hd, s2, by simpa using s3, s4, s5⟩

/-- With six values and the end-effector index inside the wrenches of the
desired state `define_ee_external_force` completes and keeps the shape of the
controller. -/
theorem define_ee_external_force_done (c : dynamics_controller α W) (external_force : List α)
    (hf : external_force.length = 6) (hshape : shape_invariant c) :
    ∃ c1, define_ee_external_force external_force c = Outcome.done c1 ∧
      shape_invariant c1 := by
  obtain ⟨s1, s2, s3, s4, s5⟩ := hshape
  have h0 : 0 < external_force.length := by omega
  have h1 : 1 < external_force.length := by omega
  have h2 : 2 < external_force.length := by omega
  have h3 : 3 < external_force.length := by omega
  have h4 : 4 < external_force.length := by omega
  have h5 : 5 < external_force.length := by omega
  simp only [define_ee_external_force, set_external_forces, hf, ne_eq, not_true_eq_false,
    if_false, List.getElem?_eq_getElem s4, List.getElem?_eq_getElem h0,
    List.getElem?_eq_getElem h1, List.getElem?_eq_getElem h2, List.getElem?_eq_getElem h3,
    List.getElem?_eq_getElem h4, List.getElem?_eq_getElem h5, Option.pure_def,
    Option.bind_eq_bind, Option.some_bind, Outcome.ofChecked]
  exact ⟨_, rfl, s1, s2, s3, by simpa using s4, s5⟩

/-- With `NUM_OF_JOINTS_` values `define_feedforward_torque` completes, stores
the values and keeps the shape of the controller. -/
theorem define_feedforward_torque_done (c : dynamics_controller α W) (ff_torque : List α)
    (hff : (ff_torque.length : Int) = c.NUM_OF_JOINTS_) (hshape : shape_invariant c) :
    ∃ c1, define_feedforward_torque ff_torque c = Outcome.done c1 ∧
      c1.desired_state_.feedforward_torque = ff_torque ∧ shape_invariant c1 := by
  obtain ⟨s1, s2, s3, s4, s5⟩ := hshape
  obtain ⟨st, k1, k2, k3, k4⟩ := set_feedforward_torque_done c c.desired_state_ ff_torque s5 hff
  refine ⟨{ c with desired_state_ := st }, ?_, k2, ?_⟩
  · simp [define_feedforward_torque, k1]
  · refine ⟨s1, s2, ?_, ?_, ?_⟩
    · simpa [k3] using s3
    · simpa [k4] using s4
    · simpa [k2] using hff

/-- With six flags and six accelerations `define_ee_acc_constraint` completes
and keeps the shape of the controller; the subscripts 0 to 5 it reads are
inside both vectors. -/
theorem define_ee_acc_constraint_done [LinearOrderedField α] (c : dynamics_controller α W)
    (constraint_direction : List Bool) (cartesian_acceleration : List α)
    (hd : constraint_direction.length = 6) (ha : cartesian_acceleration.length = 6)
    (hshape : shape_invariant c) :
    (∃ c1, define_ee_acc_constraint constraint_direction cartesian_acceleration c =
        Outcome.done c1 ∧ shape_invariant c1) ∧
      ∀ i : Fin 6, i.val < constraint_direction.length ∧ i.val < cartesian_acceleration.length := by
  obtain ⟨s1, s2, s3, s4, s5⟩ := hshape
  constructor
  · simp only [define_ee_acc_constraint, set_ee_acc_constraints, hd, ha, ne_eq,
      not_true_eq_false, if_false]
    refine ⟨_, rfl, s1, s2, ?_, ?_, ?_⟩ <;> simpa [List.foldl]
  · intro i
    omega

/-- C20: on a controller with the shape the constructor gives it, each
task-configuration call fails its size assertion for a wrongly sized input and
completes for a correctly sized one, keeping the shape: `define_desired_ee_pose`
needs 6 flags and 12 pose values, `define_ee_acc_constraint` 6 flags and 6
accelerations, `define_ee_external_force` 6 values, `define_feedforward_torque`
`NUM_OF_JOINTS_` values. Every subscript of the calls is checked in this
embedding, so completing means that each index read or written was inside its
container; the subscripts 0 to 5 of `set_ee_acc_constraints` are inside both of
its vectors. -/
theorem task_configuration_sizes [LinearOrderedField α] (c : dynamics_controller α W)
    (hshape : shape_invariant c) (constraint_direction : List Bool)
    (cartesian_pose cartesian_acceleration external_force ff_torque : List α) :
    ((constraint_direction.length = 6 ∧ cartesian_pose.length = 12 →
          ∃ c1, define_desired_ee_pose constraint_direction cartesian_pose c = Outcome.done c1 ∧
            shape_invariant c1) ∧
        (¬ (constraint_direction.length = 6 ∧ cartesian_pose.length = 12) →
          define_desired_ee_pose constraint_direction cartesian_pose c =
            Outcome.assert_failed)) ∧
      ((constraint_direction.length = 6 ∧ cartesian_acceleration.length = 6 →
          (∃ c1, define_ee_acc_constraint constraint_direction cartesian_acceleration c =
              Outcome.done c1 ∧ shape_invariant c1) ∧
            ∀ i : Fin 6, i.val < constraint_direction.length ∧
              i.val < cartesian_acceleration.length) ∧
        (¬ (constraint_direction.length = 6 ∧ cartesian_acceleration.length = 6) →
          define_ee_acc_constraint constraint_direction cartesian_acceleration c =
            Outcome.assert_failed)) ∧
      ((external_force.length = 6 →
          ∃ c1, define_ee_external_force external_force c = Outcome.done c1 ∧
            shape_invariant c1) ∧
        (external_force.length ≠ 6 →
          define_ee_external_force external_force c = Outcome.assert_failed)) ∧
      (((ff_torque.length : Int) = c.NUM_OF_JOINTS_ →
          ∃ c1, define_feedforward_torque ff_torque c = Outcome.done c1 ∧
            c1.desired_state_.feedforward_torque = ff_torque ∧ shape_invariant c1) ∧
        ((ff_torque.length : Int) ≠ c.NUM_OF_JOINTS_ →
          define_feedforward_torque ff_torque c = Outcome.assert_failed)) := by
  refine ⟨⟨?_, ?_⟩, ⟨?_, ?_⟩, ⟨?_, ?_⟩, ⟨?_, ?_⟩⟩
  · rintro ⟨hd, hp⟩
    obtain ⟨c1, h1, -, h3⟩ := define_desired_ee_pose_done c _ _ hd hp hshape
    exact ⟨c1, h1, h3⟩
  · intro h
    unfold define_desired_ee_pose
    by_cases hd : constraint_direction.length = 6
    · have hp : cartesian_pose.length ≠ 6 * 2 := fun hp => h ⟨hd, hp⟩
      simp [hd, hp]
    · simp [hd]
  · rintro ⟨hd, ha⟩
    exact define_ee_acc_constraint_done c _ _ hd ha hshape
  · intro h
    unfold define_ee_acc_constraint set_ee_acc_constraints
    by_cases hd : constraint_direction.length = 6
    · have ha : cartesian_acceleration.length ≠ 6 := fun ha => h ⟨hd, ha⟩
      simp [hd, ha]
    · simp [hd]
  · intro hf
    exact define_ee_external_force_done c _ hf hshape
  · intro hf
    simp [define_ee_external_force, set_external_forces, hf]
  · intro hff
    exact define_feedforward_torque_done c _ hff hshape
  · intro hff
    simp [define_feedforward_torque, set_feedforward_torque, hff]

/-- The sample controller has the shape invariant. -/
theorem sample_controller_shape_invariant (rate_hz dt_micro : Int) :
    shape_invariant (sample_controller rate_hz dt_micro) := by
  refine ⟨?_, ?_, ?_, ?_, ?_⟩ <;> simp [sample_controller, sample_state]

/-- C20, at the sample controller of a two-joint chain: two feedforward torques
are accepted and stored. -/
theorem task_configuration_sizes_witness :
    shape_invariant (sample_controller 650 1538) ∧
      ∃ c1, define_feedforward_torque [1, 2] (sample_controller 650 1538) = Outcome.done c1 ∧
        c1.desired_state_.feedforward_torque = [1, 2] ∧ shape_invariant c1 :=
  ⟨sample_controller_shape_invariant _ _,
    (task_configuration_sizes (sample_controller 650 1538)
      (sample_controller_shape_invariant _ _) [] [] [] [] [1, 2]).2.2.2.1 rfl⟩

/-! ### The forward-kinematics status, and step() against a cycle of control() -/

/-- What `compute_control_error` appends to the trace, and what it keeps. -/
theorem compute_control_error_trace [LinearOrderedField α] (env : Env α W)
    (c : dynamics_controller α W) :
    (compute_control_error env c).trace =
        c.trace ++ [Event.file_write LogFile.predictions, Event.integrate_cartesian_space] ∧
      (compute_control_error env c).store_control_data_ = c.store_control_data_ ∧
      (compute_control_error env c).desired_task_inteface_ = c.desired_task_inteface_ := by
  simp [compute_control_error, make_predictions, emit]

/-- The adaptive command starts with the call of the adaptive module; what
follows it is not critical. -/
theorem adaptive_command_trace [LinearOrderedField α] (env : Env α W)
    (c : dynamics_controller α W) :
    (∃ shaping, (∀ e ∈ shaping, critical e = false) ∧
        (adaptive_command env c).trace = c.trace ++ Event.abag_update_state :: shaping) ∧
      (adaptive_command env c).store_control_data_ = c.store_control_data_ := by
  unfold adaptive_command
  split
  · unfold transform_motion_driver
    simp only []
    split <;> split
    · exact ⟨⟨[], by simp, by simp [emit]⟩, by simp [emit]⟩
    · exact ⟨⟨[], by simp, by simp [emit]⟩, by simp [emit]⟩
    · exact ⟨⟨[Event.print Message.linear_norm_too_small], by simp [critical], by simp [emit]⟩,
        by simp [emit]⟩
    · exact ⟨⟨[Event.print Message.linear_norm_too_small], by simp [critical], by simp [emit]⟩,
        by simp [emit]⟩
  · exact ⟨⟨[], by simp, by simp [emit]⟩, by simp [emit]⟩

/-- The events of `compute_cart_control_commands`, what it keeps, and how it
ends: it completes for the two Cartesian interfaces and never keeps running. -/
theorem compute_cart_control_commands_trace [LinearOrderedField α] (env : Env α W)
    (c : dynamics_controller α W) :
    (∃ shaping, (∀ e ∈ shaping, critical e = false) ∧
        (compute_cart_control_commands env c).2.trace =
          c.trace ++ Event.abag_update_state :: shaping) ∧
      (compute_cart_control_commands env c).2.store_control_data_ = c.store_control_data_ ∧
      ((c.desired_task_inteface_ = dynamics_interface.CART_FORCE ∨
          c.desired_task_inteface_ = dynamics_interface.CART_ACCELERATION) →
        (compute_cart_control_commands env c).1 = Result.ret ()) ∧
      (compute_cart_control_commands env c).1 ≠ Result.running := by
  obtain ⟨hi, -⟩ := adaptive_command_frame env c
  obtain ⟨htr, hst⟩ := adaptive_command_trace env c
  obtain ⟨e1, e2, e3⟩ := compute_cart_control_commands_eq env c
  rw [hi] at e1 e2 e3
  have ht : (apply_motion_profile env (adaptive_command env c)).trace =
      (adaptive_command env c).trace := rfl
  have hs : (apply_motion_profile env (adaptive_command env c)).store_control_data_ =
      c.store_control_data_ := hst
  cases h : c.desired_task_inteface_
  · rw [e1 h]
    refine ⟨?_, ?_, by simp, by simp⟩
    · have : (write_cart_force (apply_motion_profile env (adaptive_command env c))).trace =
          (adaptive_command env c).trace := by
        rw [← ht]
        simp [write_cart_force, List.foldl]
      simpa [this] using htr
    · rw [← hs]
      simp [write_cart_force, List.foldl]
  · rw [e2 h]
    refine ⟨by simpa [ht] using htr, hs, ?_, ?_⟩
    · simp [(set_ee_acc_constraints_six _ _ _ _ _ _ _ _ _ _ _ _ _).1]
    · simp [(set_ee_acc_constraints_six _ _ _ _ _ _ _ _ _ _ _ _ _).1]
  · rw [e3 h]
    exact ⟨by simpa [ht] using htr, hs, by simp, by simp⟩

/-- The logging switch is as before after `evaluate_dynamics`. -/
theorem evaluate_dynamics_store (env : Env α W) (c : dynamics_controller α W) :
    (evaluate_dynamics env c).2.store_control_data_ = c.store_control_data_ := by
  unfold evaluate_dynamics
  simp only []
  by_cases h : (env.hd_CartToJnt c.world c.robot_state_ c.cart_force_command_).2.1 = 0 <;>
    simp [h, emit]

/-- The function `update_current_state` in a cycle of control(): the reading of
the joint state, the forward kinematics, and the warning for a non-zero status. -/
theorem update_current_state_eq (env : Env α W) (c : dynamics_controller α W) :
    update_current_state env
        { c with world := (env.now c.world).1, loop_start_time_ := (env.now c.world).2 } =
      if fk_status env (read_joint_state env c) ≠ 0 then
        emit (.print (.fk_solver_error (fk_status env (read_joint_state env c))))
          (forward_kinematics env (read_joint_state env c))
      else forward_kinematics env (read_joint_state env c) := rfl

/-- A cycle of control() by its stages. -/
theorem control_cycle_eq [LinearOrderedField α] (env : Env α W) (store_control_data : Bool)
    (fuel : Nat) (c : dynamics_controller α W) :
    control_cycle env store_control_data fuel c =
      match compute_cart_control_commands env (compute_control_error env
        (update_current_state env
          { c with world := (env.now c.world).1, loop_start_time_ := (env.now c.world).2 })) with
      | (.assert_failed, c4) => (.assert_failed, c4)
      | (.running, c4) => (.running, c4)
      | (.ret (), c4) => solve_and_finish env store_control_data fuel c4 := by
  unfold control_cycle solve_and_finish finish_cycle
  rfl

/-- One call of step() by its stages. -/
theorem step_eq [LinearOrderedField α] (env : Env α W) (q_input qd_input tau_output : List α)
    (c : dynamics_controller α W) :
    step env q_input qd_input tau_output c =
      if fk_status env (store_joint_state q_input qd_input c) ≠ 0 then
        (.ret (-1), tau_output,
          emit (.print (.fk_solver_error (fk_status env (store_joint_state q_input qd_input c))))
            (deinitialize_ env (forward_kinematics env (store_joint_state q_input qd_input c))))
      else
        match compute_cart_control_commands env (compute_control_error env
          (forward_kinematics env (store_joint_state q_input qd_input c))) with
        | (.assert_failed, c4) => (.assert_failed, tau_output, c4)
        | (.running, c4) => (.running, tau_output, c4)
        | (.ret (), c4) =>
          if (evaluate_dynamics env
              (if c4.store_control_data_ then write_to_file c4 else c4)).1 ≠ 0 then
            (.ret (-1), tau_output, emit (.print .dynamics_solver_error)
              (deinitialize_ env (evaluate_dynamics env
                (if c4.store_control_data_ then write_to_file c4 else c4)).2))
          else
            (.ret 0,
              (evaluate_dynamics env
                (if c4.store_control_data_ then write_to_file c4 else c4)).2.robot_state_.control_torque,
              (evaluate_dynamics env
                (if c4.store_control_data_ then write_to_file c4 else c4)).2) := by
  unfold step
  rfl

/-- The events of the stages of a cycle after the command shaping: the solver
is always called, and a cycle that ends control() has a failing solver call or
a stop answered by the safety module among them. -/
theorem solve_and_finish_spec [LinearOrderedField α] (env : Env α W)
    (store_control_data : Bool) (fuel : Nat) (c : dynamics_controller α W) :
    ∃ rest, (solve_and_finish env store_control_data fuel c).2.trace = c.trace ++ rest ∧
      (∃ s, Event.hd_CartToJnt s ∈ rest) ∧
      (∀ r, (solve_and_finish env store_control_data fuel c).1 = Result.ret (some r) →
        r = -1 ∧
          ((∃ s, s ≠ 0 ∧ Event.hd_CartToJnt s ∈ rest) ∨
            ∃ req, Event.set_control_commands req control_mode.STOP_MOTION ∈ rest)) := by
  unfold solve_and_finish finish_cycle
  simp only []
  have hw : ∃ pre1, (if store_control_data then write_to_file c else c).trace =
      c.trace ++ pre1 := by
    cases store_control_data
    · exact ⟨[], by simp⟩
    · exact ⟨_, by simp [write_to_file, emit]; rfl⟩
  obtain ⟨pre1, hpre1⟩ := hw
  generalize (if store_control_data then write_to_file c else c) = c5 at hpre1 ⊢
  obtain ⟨hdt, -⟩ := evaluate_dynamics_spec env c5
  generalize evaluate_dynamics env c5 = d at hdt ⊢
  obtain ⟨st, c6⟩ := d
  simp only at hdt
  by_cases hst : st = 0
  · subst hst
    simp only [ne_eq, not_true_eq_false, if_false] at hdt ⊢
    obtain ⟨-, m, -, hcase⟩ := apply_joint_control_commands_cases env c6
    generalize apply_joint_control_commands env c6 = a at hcase ⊢
    obtain ⟨ares, c7⟩ := a
    simp only at hcase
    rcases hcase with ⟨hm, hres, htr⟩ | ⟨hm, hres, tail, htr, -⟩
    · subst hm hres
      refine ⟨pre1 ++ (Event.hd_CartToJnt 0 :: Event.hd_get_control_torque ::
        Event.set_control_commands c6.desired_control_mode_.interface control_mode.STOP_MOTION ::
        Event.stop_robot_motion :: close_events store_control_data), ?_, ⟨0, by simp⟩, ?_⟩
      · cases store_control_data <;>
          simp [close_logs, close_log, set_open, emit, close_events, htr, hdt, hpre1]
      · intro r hr
        refine ⟨by simpa using hr.symm, Or.inr ⟨c6.desired_control_mode_.interface, by simp⟩⟩
    · rcases hres with hres | hres <;> subst hres
      · obtain ⟨k1, k2, -, -⟩ := check_loop_frequency_spec env fuel c7
        simp only [ne_eq, not_true_eq_false, if_false]
        refine ⟨pre1 ++ (Event.hd_CartToJnt 0 :: Event.hd_get_control_torque ::
          Event.set_control_commands c6.desired_control_mode_.interface m :: (tail ++
            (if (enforce_loop_frequency env fuel c7).1 = Result.ret (-1)
              then [Event.print Message.loop_too_slow] else []))), ?_, ⟨0, by simp⟩, ?_⟩
        · rw [k2, htr, hdt, hpre1]
          simp
        · intro r hr
          rcases k1 with k1 | k1 <;> rw [k1] at hr <;> simp at hr
      · refine ⟨pre1 ++ (Event.hd_CartToJnt 0 :: Event.hd_get_control_torque ::
          Event.set_control_commands c6.desired_control_mode_.interface m :: tail), ?_,
          ⟨0, by simp⟩, ?_⟩
        · simp only []
          rw [htr, hdt, hpre1]
          simp
        · intro r hr
          simp at hr
  · refine ⟨pre1 ++ (Event.hd_CartToJnt st :: Event.stop_robot_motion ::
      (close_events store_control_data ++ [Event.print Message.dynamics_solver_error])), ?_,
      ⟨st, by simp⟩, ?_⟩
    · cases store_control_data <;>
        simp [hst, close_logs, close_log, set_open, emit, close_events, stop_robot_motion,
          hdt, hpre1]
    · intro r hr
      simp only [ne_eq, hst, not_false_eq_true, if_true] at hr
      refine ⟨by simpa using hr.symm, Or.inl ⟨st, hst, by simp⟩⟩

/-- C12 as stated fails for step(): with a forward-kinematics solver that
returns status 5, step() returns -1 and leaves the caller's torque as it was;
after the solver call it only stops the robot and prints the message, so the
error computation, the command shaping and the dynamics solver do not run. -/
theorem step_fk_failure_is_fatal :
    (step sample_env_fk_failure [0, 0] [0, 0] [7, 7] (sample_controller 650 1538)).1 =
        Result.ret (-1) ∧
      (step sample_env_fk_failure [0, 0] [0, 0] [7, 7] (sample_controller 650 1538)).2.1 =
        [7, 7] ∧
      (step sample_env_fk_failure [0, 0] [0, 0] [7, 7] (sample_controller 650 1538)).2.2.trace =
        [Event.fk_JntToCart 5, Event.stop_robot_motion,
          Event.print (Message.fk_solver_error 5)] := by
  decide!

/-- C12, amended: a non-zero status of the forward-kinematics solver is only a
warning in a cycle of control() and is fatal in step(). In the cycle the warning
is followed by the error computation (the record on the prediction log and the
prediction), by the command shaping (the call of the adaptive module and events
that are not critical) and, for the two Cartesian interfaces, by the call of the
dynamics solver; and when the cycle ends control() it returns -1 and a failing
call of the dynamics solver or a stop answered by the safety module is among the
events after the shaping. In step() the call returns -1 with the caller's torque
as it was; after the solver call it only stops the robot, closes the logs when
logging is on and prints the message. -/
theorem fk_failure_warning_in_control_fatal_in_step [LinearOrderedField α] (env : Env α W)
    (store_control_data : Bool) (fuel : Nat) (c : dynamics_controller α W)
    (q_input qd_input tau_output : List α)
    (hcycle : fk_status env (read_joint_state env c) ≠ 0)
    (hstep : fk_status env (store_joint_state q_input qd_input c) ≠ 0) :
    (∃ shaping rest, (∀ e ∈ shaping, critical e = false) ∧
        (control_cycle env store_control_data fuel c).2.trace =
          c.trace ++ ([Event.get_current_state,
            Event.fk_JntToCart (fk_status env (read_joint_state env c)),
            Event.print (Message.fk_solver_error (fk_status env (read_joint_state env c))),
            Event.file_write LogFile.predictions, Event.integrate_cartesian_space,
            Event.abag_update_state] ++ shaping ++ rest) ∧
        ((c.desired_task_inteface_ = dynamics_interface.CART_FORCE ∨
            c.desired_task_inteface_ = dynamics_interface.CART_ACCELERATION) →
          ∃ s, Event.hd_CartToJnt s ∈ rest) ∧
        (∀ r, (control_cycle env store_control_data fuel c).1 = Result.ret (some r) →
          r = -1 ∧
            ((∃ s, s ≠ 0 ∧ Event.hd_CartToJnt s ∈ rest) ∨
              ∃ req, Event.set_control_commands req control_mode.STOP_MOTION ∈ rest))) ∧
      (step env q_input qd_input tau_output c).1 = Result.ret (-1) ∧
      (step env q_input qd_input tau_output c).2.1 = tau_output ∧
      (step env q_input qd_input tau_output c).2.2.trace =
        c.trace ++ (Event.fk_JntToCart (fk_status env (store_joint_state q_input qd_input c)) ::
          Event.stop_robot_motion :: (close_events c.store_control_data_ ++
            [Event.print
              (Message.fk_solver_error
                (fk_status env (store_joint_state q_input qd_input c)))])) := by
  constructor
  · have hu : (update_current_state env
        { c with world := (env.now c.world).1, loop_start_time_ := (env.now c.world).2 }).trace =
        c.trace ++ [Event.get_current_state,
          Event.fk_JntToCart (fk_status env (read_joint_state env c)),
          Event.print (Message.fk_solver_error (fk_status env (read_joint_state env c)))] := by
      rw [update_current_state_eq, if_pos hcycle]
      simp [emit, forward_kinematics, read_joint_state, fk_status]
    have hdi : (update_current_state env
        { c with world := (env.now c.world).1,
                 loop_start_time_ := (env.now c.world).2 }).desired_task_inteface_ =
        c.desired_task_inteface_ := by
      rw [update_current_state_eq, if_pos hcycle]
      rfl
    obtain ⟨he, -, hei⟩ := compute_control_error_trace env (update_current_state env
      { c with world := (env.now c.world).1, loop_start_time_ := (env.now c.world).2 })
    obtain ⟨⟨shaping, hq, hs⟩, -, hret, hnr⟩ := compute_cart_control_commands_trace env
      (compute_control_error env (update_current_state env
        { c with world := (env.now c.world).1, loop_start_time_ := (env.now c.world).2 }))
    rw [hei, hdi] at hret
    rw [he, hu] at hs
    rw [control_cycle_eq]
    generalize compute_cart_control_commands env (compute_control_error env
      (update_current_state env
        { c with world := (env.now c.world).1, loop_start_time_ := (env.now c.world).2 })) = rc
      at hs hret hnr ⊢
    obtain ⟨res, c4⟩ := rc
    simp only at hs hret hnr
    cases res with
    | assert_failed =>
      refine ⟨shaping, [], hq, ?_, ?_, ?_⟩
      · simp only []
        rw [hs]
        simp
      · intro h
        simpa using hret h
      · intro r hr
        simp at hr
    | running => exact absurd rfl hnr
    | ret u =>
      obtain ⟨rest, h1, h2, h3⟩ := solve_and_finish_spec env store_control_data fuel c4
      refine ⟨shaping, rest, hq, ?_, fun _ => h2, h3⟩
      simp only []
      rw [h1, hs]
      simp
  · rw [step_eq, if_pos hstep]
    refine ⟨rfl, rfl, ?_⟩
    cases hsd : c.store_control_data_ <;>
      simp [deinitialize_, stop_robot_motion, emit, forward_kinematics, store_joint_state,
        close_events, close_logs, close_log, set_open, hsd, fk_status]

/-- C12, amended, at the sample controller with a forward-kinematics solver
that returns status 5. -/
theorem fk_failure_warning_in_control_fatal_in_step_witness :
    fk_status sample_env_fk_failure
        (read_joint_state sample_env_fk_failure (sample_controller 650 1538)) ≠ 0 ∧
      fk_status sample_env_fk_failure
        (store_joint_state [0, 0] [0, 0] (sample_controller 650 1538)) ≠ 0 ∧
      (step sample_env_fk_failure [0, 0] [0, 0] [7, 7] (sample_controller 650 1538)).1 =
        Result.ret (-1) ∧
      ∃ s, Event.hd_CartToJnt s ∈
        (control_cycle sample_env_fk_failure false 2 (sample_controller 650 1538)).2.trace :=
  ⟨by decide!, by decide!,
    (fk_failure_warning_in_control_fatal_in_step sample_env_fk_failure false 2
      (sample_controller 650 1538) [0, 0] [0, 0] [7, 7] (by decide!) (by decide!)).2.1,
    by
      obtain ⟨⟨shaping, rest, -, htr, hhd, -⟩, -⟩ :=
        fk_failure_warning_in_control_fatal_in_step sample_env_fk_failure false 2
          (sample_controller 650 1538) [0, 0] [0, 0] [7, 7] (by decide!) (by decide!)
      obtain ⟨s, hs⟩ := hhd (Or.inl rfl)
      exact ⟨s, by rw [htr]; simp [hs]⟩⟩

/-- C13 as stated fails: from the same controller and the same joint state, with
a safety module that answers STOP_MOTION, the cycle of control() hands the
commands to the safety module and returns -1, while step() returns 0: it calls
neither `get_current_state` nor `set_control_commands`. -/
theorem step_skips_the_safety_module :
    (control_cycle (sample_env 0 control_mode.STOP_MOTION (fun k => (2000 : ℚ) * k)) false 2
        { sample_controller 650 1538 with
          desired_control_mode_ := ⟨control_mode.TORQUE, false⟩ }).1 =
        Result.ret (some (-1)) ∧
      Event.set_control_commands control_mode.TORQUE control_mode.STOP_MOTION ∈
        (control_cycle (sample_env 0 control_mode.STOP_MOTION (fun k => (2000 : ℚ) * k)) false 2
          { sample_controller 650 1538 with
            desired_control_mode_ := ⟨control_mode.TORQUE, false⟩ }).2.trace ∧
      (step (sample_env 0 control_mode.STOP_MOTION (fun k => (2000 : ℚ) * k)) [0, 0] [0, 0] []
        { sample_controller 650 1538 with
          desired_control_mode_ := ⟨control_mode.TORQUE, false⟩ }).1 = Result.ret 0 ∧
      (step (sample_env 0 control_mode.STOP_MOTION (fun k => (2000 : ℚ) * k)) [0, 0] [0, 0] []
        { sample_controller 650 1538 with
          desired_control_mode_ := ⟨control_mode.TORQUE, false⟩ }).2.2.trace =
        [Event.fk_JntToCart 0, Event.file_write LogFile.predictions,
          Event.integrate_cartesian_space, Event.abag_update_state,
          Event.print Message.linear_norm_too_small, Event.hd_CartToJnt 0,
          Event.hd_get_control_torque] := by
  decide!

/-- C13, amended: step() is the middle of a cycle of control(), not the whole
of it. Let the cycle have read the clock and the joint state from the safety
module, let the forward kinematics return 0 on that state, and let step() be
called there with the same joint positions and velocities and the same logging
switch. Then step() ends at a failed assertion, with -1 or with 0. In the first
two cases the cycle ends in the same way, in the same state and with the same
events (the return of -1 ends control()), and the caller's torque is as it was.
When step() returns 0 the torque it hands back is the control torque of the
solver, and the cycle goes on from the state step() ends in with the stages
step() does not have: the commands go through the safety module, which can
still stop the robot, and the period is enforced. -/
theorem step_refines_control_cycle [LinearOrderedField α] (env : Env α W)
    (store_control_data : Bool) (fuel : Nat) (c : dynamics_controller α W)
    (q_input qd_input tau_output : List α)
    (hstore : c.store_control_data_ = store_control_data)
    (hq : q_input = (read_joint_state env c).robot_state_.q)
    (hqd : qd_input = (read_joint_state env c).robot_state_.qd)
    (hfk : fk_status env (read_joint_state env c) = 0) :
    ((step env q_input qd_input tau_output (read_joint_state env c)).1 = Result.assert_failed ∨
        (step env q_input qd_input tau_output (read_joint_state env c)).1 = Result.ret (-1) ∨
        (step env q_input qd_input tau_output (read_joint_state env c)).1 = Result.ret 0) ∧
      ((step env q_input qd_input tau_output (read_joint_state env c)).1 =
          Result.assert_failed →
        control_cycle env store_control_data fuel c =
          (Result.assert_failed,
            (step env q_input qd_input tau_output (read_joint_state env c)).2.2)) ∧
      ((step env q_input qd_input tau_output (read_joint_state env c)).1 = Result.ret (-1) →
        (step env q_input qd_input tau_output (read_joint_state env c)).2.1 = tau_output ∧
          control_cycle env store_control_data fuel c =
            (Result.ret (some (-1)),
              (step env q_input qd_input tau_output (read_joint_state env c)).2.2)) ∧
      ((step env q_input qd_input tau_output (read_joint_state env c)).1 = Result.ret 0 →
        (step env q_input qd_input tau_output (read_joint_state env c)).2.1 =
            (step env q_input qd_input tau_output
              (read_joint_state env c)).2.2.robot_state_.control_torque ∧
          control_cycle env store_control_data fuel c =
            finish_cycle env store_control_data fuel
              (step env q_input qd_input tau_output (read_joint_state env c)).2.2) := by
  subst hq hqd
  have hcr : store_joint_state (read_joint_state env c).robot_state_.q
      (read_joint_state env c).robot_state_.qd (read_joint_state env c) =
      read_joint_state env c := rfl
  have hne : ¬ fk_status env (read_joint_state env c) ≠ 0 := fun h => h hfk
  obtain ⟨-, hes, -⟩ := compute_control_error_trace env
    (forward_kinematics env (read_joint_state env c))
  obtain ⟨-, hcs, -, hnr⟩ := compute_cart_control_commands_trace env
    (compute_control_error env (forward_kinematics env (read_joint_state env c)))
  have hfs : (forward_kinematics env (read_joint_state env c)).store_control_data_ =
      c.store_control_data_ := rfl
  rw [hes, hfs, hstore] at hcs
  rw [step_eq, hcr, if_neg hne, control_cycle_eq, update_current_state_eq, if_neg hne]
  generalize compute_cart_control_commands env
    (compute_control_error env (forward_kinematics env (read_joint_state env c))) = rc
    at hcs hnr ⊢
  obtain ⟨res, c4⟩ := rc
  simp only at hcs hnr
  cases res with
  | assert_failed => simp
  | running => exact absurd rfl hnr
  | ret u =>
    simp only [hcs]
    have hds : (evaluate_dynamics env
        (if store_control_data then write_to_file c4 else c4)).2.store_control_data_ =
        store_control_data := by
      rw [evaluate_dynamics_store]
      cases store_control_data <;> simpa [write_to_file, emit] using hcs
    by_cases hd : (evaluate_dynamics env
        (if store_control_data then write_to_file c4 else c4)).1 = 0
    · simp [hd, solve_and_finish]
    · have hst : (stop_robot_motion env (evaluate_dynamics env
          (if store_control_data then write_to_file c4 else c4)).2).store_control_data_ =
          store_control_data := hds
      simp [hd, solve_and_finish, deinitialize_, hst]

/-- C13, amended, at the sample controller with a solver and a safety module
that accept everything: step() returns 0 and the cycle goes on with the stages
that follow the solver. -/
theorem step_refines_control_cycle_witness :
    (sample_controller 650 1538).store_control_data_ = false ∧
      fk_status (sample_env 0 control_mode.TORQUE (fun k => (2000 : ℚ) * k))
        (read_joint_state (sample_env 0 control_mode.TORQUE (fun k => (2000 : ℚ) * k))
          (sample_controller 650 1538)) = 0 ∧
      control_cycle (sample_env 0 control_mode.TORQUE (fun k => (2000 : ℚ) * k)) false 2
          (sample_controller 650 1538) =
        finish_cycle (sample_env 0 control_mode.TORQUE (fun k => (2000 : ℚ) * k)) false 2
          (step (sample_env 0 control_mode.TORQUE (fun k => (2000 : ℚ) * k)) [0, 0] [0, 0] []
            (read_joint_state (sample_env 0 control_mode.TORQUE (fun k => (2000 : ℚ) * k))
              (sample_controller 650 1538))).2.2 :=
  ⟨rfl, by decide!,
    ((step_refines_control_cycle (sample_env 0 control_mode.TORQUE (fun k => (2000 : ℚ) * k))
      false 2 (sample_controller 650 1538) [0, 0] [0, 0] [] rfl (by decide!) (by decide!)
      (by decide!)).2.2.2 (by decide!)).2⟩

/-! ### Conversions between KDL rotations and Eigen matrices -/

/-- C30: the functions `rotation_to_eigen` and `eigen_to_rotation` are mutual
inverses, whatever their output parameters held before: converting a rotation
`R` to a matrix and back gives the nine entries of `R`, converting a matrix `M`
to a rotation and back gives `M`, and entry `(r, c)` of the matrix corresponds to
`data[3 * r + c]` in both directions. -/
theorem rotation_eigen_round_trip (R R0 : KDL.Rotation α) (M M0 : Eigen.Matrix3d α) :
    (∀ i : Fin 9,
        (conversions.eigen_to_rotation (conversions.rotation_to_eigen R M0) R0).data i =
          R.data i) ∧
      conversions.rotation_to_eigen (conversions.eigen_to_rotation M R0) M0 = M ∧
      (∀ r c : Fin 3,
        conversions.rotation_to_eigen R M0 r c = R.data (conversions.row_major r c)) ∧
      (∀ r c : Fin 3,
        (conversions.eigen_to_rotation M R0).data (conversions.row_major r c) = M r c) := by
  refine ⟨?_, ?_, ?_, ?_⟩
  · intro i
    fin_cases i <;>
      simp [conversions.eigen_to_rotation, conversions.rotation_to_eigen, KDL.Rotation.set,
        Eigen.Matrix3d.set, Function.update_apply]
  · funext r c
    fin_cases r <;> fin_cases c <;>
      simp [conversions.eigen_to_rotation, conversions.rotation_to_eigen, KDL.Rotation.set,
        Eigen.Matrix3d.set, Function.update_apply]
  · intro r c
    fin_cases r <;> fin_cases c <;>
      simp [conversions.rotation_to_eigen, Eigen.Matrix3d.set, conversions.row_major]
  · intro r c
    fin_cases r <;> fin_cases c <;>
      simp [conversions.eigen_to_rotation, KDL.Rotation.set, conversions.row_major,
        Function.update_apply]

/-! ### The reconstruction of the directional command -/

/-- The three components of a group after `transform_motion_driver`, for a
norm of the group that is at least `MIN_NORM`: the predicted error component
over the norm, times the scalar the adaptive module returned at the index of
the group. -/
theorem transform_motion_driver_group [LinearOrderedField α] (env : Env α W)
    (c : dynamics_controller α W) (g : Fin 6) (hg : g = 0 ∨ g = 3)
    (hnorm : c.transformed_error_ g ≥ 1e-10) (k : Fin 6)
    (hk : k = g ∨ k = g + 1 ∨ k = g + 2) :
    (transform_motion_driver env c).abag_command_ k =
      (c.predicted_error_twist_ k / c.transformed_error_ g) *
        (env.abag_update_state c.world c.transformed_error_).2 g := by
  rcases hg with rfl | rfl
  · have h0 : c.transformed_error_ 0 ≥ (MIN_NORM : α) := hnorm
    unfold transform_motion_driver
    simp only [emit, h0, if_true]
    rcases hk with rfl | rfl | rfl <;> split <;> simp [Function.update_apply]
  · have h3 : c.transformed_error_ 3 ≥ (MIN_NORM : α) := hnorm
    unfold transform_motion_driver
    simp only [emit]
    rcases hk with rfl | rfl | rfl <;> split <;> simp [h3, Function.update_apply]

/-- C22: in `transform_motion_driver`, for the linear group (`g = 0`, components
0..2) and the angular group (`g = 3`, components 3..5), when the norm of the
group stored at index `g` is at least 1e-10, each of the three reconstructed
components of the group is the predicted error component over the norm, times
the scalar command of the group; that scalar is the value the adaptive module
returned at index `g`, also for the components written after component `g`
itself was overwritten. -/
theorem transform_motion_driver_reconstruction [LinearOrderedField α] (env : Env α W)
    (c : dynamics_controller α W) (g : Fin 6) (hg : g = 0 ∨ g = 3)
    (hnorm : c.transformed_error_ g ≥ 1e-10) :
    (transform_motion_driver env c).abag_command_ g =
        (c.predicted_error_twist_ g / c.transformed_error_ g) *
          (env.abag_update_state c.world c.transformed_error_).2 g ∧
      (transform_motion_driver env c).abag_command_ (g + 1) =
        (c.predicted_error_twist_ (g + 1) / c.transformed_error_ g) *
          (env.abag_update_state c.world c.transformed_error_).2 g ∧
      (transform_motion_driver env c).abag_command_ (g + 2) =
        (c.predicted_error_twist_ (g + 2) / c.transformed_error_ g) *
          (env.abag_update_state c.world c.transformed_error_).2 g :=
  ⟨transform_motion_driver_group env c g hg hnorm g (Or.inl rfl),
    transform_motion_driver_group env c g hg hnorm (g + 1) (Or.inr (Or.inl rfl)),
    transform_motion_driver_group env c g hg hnorm (g + 2) (Or.inr (Or.inr rfl))⟩

/-- C29: in `transform_motion_driver`, over an ordered field, when the norm `n`
of a group (`g = 0` linear, `g = 3` angular) is at least 1e-10 and is the
Euclidean norm of the three predicted-error components of the group (`n * n` is
the sum of their squares), the reconstructed 3-vector is the predicted error
times the factor `u / n`, with `u` the scalar command of the group, so it is
parallel to the predicted error; and its Euclidean norm is `|u|`: the square of
`|u|` is the sum of the squares of the three components, and `|u|` is the only
number that is not negative with that square. -/
theorem transform_motion_driver_direction_and_norm [LinearOrderedField α] (env : Env α W)
    (c : dynamics_controller α W) (g : Fin 6) (hg : g = 0 ∨ g = 3)
    (hnorm : c.transformed_error_ g ≥ 1e-10)
    (heuclid : c.transformed_error_ g * c.transformed_error_ g =
      c.predicted_error_twist_ g ^ 2 + c.predicted_error_twist_ (g + 1) ^ 2 +
        c.predicted_error_twist_ (g + 2) ^ 2) :
    (∀ k : Fin 6, k = g ∨ k = g + 1 ∨ k = g + 2 →
        (transform_motion_driver env c).abag_command_ k =
          ((env.abag_update_state c.world c.transformed_error_).2 g /
            c.transformed_error_ g) * c.predicted_error_twist_ k) ∧
      |(env.abag_update_state c.world c.transformed_error_).2 g| *
          |(env.abag_update_state c.world c.transformed_error_).2 g| =
        (transform_motion_driver env c).abag_command_ g ^ 2 +
          (transform_motion_driver env c).abag_command_ (g + 1) ^ 2 +
          (transform_motion_driver env c).abag_command_ (g + 2) ^ 2 ∧
      ∀ m : α, 0 ≤ m →
        m * m = (transform_motion_driver env c).abag_command_ g ^ 2 +
          (transform_motion_driver env c).abag_command_ (g + 1) ^ 2 +
          (transform_motion_driver env c).abag_command_ (g + 2) ^ 2 →
        m = |(env.abag_update_state c.world c.transformed_error_).2 g| := by
  have hpos : (0 : α) < c.transformed_error_ g :=
    lt_of_lt_of_le (by norm_num) hnorm
  have hn0 : c.transformed_error_ g ≠ 0 := ne_of_gt hpos
  have h0 := transform_motion_driver_group env c g hg hnorm g (Or.inl rfl)
  have h1 := transform_motion_driver_group env c g hg hnorm (g + 1) (Or.inr (Or.inl rfl))
  have h2 := transform_motion_driver_group env c g hg hnorm (g + 2) (Or.inr (Or.inr rfl))
  have hsq : (transform_motion_driver env c).abag_command_ g ^ 2 +
      (transform_motion_driver env c).abag_command_ (g + 1) ^ 2 +
      (transform_motion_driver env c).abag_command_ (g + 2) ^ 2 =
      (env.abag_update_state c.world c.transformed_error_).2 g ^ 2 := by
    rw [h0, h1, h2]
    field_simp
    have hn2 : c.transformed_error_ g ^ 2 =
        c.predicted_error_twist_ g ^ 2 + c.predicted_error_twist_ (g + 1) ^ 2 +
          c.predicted_error_twist_ (g + 2) ^ 2 := by
      rw [← heuclid]
      ring
    rw [hn2]
    ring
  refine ⟨?_, ?_, ?_⟩
  · intro k hk
    rw [transform_motion_driver_group env c g hg hnorm k hk]
    ring
  · rw [hsq, abs_mul_abs_self]
    ring
  · intro m hm hmm
    rw [hsq] at hmm
    have : m ^ 2 = (env.abag_update_state c.world c.transformed_error_).2 g ^ 2 := by
      rw [← hmm]
      ring
    have habs := (sq_eq_sq_iff_abs_eq_abs _ _).mp this
    rwa [abs_of_nonneg hm] at habs

/-- C22, at a predicted error of (3, 4, 0) with the stored norm 5 and an
adaptive module that returns its input. -/
theorem transform_motion_driver_reconstruction_witness :
    ((0 : Fin 6) = 0 ∨ (0 : Fin 6) = 3) ∧
      sample_controller_with_error.transformed_error_ 0 ≥ 1e-10 ∧
      ((transform_motion_driver (sample_env 0 control_mode.TORQUE (fun _ => 0))
          sample_controller_with_error).abag_command_ 0 =
          (sample_controller_with_error.predicted_error_twist_ 0 /
              sample_controller_with_error.transformed_error_ 0) *
            ((sample_env 0 control_mode.TORQUE (fun _ => 0)).abag_update_state
              sample_controller_with_error.world
              sample_controller_with_error.transformed_error_).2 0 ∧
        (transform_motion_driver (sample_env 0 control_mode.TORQUE (fun _ => 0))
          sample_controller_with_error).abag_command_ (0 + 1) =
          (sample_controller_with_error.predicted_error_twist_ (0 + 1) /
              sample_controller_with_error.transformed_error_ 0) *
            ((sample_env 0 control_mode.TORQUE (fun _ => 0)).abag_update_state
              sample_controller_with_error.world
              sample_controller_with_error.transformed_error_).2 0 ∧
        (transform_motion_driver (sample_env 0 control_mode.TORQUE (fun _ => 0))
          sample_controller_with_error).abag_command_ (0 + 2) =
          (sample_controller_with_error.predicted_error_twist_ (0 + 2) /
              sample_controller_with_error.transformed_error_ 0) *
            ((sample_env 0 control_mode.TORQUE (fun _ => 0)).abag_update_state
              sample_controller_with_error.world
              sample_controller_with_error.transformed_error_).2 0) :=
  ⟨Or.inl rfl, by norm_num [sample_controller_with_error],
    transform_motion_driver_reconstruction _ _ 0 (Or.inl rfl)
      (by norm_num [sample_controller_with_error])⟩

/-- C29, at a predicted error of (3, 4, 0) with the stored norm 5 and an
adaptive module that returns its input, so that the scalar command is 5: the
squares of the three reconstructed components add up to 5 * 5. -/
theorem transform_motion_driver_direction_and_norm_witness :
    sample_controller_with_error.transformed_error_ 0 ≥ 1e-10 ∧
      sample_controller_with_error.transformed_error_ 0 *
          sample_controller_with_error.transformed_error_ 0 =
        sample_controller_with_error.predicted_error_twist_ 0 ^ 2 +
          sample_controller_with_error.predicted_error_twist_ (0 + 1) ^ 2 +
          sample_controller_with_error.predicted_error_twist_ (0 + 2) ^ 2 ∧
      |((sample_env 0 control_mode.TORQUE (fun _ => 0)).abag_update_state
          sample_controller_with_error.world
          sample_controller_with_error.transformed_error_).2 0| *
          |((sample_env 0 control_mode.TORQUE (fun _ => 0)).abag_update_state
            sample_controller_with_error.world
            sample_controller_with_error.transformed_error_).2 0| =
        (transform_motion_driver (sample_env 0 control_mode.TORQUE (fun _ => 0))
            sample_controller_with_error).abag_command_ 0 ^ 2 +
          (transform_motion_driver (sample_env 0 control_mode.TORQUE (fun _ => 0))
            sample_controller_with_error).abag_command_ (0 + 1) ^ 2 +
          (transform_motion_driver (sample_env 0 control_mode.TORQUE (fun _ => 0))
            sample_controller_with_error).abag_command_ (0 + 2) ^ 2 :=
  ⟨by norm_num [sample_controller_with_error], by decide!,
    (transform_motion_driver_direction_and_norm _ _ 0 (Or.inl rfl)
      (by norm_num [sample_controller_with_error]) (by decide!)).2.1⟩

/-! ### Pose integration, reset, and the assertion of the TORQUE branch -/

/-- C21: with an epsilon above 0 and a magnitude that is 0 at the zero vector,
`integrate_pose` applied to any pose and the zero twist scaled with any time
step returns the same pose, with and without rescaling of the rotation; the
magnitude of the scaled zero rotation vector is below the epsilon, so the call
takes the branch that integrates the linear part only. -/
theorem integrate_pose_zero_twist [LinearOrderedField α] (g : pose_integration α)
    (heps : 0 < g.epsilon) (hnorm : g.Norm KDL.Vector.Zero = 0)
    (pose : KDL.Frame α) (dt : α) (rescale_rotation : Bool) :
    model_prediction.integrate_pose g pose (KDL.Twist.Zero.scale dt) rescale_rotation = pose ∧
      g.Norm (KDL.Twist.Zero.scale dt : KDL.Twist α).rot < g.epsilon ∧
      model_prediction.integrate_pose g pose (KDL.Twist.Zero.scale dt) rescale_rotation =
        { pose with p := pose.p.add (KDL.Twist.Zero.scale dt : KDL.Twist α).vel } := by
  have hz : (KDL.Twist.Zero.scale dt : KDL.Twist α) = KDL.Twist.Zero := by
    simp [KDL.Twist.scale, KDL.Vector.scale, KDL.Twist.Zero, KDL.Vector.Zero]
  have hlt : g.Norm (KDL.Twist.Zero : KDL.Twist α).rot < g.epsilon := by
    have : (KDL.Twist.Zero : KDL.Twist α).rot = KDL.Vector.Zero := rfl
    rw [this, hnorm]
    exact heps
  rw [hz]
  refine ⟨?_, hlt, ?_⟩
  · unfold model_prediction.integrate_pose
    simp only [hlt, if_true]
    ext <;> simp [KDL.Vector.add, KDL.Twist.Zero, KDL.Vector.Zero]
  · unfold model_prediction.integrate_pose
    simp only [hlt, if_true]

/-- C21, at the sample integrator, the pose at (1, 2, 3) and a time step of
1/2, with rescaling. -/
theorem integrate_pose_zero_twist_witness :
    0 < sample_pose_integration.epsilon ∧
      sample_pose_integration.Norm KDL.Vector.Zero = 0 ∧
      model_prediction.integrate_pose sample_pose_integration
          ⟨⟨1, 2, 3⟩, KDL.Rotation.Identity⟩ (KDL.Twist.Zero.scale (1 / 2)) true =
        ⟨⟨1, 2, 3⟩, KDL.Rotation.Identity⟩ :=
  ⟨by norm_num [sample_pose_integration],
    by simp [sample_pose_integration, KDL.Vector.Zero],
    (integrate_pose_zero_twist sample_pose_integration
      (by norm_num [sample_pose_integration])
      (by simp [sample_pose_integration, KDL.Vector.Zero])
      ⟨⟨1, 2, 3⟩, KDL.Rotation.Identity⟩ (1 / 2) true).1⟩

/-- C25: the function `reset_state` ignores the state it is given. For every
reference `state` the controller after the call is the one before it with the
desired state reset, whatever `state` refers to: every number of the desired
state is 0, its containers keep their sizes, and no other member changes. A
state other than the desired state is after the call what it was before. The
function `reset_desired_state` resets the desired state and nothing else. -/
theorem reset_state_ignores_its_target [LinearOrderedField α] (state : state_reference α)
    (c : dynamics_controller α W) :
    (reset_state state c).1 = { c with desired_state_ := c.desired_state_.reset_values } ∧
      (state ≠ state_reference.desired_state_ →
        dereference (reset_state state c).2 (reset_state state c).1 = dereference state c) ∧
      ((∀ x ∈ (reset_state state c).1.desired_state_.q, x = 0) ∧
        (∀ x ∈ (reset_state state c).1.desired_state_.qd, x = 0) ∧
        (∀ x ∈ (reset_state state c).1.desired_state_.qdd, x = 0) ∧
        (∀ x ∈ (reset_state state c).1.desired_state_.feedforward_torque, x = 0) ∧
        (∀ x ∈ (reset_state state c).1.desired_state_.control_torque, x = 0) ∧
        (∀ i j, ((reset_state state c).1.desired_state_.ee_unit_constraint_force i).get j = 0) ∧
        (∀ i, (reset_state state c).1.desired_state_.ee_acceleration_energy i = 0) ∧
        (∀ x ∈ (reset_state state c).1.desired_state_.external_force, ∀ j, x.get j = 0) ∧
        (∀ x ∈ (reset_state state c).1.desired_state_.frame_velocity, ∀ j, x.get j = 0) ∧
        (reset_state state c).1.desired_state_.q.length = c.desired_state_.q.length ∧
        (reset_state state c).1.desired_state_.frame_pose.length =
          c.desired_state_.frame_pose.length) ∧
      reset_desired_state c = { c with desired_state_ := c.desired_state_.reset_values } := by
  refine ⟨rfl, ?_, ?_, rfl⟩
  · intro h
    cases state with
    | robot_state_ => rfl
    | desired_state_ => exact absurd rfl h
    | predicted_state_ => rfl
    | other s => rfl
  · simp only [reset_state, state_specification.reset_values]
    refine ⟨?_, ?_, ?_, ?_, ?_, ?_, ?_, ?_, ?_, ?_, ?_⟩
    · intro x hx
      exact (List.mem_replicate.mp hx).2
    · intro x hx
      exact (List.mem_replicate.mp hx).2
    · intro x hx
      exact (List.mem_replicate.mp hx).2
    · intro x hx
      exact (List.mem_replicate.mp hx).2
    · intro x hx
      exact (List.mem_replicate.mp hx).2
    · intro i j
      fin_cases j <;> rfl
    · intro i
      trivial
    · intro x hx j
      rw [(List.mem_replicate.mp hx).2]
      fin_cases j <;> rfl
    · intro x hx j
      rw [(List.mem_replicate.mp hx).2]
      fin_cases j <;> rfl
    · simp
    · simp

/-- The obedient safety module never returns a mode above the requested one. -/
theorem sample_env_obedient_never_upgrades : never_upgrades sample_env_obedient := by
  intro w state dt requested method
  exact le_refl _

/-- C26: with a safety module that never returns a mode above the requested one
in the ordering TORQUE > VELOCITY > POSITION > STOP_MOTION, the assertion of the
TORQUE branch of `apply_joint_control_commands` does not fail: the call returns
0 or -1, and when the module returns TORQUE the requested mode is TORQUE, the
stored `is_safe` is true and the call returns 0. -/
theorem torque_assertion_holds (env : Env α W) (hord : never_upgrades env)
    (c : dynamics_controller α W) :
    (apply_joint_control_commands env c).1 ≠ Result.assert_failed ∧
      ((apply_joint_control_commands env c).1 = Result.ret 0 ∨
        (apply_joint_control_commands env c).1 = Result.ret (-1)) ∧
      ((env.set_control_commands c.world c.robot_state_ c.DT_SEC_
          c.desired_control_mode_.interface integration_method.SYMPLECTIC_EULER).2 =
          control_mode.TORQUE →
        c.desired_control_mode_.interface = control_mode.TORQUE ∧
          (apply_joint_control_commands env c).2.desired_control_mode_.is_safe = true ∧
          (apply_joint_control_commands env c).1 = Result.ret 0) := by
  have h := hord c.world c.robot_state_ c.DT_SEC_ c.desired_control_mode_.interface
    integration_method.SYMPLECTIC_EULER
  simp only [apply_joint_control_commands]
  generalize (env.set_control_commands c.world c.robot_state_ c.DT_SEC_
    c.desired_control_mode_.interface integration_method.SYMPLECTIC_EULER).2 = m at h
  cases m <;> cases hreq : c.desired_control_mode_.interface <;>
    simp [emit, stop_robot_motion, hreq, control_mode.rank] at h ⊢

/-- C26, at the obedient safety module and a controller that requests TORQUE:
the module returns TORQUE and the call returns 0. -/
theorem torque_assertion_holds_witness :
    never_upgrades sample_env_obedient ∧
      (apply_joint_control_commands sample_env_obedient
        { sample_controller 650 1538 with
          desired_control_mode_ := ⟨control_mode.TORQUE, false⟩ }).1 = Result.ret 0 :=
  ⟨sample_env_obedient_never_upgrades,
    ((torque_assertion_holds sample_env_obedient sample_env_obedient_never_upgrades
      { sample_controller 650 1538 with
        desired_control_mode_ := ⟨control_mode.TORQUE, false⟩ }).2.2 rfl).2.2⟩

/-! ### The result of step() -/

/-- The events a call appended, read off an equation for its trace. -/
theorem events_since_of_trace {c c1 : dynamics_controller α W} {evs : List Event}
    (h : c1.trace = c.trace ++ evs) : events_since c c1 = evs := by
  unfold events_since
  rw [h, List.drop_left]

theorem ends_the_loop_mono {evs : List Event} (pre post : List Event)
    (h : ends_the_loop evs) : ends_the_loop (pre ++ evs ++ post) := by
  rcases h with ⟨st, hst, hmem⟩ | ⟨req, hmem⟩
  · exact Or.inl ⟨st, hst, by simp [hmem]⟩
  · exact Or.inr ⟨req, by simp [hmem]⟩

/-- A cycle that ends control() returns -1, and a failing solver call or a stop
of the safety module is among its events. -/
theorem control_cycle_return [LinearOrderedField α] (env : Env α W)
    (store_control_data : Bool) (fuel : Nat) (c : dynamics_controller α W) :
    ∃ evs, (control_cycle env store_control_data fuel c).2.trace = c.trace ++ evs ∧
      ∀ r, (control_cycle env store_control_data fuel c).1 = Result.ret (some r) →
        r = -1 ∧ ends_the_loop evs := by
  obtain ⟨pre, -, hcases⟩ := control_cycle_cases env store_control_data fuel c
  rcases hcases with ⟨hres, htr⟩ | ⟨st, hst, hres, htr, -⟩ | ⟨req, hres, htr, -⟩ |
    ⟨req, m, tail, -, hres, htr, -, -⟩
  · refine ⟨_, htr, ?_⟩
    intro r hr
    rcases hres with h | h <;> rw [h] at hr <;> simp at hr
  · refine ⟨_, htr, ?_⟩
    intro r hr
    rw [hres] at hr
    refine ⟨by simpa using hr.symm, Or.inl ⟨st, hst, by simp⟩⟩
  · refine ⟨_, htr, ?_⟩
    intro r hr
    rw [hres] at hr
    refine ⟨by simpa using hr.symm, Or.inr ⟨req, by simp⟩⟩
  · refine ⟨_, htr, ?_⟩
    intro r hr
    rcases hres with h | h | h <;> rw [h] at hr <;> simp at hr

/-- The loop of control() returns nothing but -1, and only after a failing
solver call or a stop of the safety module. -/
theorem control_loop_return [LinearOrderedField α] (env : Env α W)
    (store_control_data : Bool) (fuel : Nat) :
    ∀ (n : Nat) (c : dynamics_controller α W), ∃ evs,
      (control_loop env store_control_data fuel n c).2.trace = c.trace ++ evs ∧
      ∀ r, (control_loop env store_control_data fuel n c).1 = Result.ret r →
        r = -1 ∧ ends_the_loop evs := by
  intro n
  induction n with
  | zero =>
    intro c
    refine ⟨[], by simp [control_loop], ?_⟩
    intro r hr
    simp [control_loop] at hr
  | succ n ih =>
    intro c
    obtain ⟨evs1, htr1, hret1⟩ := control_cycle_return env store_control_data fuel c
    unfold control_loop
    generalize control_cycle env store_control_data fuel c = rc at htr1 hret1 ⊢
    obtain ⟨res, c1⟩ := rc
    simp only at htr1 hret1
    cases res with
    | assert_failed =>
      refine ⟨evs1, htr1, ?_⟩
      intro r hr
      simp at hr
    | running =>
      refine ⟨evs1, htr1, ?_⟩
      intro r hr
      simp at hr
    | ret v =>
      cases v with
      | none =>
        obtain ⟨evs2, htr2, hret2⟩ := ih c1
        refine ⟨evs1 ++ evs2, ?_, ?_⟩
        · simp only []
          rw [htr2, htr1, List.append_assoc]
        · intro r hr
          obtain ⟨h1, h2⟩ := hret2 r hr
          refine ⟨h1, ?_⟩
          simpa using ends_the_loop_mono evs1 [] h2
      | some x =>
        refine ⟨evs1, htr1, ?_⟩
        intro r hr
        have hx : x = r := by simpa using hr
        subst hx
        exact hret1 x rfl

/-- The function control() by its stages. -/
theorem control_eq [LinearOrderedField α] (env : Env α W) (desired_control_mode : control_mode)
    (store_control_data : Bool) (fuel : Nat) (c : dynamics_controller α W) :
    control env desired_control_mode store_control_data fuel c =
      if desired_control_mode = control_mode.STOP_MOTION then
        (.ret (-1), emit (.print .stop_motion_selected)
          { c with desired_control_mode_ :=
            { c.desired_control_mode_ with interface := desired_control_mode } })
      else if !(control_start env store_control_data
          { c with desired_control_mode_ :=
            { c.desired_control_mode_ with interface := desired_control_mode } }).1 then
        (.ret (-1), (control_start env store_control_data
          { c with desired_control_mode_ :=
            { c.desired_control_mode_ with interface := desired_control_mode } }).2)
      else
        control_loop env store_control_data fuel fuel
          (emit (.print .control_loop_started) (control_start env store_control_data
            { c with desired_control_mode_ :=
              { c.desired_control_mode_ with interface := desired_control_mode } }).2) := by
  unfold control control_start
  rfl

theorem same_task_refl (c : dynamics_controller α W) : same_task c c := ⟨rfl, rfl⟩

theorem same_task_trans {a b c : dynamics_controller α W} (hab : same_task a b)
    (hbc : same_task b c) : same_task a c :=
  ⟨hbc.1.trans hab.1, hbc.2.trans hab.2⟩

theorem same_task_update_current_state (env : Env α W) (c : dynamics_controller α W) :
    same_task c (update_current_state env c) := by
  unfold update_current_state
  simp only []
  split <;> exact ⟨rfl, rfl⟩

theorem same_task_compute_control_error [LinearOrderedField α] (env : Env α W)
    (c : dynamics_controller α W) : same_task c (compute_control_error env c) :=
  ⟨rfl, rfl⟩

theorem same_task_transform_motion_driver [LinearOrderedField α] (env : Env α W)
    (c : dynamics_controller α W) : same_task c (transform_motion_driver env c) := by
  unfold transform_motion_driver
  simp only []
  split <;> split <;> exact ⟨rfl, rfl⟩

theorem same_task_compute_cart_control_commands [LinearOrderedField α] (env : Env α W)
    (c : dynamics_controller α W) :
    same_task c (compute_cart_control_commands env c).2 := by
  have h1 : same_task c (adaptive_command env c) := by
    unfold adaptive_command
    split
    · exact same_task_transform_motion_driver env c
    · exact ⟨rfl, rfl⟩
  have h2 : same_task (adaptive_command env c)
      (apply_motion_profile env (adaptive_command env c)) := ⟨rfl, rfl⟩
  refine same_task_trans (same_task_trans h1 h2) ?_
  obtain ⟨e1, e2, e3⟩ := compute_cart_control_commands_eq env c
  cases h : (adaptive_command env c).desired_task_inteface_
  · rw [e1 h]
    constructor <;> simp [write_cart_force, List.foldl]
  · rw [e2 h]
    exact ⟨rfl, rfl⟩
  · rw [e3 h]
    exact ⟨rfl, rfl⟩

theorem same_task_evaluate_dynamics (env : Env α W) (c : dynamics_controller α W) :
    same_task c (evaluate_dynamics env c).2 := by
  unfold evaluate_dynamics
  simp only []
  split <;> exact ⟨rfl, rfl⟩

theorem same_task_apply_joint_control_commands (env : Env α W)
    (c : dynamics_controller α W) : same_task c (apply_joint_control_commands env c).2 := by
  simp only [apply_joint_control_commands, same_task]
  generalize (env.set_control_commands c.world c.robot_state_ c.DT_SEC_
    c.desired_control_mode_.interface integration_method.SYMPLECTIC_EULER).2 = m
  cases m <;> cases hreq : c.desired_control_mode_.interface <;>
    simp [emit, stop_robot_motion, hreq]

theorem same_task_busy_wait [LinearOrderedField α] (env : Env α W) (fuel : Nat) :
    ∀ c : dynamics_controller α W, same_task c (busy_wait env fuel c).2 := by
  induction fuel with
  | zero =>
    intro c
    unfold busy_wait
    split <;> exact ⟨rfl, rfl⟩
  | succ n ih =>
    intro c
    unfold busy_wait
    split
    · exact same_task_trans ⟨rfl, rfl⟩ (ih _)
    · exact ⟨rfl, rfl⟩

theorem same_task_check_loop_frequency [LinearOrderedField α] (env : Env α W) (fuel : Nat)
    (c : dynamics_controller α W) : same_task c (check_loop_frequency env fuel c).2 := by
  have h : same_task c (enforce_loop_frequency env fuel c).2 := by
    unfold enforce_loop_frequency
    simp only []
    split
    · exact same_task_trans ⟨rfl, rfl⟩ (same_task_busy_wait env fuel _)
    · exact ⟨rfl, rfl⟩
  unfold check_loop_frequency
  generalize enforce_loop_frequency env fuel c = e at h ⊢
  obtain ⟨res, c1⟩ := e
  cases res with
  | assert_failed => exact h
  | running => exact h
  | ret v =>
    simp only []
    split
    · exact same_task_trans h ⟨rfl, rfl⟩
    · exact h

/-- The value `evaluate_dynamics` returns is the status of the solver call. -/
theorem evaluate_dynamics_status (env : Env α W) (c : dynamics_controller α W) :
    (evaluate_dynamics env c).1 =
      (env.hd_CartToJnt c.world c.robot_state_ c.cart_force_command_).2.1 := by
  unfold evaluate_dynamics
  simp only []
  split <;> rfl

/-- A safety module that answers with the requested mode, other than
STOP_MOTION, makes `apply_joint_control_commands` return 0. -/
theorem apply_joint_control_commands_obeyed (env : Env α W) (c : dynamics_controller α W)
    (hsafe : (env.set_control_commands c.world c.robot_state_ c.DT_SEC_
      c.desired_control_mode_.interface integration_method.SYMPLECTIC_EULER).2 =
      c.desired_control_mode_.interface)
    (hmode : c.desired_control_mode_.interface ≠ control_mode.STOP_MOTION) :
    (apply_joint_control_commands env c).1 = Result.ret 0 := by
  simp only [apply_joint_control_commands]
  generalize (env.set_control_commands c.world c.robot_state_ c.DT_SEC_
    c.desired_control_mode_.interface integration_method.SYMPLECTIC_EULER).2 = m at hsafe
  cases m <;> cases hreq : c.desired_control_mode_.interface <;>
    simp [emit, stop_robot_motion, hreq] at hsafe hmode ⊢

/-- The task is the same after a cycle of control(), however the cycle ends. -/
theorem same_task_control_cycle [LinearOrderedField α] (env : Env α W)
    (store_control_data : Bool) (fuel : Nat) (c : dynamics_controller α W) :
    same_task c (control_cycle env store_control_data fuel c).2 := by
  rw [control_cycle_eq]
  obtain ⟨c0, hc0⟩ : ∃ c0 : dynamics_controller α W, c0 =
      { c with world := (env.now c.world).1, loop_start_time_ := (env.now c.world).2 } :=
    ⟨_, rfl⟩
  rw [← hc0]
  have h0 : same_task c c0 := by
    rw [hc0]
    exact ⟨rfl, rfl⟩
  have h1 := same_task_trans h0 (same_task_update_current_state env c0)
  have h2 := same_task_trans h1
    (same_task_compute_control_error env (update_current_state env c0))
  have h3 := same_task_trans h2 (same_task_compute_cart_control_commands env
    (compute_control_error env (update_current_state env c0)))
  generalize compute_cart_control_commands env (compute_control_error env
      (update_current_state env c0)) = rc at h3 ⊢
  obtain ⟨res, c4⟩ := rc
  cases res with
  | assert_failed => exact h3
  | running => exact h3
  | ret u =>
    have h5 : same_task c (if store_control_data then write_to_file c4 else c4) := by
      split
      · exact same_task_trans h3 ⟨rfl, rfl⟩
      · exact h3
    simp only [solve_and_finish]
    generalize (if store_control_data then write_to_file c4 else c4) = c5 at h5 ⊢
    have h6 := same_task_trans h5 (same_task_evaluate_dynamics env c5)
    generalize evaluate_dynamics env c5 = d at h6 ⊢
    obtain ⟨st, c6⟩ := d
    simp only at h6 ⊢
    split
    · refine same_task_trans h6 ?_
      cases store_control_data <;>
        simp [same_task, emit, close_logs, close_log, set_open, stop_robot_motion]
    · have h7 := same_task_trans h6 (same_task_apply_joint_control_commands env c6)
      unfold finish_cycle
      generalize apply_joint_control_commands env c6 = a at h7 ⊢
      obtain ⟨ares, c7⟩ := a
      cases ares with
      | assert_failed => exact h7
      | running => exact h7
      | ret v =>
        simp only []
        split
        · refine same_task_trans h7 ?_
          cases store_control_data <;>
            simp [same_task, emit, close_logs, close_log, set_open]
        · exact same_task_trans h7 (same_task_check_loop_frequency env fuel c7)

/-- With collaborators that never fail, a requested mode other than STOP_MOTION
and a Cartesian interface, a cycle of control() does not end the loop: it goes
on to the next cycle or is still waiting for the end of its period. -/
theorem control_cycle_never_fails [LinearOrderedField α] (env : Env α W)
    (hnf : never_fail env) (store_control_data : Bool) (fuel : Nat)
    (c : dynamics_controller α W)
    (hmode : c.desired_control_mode_.interface ≠ control_mode.STOP_MOTION)
    (hint : c.desired_task_inteface_ = dynamics_interface.CART_FORCE ∨
      c.desired_task_inteface_ = dynamics_interface.CART_ACCELERATION) :
    (control_cycle env store_control_data fuel c).1 = Result.ret none ∨
      (control_cycle env store_control_data fuel c).1 = Result.running := by
  obtain ⟨hhd, hsafe, -⟩ := hnf
  rw [control_cycle_eq]
  obtain ⟨c0, hc0⟩ : ∃ c0 : dynamics_controller α W, c0 =
      { c with world := (env.now c.world).1, loop_start_time_ := (env.now c.world).2 } :=
    ⟨_, rfl⟩
  rw [← hc0]
  have h0 : same_task c c0 := by
    rw [hc0]
    exact ⟨rfl, rfl⟩
  have h1 := same_task_trans h0 (same_task_update_current_state env c0)
  have h2 := same_task_trans h1
    (same_task_compute_control_error env (update_current_state env c0))
  have h3 := same_task_trans h2 (same_task_compute_cart_control_commands env
    (compute_control_error env (update_current_state env c0)))
  obtain ⟨-, -, hret, -⟩ := compute_cart_control_commands_trace env
    (compute_control_error env (update_current_state env c0))
  rw [h2.2] at hret
  have hret := hret hint
  generalize compute_cart_control_commands env (compute_control_error env
      (update_current_state env c0)) = rc at h3 hret ⊢
  obtain ⟨res, c4⟩ := rc
  simp only at hret
  subst hret
  have h5 : same_task c (if store_control_data then write_to_file c4 else c4) := by
    split
    · exact same_task_trans h3 ⟨rfl, rfl⟩
    · exact h3
  simp only [solve_and_finish]
  generalize (if store_control_data then write_to_file c4 else c4) = c5 at h5 ⊢
  have h6 := same_task_trans h5 (same_task_evaluate_dynamics env c5)
  have hst : (evaluate_dynamics env c5).1 = 0 := by
    rw [evaluate_dynamics_status]
    exact hhd _ _ _
  generalize evaluate_dynamics env c5 = d at h6 hst ⊢
  obtain ⟨st, c6⟩ := d
  simp only at h6 hst ⊢
  subst hst
  simp only [ne_eq, not_true_eq_false, if_false]
  have ha := apply_joint_control_commands_obeyed env c6 (hsafe _ _ _ _ _)
    (by rw [h6.1]; exact hmode)
  unfold finish_cycle
  generalize apply_joint_control_commands env c6 = a at ha ⊢
  obtain ⟨ares, c7⟩ := a
  simp only at ha
  subst ha
  simp only [ne_eq, not_true_eq_false, if_false]
  exact (check_loop_frequency_spec env fuel c7).1

/-- With collaborators that never fail, a requested mode other than STOP_MOTION
and a Cartesian interface, the loop of control() is still running after any
number of cycles. -/
theorem control_loop_never_returns [LinearOrderedField α] (env : Env α W)
    (hnf : never_fail env) (store_control_data : Bool) (fuel : Nat) :
    ∀ (n : Nat) (c : dynamics_controller α W),
      c.desired_control_mode_.interface ≠ control_mode.STOP_MOTION →
      (c.desired_task_inteface_ = dynamics_interface.CART_FORCE ∨
        c.desired_task_inteface_ = dynamics_interface.CART_ACCELERATION) →
      (control_loop env store_control_data fuel n c).1 = Result.running := by
  intro n
  induction n with
  | zero =>
    intro c _ _
    rfl
  | succ n ih =>
    intro c hmode hint
    have hres := control_cycle_never_fails env hnf store_control_data fuel c hmode hint
    have hsame := same_task_control_cycle env store_control_data fuel c
    unfold control_loop
    generalize control_cycle env store_control_data fuel c = rc at hres hsame ⊢
    obtain ⟨res, c1⟩ := rc
    simp only at hres
    rcases hres with h | h <;> subst h
    · simp only []
      apply ih
      · rw [hsame.1]
        exact hmode
      · rw [hsame.2]
        exact hint
    · rfl

/-- A log file is open after `open_log` when the file system opens every file. -/
theorem open_log_is_open (env : Env α W) (hopen : ∀ w f, (env.open_file w f).2 = true)
    (f : LogFile) (c : dynamics_controller α W) : (open_log env f c).is_open f = true := by
  unfold open_log
  split
  · rename_i h
    cases f <;> simpa [emit, is_open] using h
  · cases f <;> simp [emit, is_open, set_open, hopen]

theorem same_task_open_log (env : Env α W) (f : LogFile) (c : dynamics_controller α W) :
    same_task c (open_log env f c) := by
  unfold open_log
  split
  · exact ⟨rfl, rfl⟩
  · cases f <;> exact ⟨rfl, rfl⟩

theorem same_task_open_logs (env : Env α W) (c : dynamics_controller α W) :
    same_task c (open_logs env c).2 := by
  have h1 := same_task_open_log env .cart c
  have h2 := same_task_trans h1 (same_task_open_log env .joint (open_log env .cart c))
  have h3 := same_task_trans h2
    (same_task_open_log env .predictions (open_log env .joint (open_log env .cart c)))
  unfold open_logs
  simp only []
  split
  · exact h1
  · split
    · exact h2
    · split <;> exact h3

/-- The stretch of control() before its loop: it keeps the task, it goes on to
the loop when every file opens, and when it does not go on the message about
the file is among its events. -/
theorem control_start_spec (env : Env α W) (store_control_data : Bool)
    (c : dynamics_controller α W) :
    same_task c (control_start env store_control_data c).2 ∧
      ((∀ w f, (env.open_file w f).2 = true) →
        (control_start env store_control_data c).1 = true) ∧
      ∃ evs, (control_start env store_control_data c).2.trace = c.trace ++ evs ∧
        ((control_start env store_control_data c).1 = false →
          Event.print Message.unable_to_open_file ∈ evs) := by
  obtain ⟨c4, hc4⟩ : ∃ c4 : dynamics_controller α W, c4 = print_settings_info
      (update_dynamics_interfaces (update_current_state env (stop_robot_motion env c))) :=
    ⟨_, rfl⟩
  have hq4 : Quiet c c4 := by
    have := quiet_control_start env false c
    rw [hc4]
    simpa using this
  have hs4 : same_task c c4 := by
    have h1 : same_task c (stop_robot_motion env c) := ⟨rfl, rfl⟩
    have h2 := same_task_trans h1 (same_task_update_current_state env (stop_robot_motion env c))
    rw [hc4]
    exact same_task_trans h2 ⟨rfl, rfl⟩
  have hq5 := quiet_open_logs env c4
  have hs5 := same_task_trans hs4 (same_task_open_logs env c4)
  have ho5 : (∀ w f, (env.open_file w f).2 = true) → (open_logs env c4).1 = true := by
    intro hopen
    unfold open_logs
    simp [open_log_is_open env hopen]
  unfold control_start
  simp only []
  rw [← hc4]
  cases store_control_data with
  | false =>
    obtain ⟨evs, hevs, -⟩ := hq4
    exact ⟨by simpa using hs4, by simp, evs, by simpa using hevs, by simp⟩
  | true =>
    obtain ⟨evs4, hevs4, -⟩ := hq4
    obtain ⟨evs5, hevs5, -⟩ := hq5
    generalize open_logs env c4 = l at hevs5 hs5 ho5 ⊢
    obtain ⟨b, c5⟩ := l
    simp only at hevs5 hs5 ho5
    cases b with
    | false =>
      refine ⟨by simpa [same_task, emit] using hs5, by simpa using ho5,
        evs4 ++ evs5 ++ [Event.print Message.unable_to_open_file], ?_, by simp⟩
      simp [emit, hevs5, hevs4]
    | true =>
      refine ⟨by simpa [same_task, emit] using hs5, by simp,
        evs4 ++ evs5 ++ [Event.file_write LogFile.joint], ?_, by simp⟩
      simp [emit, hevs5, hevs4]

/-- C28: control() never reports success. Whatever the collaborators do and
however long the run, when control() returns, it returns -1, and then
STOP_MOTION was selected, or the message about a log file that did not open is
among its events, or a failing call of the dynamics solver or a STOP_MOTION
answered by the safety module is among them; the loop has no other exit, so the
`return 0` after it is not reached. With collaborators that never fail, a
requested mode other than STOP_MOTION and a Cartesian interface, control() is
still running after any number of cycles: the loop does not terminate. -/
theorem control_never_reports_success [LinearOrderedField α] (env : Env α W)
    (desired_control_mode : control_mode) (store_control_data : Bool) (fuel : Nat)
    (c : dynamics_controller α W) :
    (∀ r, (control env desired_control_mode store_control_data fuel c).1 = Result.ret r →
        r = -1 ∧
          (desired_control_mode = control_mode.STOP_MOTION ∨
            Event.print Message.unable_to_open_file ∈
              events_since c (control env desired_control_mode store_control_data fuel c).2 ∨
            ends_the_loop
              (events_since c
                (control env desired_control_mode store_control_data fuel c).2))) ∧
      (never_fail env → desired_control_mode ≠ control_mode.STOP_MOTION →
        (c.desired_task_inteface_ = dynamics_interface.CART_FORCE ∨
          c.desired_task_inteface_ = dynamics_interface.CART_ACCELERATION) →
        (control env desired_control_mode store_control_data fuel c).1 = Result.running) := by
  obtain ⟨c1, hc1⟩ : ∃ c1 : dynamics_controller α W, c1 =
      { c with desired_control_mode_ :=
        { c.desired_control_mode_ with interface := desired_control_mode } } := ⟨_, rfl⟩
  have ht1 : c1.trace = c.trace := by rw [hc1]
  obtain ⟨hsame, hopen, evs, hevs, hfile⟩ := control_start_spec env store_control_data c1
  rw [control_eq, ← hc1]
  constructor
  · intro r hr
    by_cases hm : desired_control_mode = control_mode.STOP_MOTION
    · rw [if_pos hm] at hr
      exact ⟨by simpa using hr.symm, Or.inl hm⟩
    · rw [if_neg hm] at hr ⊢
      cases hb : (control_start env store_control_data c1).1 with
      | false =>
        simp only [hb, Bool.not_false, if_true] at hr ⊢
        refine ⟨by simpa using hr.symm, Or.inr (Or.inl ?_)⟩
        rw [events_since_of_trace (ht1 ▸ hevs)]
        exact hfile hb
      | true =>
        simp only [hb, Bool.not_true, Bool.false_eq_true, if_false] at hr ⊢
        obtain ⟨evs2, htr2, hret2⟩ := control_loop_return env store_control_data fuel fuel
          (emit (.print .control_loop_started) (control_start env store_control_data c1).2)
        obtain ⟨h1, h2⟩ := hret2 r hr
        refine ⟨h1, Or.inr (Or.inr ?_)⟩
        have htr : (control_loop env store_control_data fuel fuel
            (emit (.print .control_loop_started)
              (control_start env store_control_data c1).2)).2.trace =
            c.trace ++ (evs ++ [Event.print Message.control_loop_started] ++ evs2) := by
          rw [htr2]
          simp [emit, hevs, ht1]
        rw [events_since_of_trace htr]
        simpa using ends_the_loop_mono (evs ++ [Event.print Message.control_loop_started]) [] h2
  · intro hnf hm hint
    rw [if_neg hm]
    have hb := hopen hnf.2.2
    simp only [hb, Bool.not_true, Bool.false_eq_true, if_false]
    apply control_loop_never_returns env hnf
    · show (control_start env store_control_data c1).2.desired_control_mode_.interface ≠ _
      rw [hsame.1, hc1]
      exact hm
    · show (control_start env store_control_data c1).2.desired_task_inteface_ = _ ∨
        (control_start env store_control_data c1).2.desired_task_inteface_ = _
      rw [hsame.2, hc1]
      exact hint

/-- The obedient collaborators never fail. -/
theorem sample_env_obedient_never_fail : never_fail sample_env_obedient :=
  ⟨fun _ _ _ => rfl, fun _ _ _ _ _ => rfl, fun _ _ => rfl⟩

/-- C28, at the obedient collaborators with TORQUE requested and logging on:
control() is still running after its 3 cycles. -/
theorem control_never_reports_success_witness :
    never_fail sample_env_obedient ∧
      (control sample_env_obedient control_mode.TORQUE true 3
        (sample_controller 650 1538)).1 = Result.running :=
  ⟨sample_env_obedient_never_fail,
    (control_never_reports_success sample_env_obedient control_mode.TORQUE true 3
      (sample_controller 650 1538)).2 sample_env_obedient_never_fail (by decide)
      (Or.inl rfl)⟩

/-! ### The normalized error and the prediction horizon -/

/-- One call of `compute_control_error`: entries 0 and 3 of the normalized error
are the norms of the linear and the angular part of the predicted displacement
twist, which is stored as `predicted_error_twist_`; the other entries are as
before. -/
theorem compute_control_error_normalized [LinearOrderedField α] (env : Env α W)
    (c : dynamics_controller α W) :
    (compute_control_error env c).transformed_error_ 0 =
        env.Norm (displacement_twist env (compute_control_error env c).END_EFF_
          (compute_control_error env c).desired_state_
          (compute_control_error env c).predicted_state_).vel ∧
      (compute_control_error env c).transformed_error_ 3 =
        env.Norm (displacement_twist env (compute_control_error env c).END_EFF_
          (compute_control_error env c).desired_state_
          (compute_control_error env c).predicted_state_).rot ∧
      (compute_control_error env c).predicted_error_twist_ =
        kdl_twist_to_eigen (displacement_twist env (compute_control_error env c).END_EFF_
          (compute_control_error env c).desired_state_
          (compute_control_error env c).predicted_state_) ∧
      ∀ i : Fin 6, i ≠ 0 → i ≠ 3 →
        (compute_control_error env c).transformed_error_ i = c.transformed_error_ i := by
  refine ⟨?_, ?_, rfl, ?_⟩
  · simp [compute_control_error, make_predictions, emit, Function.update_apply]
  · simp [compute_control_error, make_predictions, emit, Function.update_apply]
  · intro i h0 h3
    simp [compute_control_error, make_predictions, emit, Function.update_apply, h0, h3]

theorem transform_motion_driver_slope [LinearOrderedField α] (env : Env α W) (slope : α)
    (c : dynamics_controller α W) :
    transform_motion_driver env (with_horizon_slope slope c) =
      with_horizon_slope slope (transform_motion_driver env c) := by
  by_cases h0 : c.transformed_error_ 0 ≥ (MIN_NORM : α) <;>
    by_cases h3 : c.transformed_error_ 3 ≥ (MIN_NORM : α) <;>
    simp [transform_motion_driver, with_horizon_slope, emit, h0, h3]

theorem compute_control_error_slope [LinearOrderedField α] (env : Env α W) (slope : α)
    (c : dynamics_controller α W) :
    compute_control_error env (with_horizon_slope slope c) =
      with_horizon_slope slope (compute_control_error env c) := rfl

theorem adaptive_command_slope [LinearOrderedField α] (env : Env α W) (slope : α)
    (c : dynamics_controller α W) :
    adaptive_command env (with_horizon_slope slope c) =
      with_horizon_slope slope (adaptive_command env c) := by
  unfold adaptive_command
  by_cases h : c.use_transformed_driver_ = true
  · have h1 : (with_horizon_slope slope c).use_transformed_driver_ = true := h
    rw [if_pos h, if_pos h1]
    exact transform_motion_driver_slope env slope c
  · have h1 : ¬ (with_horizon_slope slope c).use_transformed_driver_ = true := h
    rw [if_neg h, if_neg h1]
    rfl

theorem write_cart_force_slope [LinearOrderedField α] (slope : α)
    (c : dynamics_controller α W) :
    write_cart_force (with_horizon_slope slope c) =
      with_horizon_slope slope (write_cart_force c) := by
  simp [write_cart_force, List.foldl, with_horizon_slope]

/-- The command shaping does not read the horizon slope and does not write it. -/
theorem compute_cart_control_commands_slope [LinearOrderedField α] (env : Env α W)
    (slope : α) (c : dynamics_controller α W) :
    compute_cart_control_commands env (with_horizon_slope slope c) =
      ((compute_cart_control_commands env c).1,
        with_horizon_slope slope (compute_cart_control_commands env c).2) := by
  obtain ⟨e1, e2, e3⟩ := compute_cart_control_commands_eq env c
  obtain ⟨f1, f2, f3⟩ := compute_cart_control_commands_eq env (with_horizon_slope slope c)
  rw [adaptive_command_slope] at f1 f2 f3
  have hp : apply_motion_profile env (with_horizon_slope slope (adaptive_command env c)) =
      with_horizon_slope slope (apply_motion_profile env (adaptive_command env c)) := rfl
  cases h : (adaptive_command env c).desired_task_inteface_
  · rw [e1 h, f1 h, hp, write_cart_force_slope]
  · rw [e2 h, f2 h]
    rfl
  · rw [e3 h, f3 h]
    rfl

theorem evaluate_dynamics_slope (env : Env α W) (slope : α) (c : dynamics_controller α W) :
    evaluate_dynamics env (with_horizon_slope slope c) =
      ((evaluate_dynamics env c).1, with_horizon_slope slope (evaluate_dynamics env c).2) := by
  by_cases h : (env.hd_CartToJnt c.world c.robot_state_ c.cart_force_command_).2.1 = 0 <;>
    simp [evaluate_dynamics, with_horizon_slope, emit, h]

theorem deinitialize_slope (env : Env α W) (slope : α) (c : dynamics_controller α W) :
    deinitialize_ env (with_horizon_slope slope c) =
      with_horizon_slope slope (deinitialize_ env c) := by
  cases h : c.store_control_data_ <;>
    simp [deinitialize_, with_horizon_slope, stop_robot_motion, emit, close_logs, close_log,
      set_open, h]

/-- One call of step() does not read the horizon slope and does not write it:
result and torque are those of the call with any other slope. -/
theorem step_slope [LinearOrderedField α] (env : Env α W) (slope : α)
    (q_input qd_input tau_output : List α) (c : dynamics_controller α W) :
    step env q_input qd_input tau_output (with_horizon_slope slope c) =
      ((step env q_input qd_input tau_output c).1,
        (step env q_input qd_input tau_output c).2.1,
        with_horizon_slope slope (step env q_input qd_input tau_output c).2.2) := by
  have hs : store_joint_state q_input qd_input (with_horizon_slope slope c) =
      with_horizon_slope slope (store_joint_state q_input qd_input c) := rfl
  have hk : ∀ x : dynamics_controller α W, fk_status env (with_horizon_slope slope x) =
      fk_status env x := fun _ => rfl
  have hf : ∀ x : dynamics_controller α W,
      forward_kinematics env (with_horizon_slope slope x) =
        with_horizon_slope slope (forward_kinematics env x) := fun _ => rfl
  rw [step_eq, step_eq, hs, hk, hf, compute_control_error_slope,
    compute_cart_control_commands_slope]
  by_cases hfk : fk_status env (store_joint_state q_input qd_input c) = 0
  · have hne : ¬ fk_status env (store_joint_state q_input qd_input c) ≠ 0 := fun h => h hfk
    rw [if_neg hne, if_neg hne]
    generalize compute_cart_control_commands env (compute_control_error env
      (forward_kinematics env (store_joint_state q_input qd_input c))) = rc
    obtain ⟨res, c4⟩ := rc
    cases res with
    | assert_failed => rfl
    | running => rfl
    | ret u =>
      have hw : (if (with_horizon_slope slope c4).store_control_data_ = true
          then write_to_file (with_horizon_slope slope c4)
          else with_horizon_slope slope c4) =
          with_horizon_slope slope
            (if c4.store_control_data_ = true then write_to_file c4 else c4) := by
        cases h : c4.store_control_data_ <;> simp [with_horizon_slope, h, write_to_file, emit]
      simp only [hw, evaluate_dynamics_slope, deinitialize_slope]
      generalize (if c4.store_control_data_ = true then write_to_file c4 else c4) = c5
      by_cases hd : (evaluate_dynamics env c5).1 = 0
      · have hnd : ¬ (evaluate_dynamics env c5).1 ≠ 0 := fun h => h hd
        simp only [hnd, if_false]
        rfl
      · simp only [ne_eq, hd, not_false_eq_true, if_true]
        rfl
  · rw [if_pos hfk, if_pos hfk, deinitialize_slope]
    rfl

theorem update_current_state_slope (env : Env α W) (slope : α)
    (c : dynamics_controller α W) :
    update_current_state env (with_horizon_slope slope c) =
      with_horizon_slope slope (update_current_state env c) := by
  by_cases h : (env.fk_JntToCart (env.get_current_state c.world c.robot_state_).1
      (env.get_current_state c.world c.robot_state_).2.q
      (env.get_current_state c.world c.robot_state_).2.qd
      (env.get_current_state c.world c.robot_state_).2.frame_pose
      (env.get_current_state c.world c.robot_state_).2.frame_velocity).2.1 = 0 <;>
    simp [update_current_state, with_horizon_slope, emit, h]

theorem apply_joint_control_commands_slope (env : Env α W) (slope : α)
    (c : dynamics_controller α W) :
    apply_joint_control_commands env (with_horizon_slope slope c) =
      ((apply_joint_control_commands env c).1,
        with_horizon_slope slope (apply_joint_control_commands env c).2) := by
  have hw : ∀ x : dynamics_controller α W,
      env.set_control_commands (with_horizon_slope slope x).world
        (with_horizon_slope slope x).robot_state_ (with_horizon_slope slope x).DT_SEC_
        (with_horizon_slope slope x).desired_control_mode_.interface
        integration_method.SYMPLECTIC_EULER =
      env.set_control_commands x.world x.robot_state_ x.DT_SEC_
        x.desired_control_mode_.interface integration_method.SYMPLECTIC_EULER := fun _ => rfl
  unfold apply_joint_control_commands
  simp only [hw]
  generalize env.set_control_commands c.world c.robot_state_ c.DT_SEC_
    c.desired_control_mode_.interface integration_method.SYMPLECTIC_EULER = r
  obtain ⟨w1, m⟩ := r
  cases m <;> cases hreq : c.desired_control_mode_.interface <;>
    simp [with_horizon_slope, emit, stop_robot_motion, hreq]

theorem busy_wait_slope [LinearOrderedField α] (env : Env α W) (slope : α) (fuel : Nat) :
    ∀ c : dynamics_controller α W,
      busy_wait env fuel (with_horizon_slope slope c) =
        ((busy_wait env fuel c).1, with_horizon_slope slope (busy_wait env fuel c).2) := by
  induction fuel with
  | zero =>
    intro c
    unfold busy_wait
    by_cases h : c.loop_interval_ < (c.DT_MICRO_ : α)
    · have h1 : (with_horizon_slope slope c).loop_interval_ <
          ((with_horizon_slope slope c).DT_MICRO_ : α) := h
      rw [if_pos h, if_pos h1]
    · have h1 : ¬ (with_horizon_slope slope c).loop_interval_ <
          ((with_horizon_slope slope c).DT_MICRO_ : α) := h
      rw [if_neg h, if_neg h1]
  | succ n ih =>
    intro c
    unfold busy_wait
    by_cases h : c.loop_interval_ < (c.DT_MICRO_ : α)
    · have h1 : (with_horizon_slope slope c).loop_interval_ <
          ((with_horizon_slope slope c).DT_MICRO_ : α) := h
      rw [if_pos h, if_pos h1]
      exact ih { c with
        world := (env.now c.world).1
        loop_interval_ := (env.now c.world).2 - c.loop_start_time_ }
    · have h1 : ¬ (with_horizon_slope slope c).loop_interval_ <
          ((with_horizon_slope slope c).DT_MICRO_ : α) := h
      rw [if_neg h, if_neg h1]

theorem check_loop_frequency_slope [LinearOrderedField α] (env : Env α W) (slope : α)
    (fuel : Nat) (c : dynamics_controller α W) :
    check_loop_frequency env fuel (with_horizon_slope slope c) =
      ((check_loop_frequency env fuel c).1,
        with_horizon_slope slope (check_loop_frequency env fuel c).2) := by
  have he : enforce_loop_frequency env fuel (with_horizon_slope slope c) =
      ((enforce_loop_frequency env fuel c).1,
        with_horizon_slope slope (enforce_loop_frequency env fuel c).2) := by
    unfold enforce_loop_frequency
    simp only []
    by_cases h : (env.now c.world).2 - c.loop_start_time_ < (c.DT_MICRO_ : α)
    · have h1 : (env.now (with_horizon_slope slope c).world).2 -
          (with_horizon_slope slope c).loop_start_time_ <
          ((with_horizon_slope slope c).DT_MICRO_ : α) := h
      rw [if_pos h, if_pos h1]
      exact busy_wait_slope env slope fuel { c with
        world := (env.now c.world).1
        loop_interval_ := (env.now c.world).2 - c.loop_start_time_ }
    · have h1 : ¬ (env.now (with_horizon_slope slope c).world).2 -
          (with_horizon_slope slope c).loop_start_time_ <
          ((with_horizon_slope slope c).DT_MICRO_ : α) := h
      rw [if_neg h, if_neg h1]
      rfl
  unfold check_loop_frequency
  rw [he]
  generalize enforce_loop_frequency env fuel c = e
  obtain ⟨res, c1⟩ := e
  cases res with
  | assert_failed => rfl
  | running => rfl
  | ret v =>
    simp only []
    split <;> rfl

/-- A cycle of control() does not read the horizon slope and does not write
it. -/
theorem control_cycle_slope [LinearOrderedField α] (env : Env α W) (slope : α)
    (store_control_data : Bool) (fuel : Nat) (c : dynamics_controller α W) :
    control_cycle env store_control_data fuel (with_horizon_slope slope c) =
      ((control_cycle env store_control_data fuel c).1,
        with_horizon_slope slope (control_cycle env store_control_data fuel c).2) := by
  have h0 : ({ with_horizon_slope slope c with
      world := (env.now (with_horizon_slope slope c).world).1,
      loop_start_time_ := (env.now (with_horizon_slope slope c).world).2 } :
        dynamics_controller α W) =
      with_horizon_slope slope
        { c with world := (env.now c.world).1, loop_start_time_ := (env.now c.world).2 } := rfl
  rw [control_cycle_eq, control_cycle_eq, h0, update_current_state_slope,
    compute_control_error_slope, compute_cart_control_commands_slope]
  generalize compute_cart_control_commands env (compute_control_error env
    (update_current_state env
      { c with world := (env.now c.world).1, loop_start_time_ := (env.now c.world).2 })) = rc
  obtain ⟨res, c4⟩ := rc
  cases res with
  | assert_failed => rfl
  | running => rfl
  | ret u =>
    have hw : (if store_control_data = true then write_to_file (with_horizon_slope slope c4)
        else with_horizon_slope slope c4) =
        with_horizon_slope slope (if store_control_data = true then write_to_file c4 else c4) := by
      cases store_control_data <;> simp [with_horizon_slope, write_to_file, emit]
    simp only [solve_and_finish, hw, evaluate_dynamics_slope]
    generalize (if store_control_data = true then write_to_file c4 else c4) = c5
    by_cases hd : (evaluate_dynamics env c5).1 = 0
    · have hnd : ¬ (evaluate_dynamics env c5).1 ≠ 0 := fun h => h hd
      simp only [hnd, if_false]
      unfold finish_cycle
      rw [apply_joint_control_commands_slope]
      generalize apply_joint_control_commands env (evaluate_dynamics env c5).2 = a
      obtain ⟨ares, c7⟩ := a
      cases ares with
      | assert_failed => rfl
      | running => rfl
      | ret v =>
        simp only []
        by_cases hv : v = 0
        · have hnv : ¬ v ≠ 0 := fun h => h hv
          simp only [hnv, if_false]
          exact check_loop_frequency_slope env slope fuel c7
        · simp only [ne_eq, hv, not_false_eq_true, if_true]
          cases store_control_data <;>
            simp [with_horizon_slope, close_logs, close_log, set_open, emit]
    · simp only [ne_eq, hd, not_false_eq_true, if_true]
      cases store_control_data <;>
        simp [with_horizon_slope, close_logs, close_log, set_open, emit, stop_robot_motion]

/-- C24: each call of `compute_control_error` asks the predictor for exactly
one Cartesian integration, of one step whose length is the member
`horizon_amplitude_`: it appends one integration event (after the record on the
prediction log), the predicted state is the answer of the predictor to the
current state, the step length `horizon_amplitude_` and the step count 1, and
the call gives the same result with any predictor that agrees with this one on
that single request. The step length is the stored amplitude itself, whatever
the twist of the end effector. The horizon slope is neither read nor written:
with any other slope the error computation, the command shaping, a cycle of
control() and a call of step() give the same result, the same torque and the
same state apart from the slope. -/
theorem prediction_horizon [LinearOrderedField α] (env : Env α W)
    (c : dynamics_controller α W) (slope : α) (store_control_data : Bool) (fuel : Nat)
    (q_input qd_input tau_output : List α) :
    ((compute_control_error env c).trace =
          c.trace ++ [Event.file_write LogFile.predictions, Event.integrate_cartesian_space] ∧
        (compute_control_error env c).predicted_state_ =
          (env.integrate_cartesian_space c.world c.robot_state_ c.predicted_state_
            c.horizon_amplitude_ 1).2 ∧
        (compute_control_error env c).world =
          (env.integrate_cartesian_space c.world c.robot_state_ c.predicted_state_
            c.horizon_amplitude_ 1).1 ∧
        ∀ env1 : Env α W, env1.log_map_so3 = env.log_map_so3 → env1.Norm = env.Norm →
          env1.integrate_cartesian_space c.world c.robot_state_ c.predicted_state_
              c.horizon_amplitude_ 1 =
            env.integrate_cartesian_space c.world c.robot_state_ c.predicted_state_
              c.horizon_amplitude_ 1 →
          compute_control_error env1 c = compute_control_error env c) ∧
      compute_control_error env (with_horizon_slope slope c) =
        with_horizon_slope slope (compute_control_error env c) ∧
      compute_cart_control_commands env
          (compute_control_error env (with_horizon_slope slope c)) =
        ((compute_cart_control_commands env (compute_control_error env c)).1,
          with_horizon_slope slope
            (compute_cart_control_commands env (compute_control_error env c)).2) ∧
      control_cycle env store_control_data fuel (with_horizon_slope slope c) =
        ((control_cycle env store_control_data fuel c).1,
          with_horizon_slope slope (control_cycle env store_control_data fuel c).2) ∧
      step env q_input qd_input tau_output (with_horizon_slope slope c) =
        ((step env q_input qd_input tau_output c).1,
          (step env q_input qd_input tau_output c).2.1,
          with_horizon_slope slope (step env q_input qd_input tau_output c).2.2) := by
  refine ⟨⟨(compute_control_error_trace env c).1, rfl, rfl, ?_⟩,
    compute_control_error_slope env slope c, ?_,
    control_cycle_slope env slope store_control_data fuel c,
    step_slope env slope q_input qd_input tau_output c⟩
  · intro env1 hlog hnorm hint
    simp [compute_control_error, make_predictions, displacement_twist, emit, hlog, hnorm, hint]
  · rw [compute_control_error_slope, compute_cart_control_commands_slope]

/-- The constructor leaves every entry of the normalized error at 0. -/
theorem construct_transformed_error [LinearOrderedField α] (robot_driver : robot_mediator α)
    (world : W) (rate_hz : Int) (c : dynamics_controller α W)
    (h : construct robot_driver world rate_hz = Outcome.done c) (i : Fin 6) :
    c.transformed_error_ i = 0 := by
  unfold construct at h
  split at h
  · simp at h
  · simp only [] at h
    split at h
    · simp at h
    · split at h
      · simp at h
      · split at h
        · simp at h
        · split at h
          · simp at h
          · split at h
            · simp at h
            · split at h
              · simp only [Outcome.done.injEq] at h
                rw [← h]
              · simp at h

/-- C23: the constructor leaves the normalized error at 0, a call of
`compute_control_error` writes its entries 0 and 3 only, and after any number
`n + 1` of calls, starting from a controller whose entries 1, 2, 4 and 5 are 0,
entry 0 is the norm of the linear part and entry 3 the norm of the angular part
of the predicted displacement twist (the one stored as `predicted_error_twist_`),
the entries 1, 2, 4 and 5 are exactly 0, and, the norm of a vector never being
negative, the entries 0 and 3 are not negative. -/
theorem normalized_error_shape [LinearOrderedField α] (env : Env α W)
    (hnorm : ∀ v, 0 ≤ env.Norm v) (c : dynamics_controller α W)
    (hzero : ∀ i : Fin 6, i ≠ 0 → i ≠ 3 → c.transformed_error_ i = 0) (n : Nat) :
    ((compute_control_error env)^[n + 1] c).transformed_error_ 0 =
        env.Norm (displacement_twist env ((compute_control_error env)^[n + 1] c).END_EFF_
          ((compute_control_error env)^[n + 1] c).desired_state_
          ((compute_control_error env)^[n + 1] c).predicted_state_).vel ∧
      ((compute_control_error env)^[n + 1] c).transformed_error_ 3 =
        env.Norm (displacement_twist env ((compute_control_error env)^[n + 1] c).END_EFF_
          ((compute_control_error env)^[n + 1] c).desired_state_
          ((compute_control_error env)^[n + 1] c).predicted_state_).rot ∧
      ((compute_control_error env)^[n + 1] c).predicted_error_twist_ =
        kdl_twist_to_eigen
          (displacement_twist env ((compute_control_error env)^[n + 1] c).END_EFF_
            ((compute_control_error env)^[n + 1] c).desired_state_
            ((compute_control_error env)^[n + 1] c).predicted_state_) ∧
      (∀ i : Fin 6, i ≠ 0 → i ≠ 3 →
        ((compute_control_error env)^[n + 1] c).transformed_error_ i = 0) ∧
      0 ≤ ((compute_control_error env)^[n + 1] c).transformed_error_ 0 ∧
      0 ≤ ((compute_control_error env)^[n + 1] c).transformed_error_ 3 ∧
      (∀ (x : dynamics_controller α W) (i : Fin 6), i ≠ 0 → i ≠ 3 →
        (compute_control_error env x).transformed_error_ i = x.transformed_error_ i) ∧
      ∀ (robot_driver : robot_mediator α) (world : W) (rate_hz : Int)
        (c0 : dynamics_controller α W),
        construct robot_driver world rate_hz = Outcome.done c0 →
          ∀ i : Fin 6, c0.transformed_error_ i = 0 := by
  have hz : ∀ m : Nat, ∀ i : Fin 6, i ≠ 0 → i ≠ 3 →
      ((compute_control_error env)^[m] c).transformed_error_ i = 0 := by
    intro m
    induction m with
    | zero => exact hzero
    | succ m ih =>
      intro i h0 h3
      rw [Function.iterate_succ_apply',
        (compute_control_error_normalized env _).2.2.2 i h0 h3]
      exact ih i h0 h3
  rw [Function.iterate_succ_apply']
  obtain ⟨e0, e3, ep, -⟩ :=
    compute_control_error_normalized env ((compute_control_error env)^[n] c)
  refine ⟨e0, e3, ep, ?_, ?_, ?_, ?_, ?_⟩
  · have := hz (n + 1)
    rwa [Function.iterate_succ_apply'] at this
  · rw [e0]
    exact hnorm _
  · rw [e3]
    exact hnorm _
  · intro x i h0 h3
    exact (compute_control_error_normalized env x).2.2.2 i h0 h3
  · intro robot_driver world rate_hz c0 h i
    exact construct_transformed_error robot_driver world rate_hz c0 h i

/-- The norm of the sample collaborators is never negative. -/
theorem sample_env_norm_nonneg (hd_status : Int) (safe_mode : control_mode)
    (clock : Nat → ℚ) (v : KDL.Vector ℚ) : 0 ≤ (sample_env hd_status safe_mode clock).Norm v := by
  simp only [sample_env]
  positivity

/-- C23, at the sample collaborators and the sample controller after two calls:
entry 4 of the normalized error is 0 and entry 0 is not negative. -/
theorem normalized_error_shape_witness :
    (∀ v, 0 ≤ (sample_env 0 control_mode.TORQUE (fun _ => 0)).Norm v) ∧
      (∀ i : Fin 6, i ≠ 0 → i ≠ 3 → (sample_controller 650 1538).transformed_error_ i = 0) ∧
      ((compute_control_error (sample_env 0 control_mode.TORQUE (fun _ => 0)))^[1 + 1]
        (sample_controller 650 1538)).transformed_error_ 4 = 0 ∧
      0 ≤ ((compute_control_error (sample_env 0 control_mode.TORQUE (fun _ => 0)))^[1 + 1]
        (sample_controller 650 1538)).transformed_error_ 0 :=
  ⟨sample_env_norm_nonneg _ _ _, fun _ _ _ => rfl,
    (normalized_error_shape (sample_env 0 control_mode.TORQUE (fun _ => 0))
      (sample_env_norm_nonneg _ _ _) (sample_controller 650 1538) (fun _ _ _ => rfl)
      1).2.2.2.1 4 (by decide) (by decide),
    (normalized_error_shape (sample_env 0 control_mode.TORQUE (fun _ => 0))
      (sample_env_norm_nonneg _ _ _) (sample_controller 650 1538) (fun _ _ _ => rfl)
      1).2.2.2.2.1⟩

/-- The downgrading safety module never returns a mode above the requested one. -/
theorem sample_env_downgrading_never_upgrades : never_upgrades sample_env_downgrading := by
  intro w state dt requested method
  cases requested <;> simp [sample_env_downgrading, control_mode.rank]

/-- C6: with a safety module that never returns a mode above the requested one,
`apply_joint_control_commands` never fails its assertion and returns -1 exactly
when the module returns STOP_MOTION. For a returned TORQUE, VELOCITY or POSITION
it returns 0 having called nothing but the safety module once: a returned
VELOCITY or POSITION that is not the requested mode only adds the warning to the
events, and the cycle of control() goes on to the check of the loop frequency.
For a returned STOP_MOTION it returns -1 having stopped the robot: the event
follows the call, the hidden state of the collaborators is what
`stop_robot_motion` of the safety module makes of the state the call left, and
the cycle ends control() with -1. -/
theorem apply_joint_control_commands_failure_only_on_stop [LinearOrderedField α]
    (env : Env α W) (hord : never_upgrades env) (store_control_data : Bool) (fuel : Nat)
    (c : dynamics_controller α W) :
    (apply_joint_control_commands env c).1 ≠ Result.assert_failed ∧
      ((apply_joint_control_commands env c).1 = Result.ret (-1) ↔
        (env.set_control_commands c.world c.robot_state_ c.DT_SEC_
          c.desired_control_mode_.interface integration_method.SYMPLECTIC_EULER).2 =
          control_mode.STOP_MOTION) ∧
      ((env.set_control_commands c.world c.robot_state_ c.DT_SEC_
          c.desired_control_mode_.interface integration_method.SYMPLECTIC_EULER).2 ≠
          control_mode.STOP_MOTION →
        (apply_joint_control_commands env c).1 = Result.ret 0 ∧
          (apply_joint_control_commands env c).2.world =
            (env.set_control_commands c.world c.robot_state_ c.DT_SEC_
              c.desired_control_mode_.interface integration_method.SYMPLECTIC_EULER).1 ∧
          (apply_joint_control_commands env c).2.trace =
            c.trace ++
              [Event.set_control_commands c.desired_control_mode_.interface
                (env.set_control_commands c.world c.robot_state_ c.DT_SEC_
                  c.desired_control_mode_.interface integration_method.SYMPLECTIC_EULER).2] ++
              (match (env.set_control_commands c.world c.robot_state_ c.DT_SEC_
                  c.desired_control_mode_.interface integration_method.SYMPLECTIC_EULER).2 with
                | control_mode.VELOCITY =>
                  if c.desired_control_mode_.interface = control_mode.VELOCITY then []
                  else [Event.print Message.switched_to_velocity]
                | control_mode.POSITION =>
                  if c.desired_control_mode_.interface = control_mode.POSITION then []
                  else [Event.print Message.switched_to_position]
                | _ => []) ∧
          finish_cycle env store_control_data fuel c =
            check_loop_frequency env fuel (apply_joint_control_commands env c).2) ∧
      ((env.set_control_commands c.world c.robot_state_ c.DT_SEC_
          c.desired_control_mode_.interface integration_method.SYMPLECTIC_EULER).2 =
          control_mode.STOP_MOTION →
        (apply_joint_control_commands env c).1 = Result.ret (-1) ∧
          (apply_joint_control_commands env c).2.world =
            env.stop_robot_motion
              (env.set_control_commands c.world c.robot_state_ c.DT_SEC_
                c.desired_control_mode_.interface integration_method.SYMPLECTIC_EULER).1 ∧
          (apply_joint_control_commands env c).2.trace =
            c.trace ++
              [Event.set_control_commands c.desired_control_mode_.interface
                control_mode.STOP_MOTION, Event.stop_robot_motion] ∧
          (finish_cycle env store_control_data fuel c).1 = Result.ret (some (-1))) := by
  have h := hord c.world c.robot_state_ c.DT_SEC_ c.desired_control_mode_.interface
    integration_method.SYMPLECTIC_EULER
  have hfin : ∀ a, (apply_joint_control_commands env c).1 = Result.ret a →
      finish_cycle env store_control_data fuel c =
        if a ≠ 0 then
          (Result.ret (some (-1)),
            if store_control_data then close_logs (apply_joint_control_commands env c).2
            else (apply_joint_control_commands env c).2)
        else check_loop_frequency env fuel (apply_joint_control_commands env c).2 := by
    intro a ha
    unfold finish_cycle
    generalize apply_joint_control_commands env c = p at ha ⊢
    obtain ⟨r, c6⟩ := p
    simp only [] at ha
    subst ha
    rfl
  have hmain :
      (apply_joint_control_commands env c).1 ≠ Result.assert_failed ∧
      ((apply_joint_control_commands env c).1 = Result.ret (-1) ↔
        (env.set_control_commands c.world c.robot_state_ c.DT_SEC_
          c.desired_control_mode_.interface integration_method.SYMPLECTIC_EULER).2 =
          control_mode.STOP_MOTION) ∧
      ((env.set_control_commands c.world c.robot_state_ c.DT_SEC_
          c.desired_control_mode_.interface integration_method.SYMPLECTIC_EULER).2 ≠
          control_mode.STOP_MOTION →
        (apply_joint_control_commands env c).1 = Result.ret 0 ∧
          (apply_joint_control_commands env c).2.world =
            (env.set_control_commands c.world c.robot_state_ c.DT_SEC_
              c.desired_control_mode_.interface integration_method.SYMPLECTIC_EULER).1 ∧
          (apply_joint_control_commands env c).2.trace =
            c.trace ++
              [Event.set_control_commands c.desired_control_mode_.interface
                (env.set_control_commands c.world c.robot_state_ c.DT_SEC_
                  c.desired_control_mode_.interface integration_method.SYMPLECTIC_EULER).2] ++
              (match (env.set_control_commands c.world c.robot_state_ c.DT_SEC_
                  c.desired_control_mode_.interface integration_method.SYMPLECTIC_EULER).2 with
                | control_mode.VELOCITY =>
                  if c.desired_control_mode_.interface = control_mode.VELOCITY then []
                  else [Event.print Message.switched_to_velocity]
                | control_mode.POSITION =>
                  if c.desired_control_mode_.interface = control_mode.POSITION then []
                  else [Event.print Message.switched_to_position]
                | _ => [])) ∧
      ((env.set_control_commands c.world c.robot_state_ c.DT_SEC_
          c.desired_control_mode_.interface integration_method.SYMPLECTIC_EULER).2 =
          control_mode.STOP_MOTION →
        (apply_joint_control_commands env c).1 = Result.ret (-1) ∧
          (apply_joint_control_commands env c).2.world =
            env.stop_robot_motion
              (env.set_control_commands c.world c.robot_state_ c.DT_SEC_
                c.desired_control_mode_.interface integration_method.SYMPLECTIC_EULER).1 ∧
          (apply_joint_control_commands env c).2.trace =
            c.trace ++
              [Event.set_control_commands c.desired_control_mode_.interface
                control_mode.STOP_MOTION, Event.stop_robot_motion]) := by
    simp only [apply_joint_control_commands]
    generalize env.set_control_commands c.world c.robot_state_ c.DT_SEC_
      c.desired_control_mode_.interface integration_method.SYMPLECTIC_EULER = r at h
    obtain ⟨w1, m⟩ := r
    cases m <;> cases hreq : c.desired_control_mode_.interface <;>
      simp [emit, stop_robot_motion, hreq, control_mode.rank] at h ⊢
  obtain ⟨h1, h2, h3, h4⟩ := hmain
  refine ⟨h1, h2, ?_, ?_⟩
  · intro hne
    obtain ⟨hr, hw, ht⟩ := h3 hne
    refine ⟨hr, hw, ht, ?_⟩
    rw [hfin 0 hr]
    simp
  · intro hstop
    obtain ⟨hr, hw, ht⟩ := h4 hstop
    refine ⟨hr, hw, ht, ?_⟩
    rw [hfin (-1) hr]
    simp

/-- C6, at the downgrading safety module: a request for TORQUE is answered with
VELOCITY, the call returns 0 with the warning among its events and no stop; a
request for POSITION is answered with STOP_MOTION, the call returns -1 and the
stop command has added its 1000 to the hidden state. -/
theorem apply_joint_control_commands_failure_only_on_stop_witness :
    never_upgrades sample_env_downgrading ∧
      (apply_joint_control_commands sample_env_downgrading
        { sample_controller 650 1538 with
          desired_control_mode_ := ⟨control_mode.TORQUE, false⟩ }).1 = Result.ret 0 ∧
      (apply_joint_control_commands sample_env_downgrading
        { sample_controller 650 1538 with
          desired_control_mode_ := ⟨control_mode.TORQUE, false⟩ }).2.trace =
        [Event.set_control_commands control_mode.TORQUE control_mode.VELOCITY,
          Event.print Message.switched_to_velocity] ∧
      (apply_joint_control_commands sample_env_downgrading
        { sample_controller 650 1538 with
          desired_control_mode_ := ⟨control_mode.TORQUE, false⟩ }).2.world = 1 ∧
      (apply_joint_control_commands sample_env_downgrading
        { sample_controller 650 1538 with
          desired_control_mode_ := ⟨control_mode.POSITION, false⟩ }).1 = Result.ret (-1) ∧
      (apply_joint_control_commands sample_env_downgrading
        { sample_controller 650 1538 with
          desired_control_mode_ := ⟨control_mode.POSITION, false⟩ }).2.world = 1001 :=
  ⟨sample_env_downgrading_never_upgrades,
    ((apply_joint_control_commands_failure_only_on_stop sample_env_downgrading
      sample_env_downgrading_never_upgrades false 0
      { sample_controller 650 1538 with
        desired_control_mode_ := ⟨control_mode.TORQUE, false⟩ }).2.2.1 (by decide)).1,
    by decide!, by decide!,
    ((apply_joint_control_commands_failure_only_on_stop sample_env_downgrading
      sample_env_downgrading_never_upgrades false 0
      { sample_controller 650 1538 with
        desired_control_mode_ := ⟨control_mode.POSITION, false⟩ }).2.2.2 (by decide)).1,
    by decide!⟩

/-! ### The motion profile in a cycle -/

/-- The constructor at an initialised two-joint driver and 650 Hz gives the
sample controller. -/
theorem construct_sample_driver :
    construct sample_driver (0 : Nat) 650 = Outcome.done (sample_controller 650 1538) := by
  simp [construct, DT_MICRO_of, sample_driver, sample_controller, state_specification.create,
    sample_state]
  refine ⟨by decide, ?_, ?_, ?_⟩ <;> norm_num

/-- What `compute_control_error` stores as the current error, the displacement
twist from the measured to the desired state, and what it keeps. -/
theorem compute_control_error_current [LinearOrderedField α] (env : Env α W)
    (c : dynamics_controller α W) :
    (compute_control_error env c).current_error_twist_ =
        displacement_twist env c.END_EFF_ c.desired_state_ c.robot_state_ ∧
      (compute_control_error env c).max_command_ = c.max_command_ ∧
      (compute_control_error env c).motion_profile_ = c.motion_profile_ := by
  simp [compute_control_error, make_predictions, emit]

/-- The motion profile after the two calls of a cycle, axis by axis: the linear
axes carry the profile of the norm of the linear part of the displacement twist
from the measured to the desired state, the other axes are as before. -/
theorem motion_profile_in_cycle [LinearOrderedField α] (env : Env α W)
    (c : dynamics_controller α W) (i : Fin 6) :
    (compute_cart_control_commands env (compute_control_error env c)).2.motion_profile_ i =
        (if i.val < 3 then
          env.negative_step_decision_map
            (env.Norm (displacement_twist env c.END_EFF_ c.desired_state_ c.robot_state_).vel)
            (c.max_command_ i) 0.25 0.4 0.1
        else c.motion_profile_ i) ∧
      (compute_cart_control_commands env (compute_control_error env c)).2.max_command_ =
        c.max_command_ := by
  obtain ⟨herr, hmaxe, hprofe⟩ := compute_control_error_current env c
  obtain ⟨hm, -, hmax, -⟩ := compute_cart_control_commands_frame env (compute_control_error env c)
  obtain ⟨-, -, -, -, -, hprof0, hmax0, herr0⟩ :=
    adaptive_command_frame env (compute_control_error env c)
  refine ⟨?_, hmax.trans hmaxe⟩
  rw [hm, apply_motion_profile_spec, hmax0, herr0, hprof0, herr, hmaxe, hprofe]

/-- C19 at the failing input and beside it. In a cycle
`compute_cart_control_commands` runs on what `compute_control_error` leaves.
After the two calls the multiplier of each linear axis (0, 1, 2) is the motion
profile of the norm of the linear part of `displacement_twist(desired_state_,
robot_state_)`, the unpredicted current error that `compute_control_error`
stores in `current_error_twist_`: it is the same for every predictor and every
predicted state, and it lies in [0, max_command(i)] when the maximum command of
the axis is not negative and the profile function keeps its bound. The loop over
the axes stops at 3: the multiplier of an angular axis (3, 4, 5) is never
written, so wherever it was above the maximum command of its axis before the
calls, as it is after the constructor (multiplier 1, maximum command 0), it is
above it afterwards. -/
theorem motion_profile_of_current_error [LinearOrderedField α] (env : Env α W)
    (hprof : motion_profile_bounded env) (c : dynamics_controller α W) :
    (∀ i : Fin 6, i.val < 3 →
        (compute_cart_control_commands env (compute_control_error env c)).2.motion_profile_ i =
          env.negative_step_decision_map
            (env.Norm (displacement_twist env c.END_EFF_ c.desired_state_ c.robot_state_).vel)
            (c.max_command_ i) 0.25 0.4 0.1) ∧
      (∀ i : Fin 6, i.val < 3 →
        ∀ (predictor : W → state_specification α → state_specification α → α → Int →
            W × state_specification α) (predicted : state_specification α),
          (compute_cart_control_commands { env with integrate_cartesian_space := predictor }
            (compute_control_error { env with integrate_cartesian_space := predictor }
              { c with predicted_state_ := predicted })).2.motion_profile_ i =
            (compute_cart_control_commands env
              (compute_control_error env c)).2.motion_profile_ i) ∧
      (∀ i : Fin 6, i.val < 3 → 0 ≤ c.max_command_ i →
        0 ≤ (compute_cart_control_commands env
            (compute_control_error env c)).2.motion_profile_ i ∧
          (compute_cart_control_commands env (compute_control_error env c)).2.motion_profile_ i ≤
            (compute_cart_control_commands env (compute_control_error env c)).2.max_command_ i) ∧
      (compute_cart_control_commands env (compute_control_error env c)).2.max_command_ =
        c.max_command_ ∧
      (∀ i : Fin 6, 3 ≤ i.val →
        (compute_cart_control_commands env (compute_control_error env c)).2.motion_profile_ i =
            c.motion_profile_ i ∧
          (c.max_command_ i < c.motion_profile_ i →
            ¬ ((compute_cart_control_commands env
                (compute_control_error env c)).2.motion_profile_ i ≤
              (compute_cart_control_commands env
                (compute_control_error env c)).2.max_command_ i))) := by
  have hlin : ∀ i : Fin 6, i.val < 3 →
      (compute_cart_control_commands env (compute_control_error env c)).2.motion_profile_ i =
        env.negative_step_decision_map
          (env.Norm (displacement_twist env c.END_EFF_ c.desired_state_ c.robot_state_).vel)
          (c.max_command_ i) 0.25 0.4 0.1 := by
    intro i hi
    rw [(motion_profile_in_cycle env c i).1, if_pos hi]
  have hmax := (motion_profile_in_cycle env c 0).2
  refine ⟨hlin, ?_, ?_, hmax, ?_⟩
  · intro i hi predictor predicted
    rw [hlin i hi,
      (motion_profile_in_cycle { env with integrate_cartesian_space := predictor }
        { c with predicted_state_ := predicted } i).1, if_pos hi]
    rfl
  · intro i hi hnn
    rw [hlin i hi, hmax]
    exact hprof _ _ _ _ _ hnn
  · intro i hi
    have hang : (compute_cart_control_commands env
        (compute_control_error env c)).2.motion_profile_ i = c.motion_profile_ i := by
      rw [(motion_profile_in_cycle env c i).1, if_neg (by omega)]
    refine ⟨hang, ?_⟩
    intro hlt
    rw [hang, hmax]
    exact not_le.mpr hlt

/-- C19, at the controller as the constructor leaves it (maximum command 0 and
multiplier 1 on every axis) and the sample collaborators, whose motion profile
keeps its bound: after `compute_control_error` and
`compute_cart_control_commands` the multiplier of the linear axis 0 is 0, within
[0, 0], and the multiplier of the angular axis 3 is 1, above the maximum command
0 of that axis. -/
theorem motion_profile_of_current_error_witness :
    motion_profile_bounded (sample_env 0 control_mode.TORQUE (fun _ => 0)) ∧
      construct sample_driver (0 : Nat) 650 = Outcome.done (sample_controller 650 1538) ∧
      (compute_cart_control_commands (sample_env 0 control_mode.TORQUE (fun _ => 0))
        (compute_control_error (sample_env 0 control_mode.TORQUE (fun _ => 0))
          (sample_controller 650 1538))).2.motion_profile_ 0 = 0 ∧
      (compute_cart_control_commands (sample_env 0 control_mode.TORQUE (fun _ => 0))
        (compute_control_error (sample_env 0 control_mode.TORQUE (fun _ => 0))
          (sample_controller 650 1538))).2.motion_profile_ 3 = 1 ∧
      (compute_cart_control_commands (sample_env 0 control_mode.TORQUE (fun _ => 0))
        (compute_control_error (sample_env 0 control_mode.TORQUE (fun _ => 0))
          (sample_controller 650 1538))).2.max_command_ 3 = 0 ∧
      ¬ ((compute_cart_control_commands (sample_env 0 control_mode.TORQUE (fun _ => 0))
          (compute_control_error (sample_env 0 control_mode.TORQUE (fun _ => 0))
            (sample_controller 650 1538))).2.motion_profile_ 3 ≤
        (compute_cart_control_commands (sample_env 0 control_mode.TORQUE (fun _ => 0))
          (compute_control_error (sample_env 0 control_mode.TORQUE (fun _ => 0))
            (sample_controller 650 1538))).2.max_command_ 3) :=
  ⟨sample_env_motion_profile_bounded _ _ _, construct_sample_driver,
    by decide!, by decide!, by decide!,
    ((motion_profile_of_current_error (sample_env 0 control_mode.TORQUE (fun _ => 0))
      (sample_env_motion_profile_bounded _ _ _) (sample_controller 650 1538)).2.2.2.2 3
      (by decide)).2 (by decide!)⟩

/-! ### The antisymmetry of the displacement twist -/

/-- A logarithmic map that turns inverses into negatives is zero at every
rotation that is its own inverse. -/
theorem log_map_antisymmetric_self_inverse [LinearOrderedField α] (env : Env α W)
    (h : log_map_antisymmetric env) (R : KDL.Rotation α) (hR : R.Inverse = R) :
    env.log_map_so3 R = KDL.Vector.Zero := by
  have h1 := h R
  rw [hR] at h1
  have hx : ∀ x : α, x = -x → x = 0 := by
    intro x hx
    linarith
  have e1 := congrArg KDL.Vector.x h1
  have e2 := congrArg KDL.Vector.y h1
  have e3 := congrArg KDL.Vector.z h1
  simp only [KDL.Vector.neg] at e1 e2 e3
  ext
  · exact hx _ e1
  · exact hx _ e2
  · exact hx _ e3

/-- C2 as stated fails at two poses half a turn apart, for a logarithmic map
that is not zero at the half-turn: with `a` at (1, 0, 0) turned by half a turn
about z and `b` at the origin with the identity rotation, the relative rotation
of `a` and `b` and that of `b` and `a` are the same half-turn, so the angular
parts of `displacement_twist a b` and of `displacement_twist b a` are the same
vector (0, 0, 22/7) and not negatives of each other; the linear parts are
(1, 0, 0) and (-1, 0, 0). -/
theorem displacement_twist_half_turn_not_antisymmetric :
    KDL.Rotation.mul (ee_pose 1 (sample_state_at ⟨1, 0, 0⟩ sample_half_turn_z)).M
        (KDL.Rotation.Inverse (ee_pose 1 (sample_state 2)).M) = sample_half_turn_z ∧
      KDL.Rotation.mul (ee_pose 1 (sample_state 2)).M
        (KDL.Rotation.Inverse (ee_pose 1 (sample_state_at ⟨1, 0, 0⟩ sample_half_turn_z)).M) =
        sample_half_turn_z ∧
      (displacement_twist sample_env_half_turn 1
        (sample_state_at ⟨1, 0, 0⟩ sample_half_turn_z) (sample_state 2)).vel.x = 1 ∧
      (displacement_twist sample_env_half_turn 1 (sample_state 2)
        (sample_state_at ⟨1, 0, 0⟩ sample_half_turn_z)).vel.x = -1 ∧
      (displacement_twist sample_env_half_turn 1
        (sample_state_at ⟨1, 0, 0⟩ sample_half_turn_z) (sample_state 2)).rot.z = 22 / 7 ∧
      (displacement_twist sample_env_half_turn 1 (sample_state 2)
        (sample_state_at ⟨1, 0, 0⟩ sample_half_turn_z)).rot.z = 22 / 7 ∧
      (displacement_twist sample_env_half_turn 1
          (sample_state_at ⟨1, 0, 0⟩ sample_half_turn_z) (sample_state 2)).rot ≠
        KDL.Vector.neg (displacement_twist sample_env_half_turn 1 (sample_state 2)
          (sample_state_at ⟨1, 0, 0⟩ sample_half_turn_z)).rot := by
  refine ⟨?_, ?_, by decide!, by decide!, by decide!, by decide!, ?_⟩
  · ext i
    fin_cases i <;> decide!
  · ext i
    fin_cases i <;> decide!
  · intro h
    exact absurd (congrArg KDL.Vector.z h) (by decide!)

/-- C2, amended: for any two states `a` and `b` the linear part of
`displacement_twist a b` is exactly the negative of the linear part of
`displacement_twist b a`. The angular parts are the logarithmic maps of the
relative rotation `R` of `a` and `b` and of its inverse, which is the relative
rotation of `b` and `a`; they are negatives of each other exactly when the
logarithmic maps of `R` and of its inverse are. When `R` is its own inverse, as
a half-turn is, the two angular parts are equal, and negatives of each other
only when the logarithmic map of `R` is zero. -/
theorem displacement_twist_antisymmetry [LinearOrderedField α] (env : Env α W)
    (end_eff : Nat) (state_a state_b : state_specification α) :
    (displacement_twist env end_eff state_a state_b).vel =
        KDL.Vector.neg (displacement_twist env end_eff state_b state_a).vel ∧
      (displacement_twist env end_eff state_a state_b).rot =
        env.log_map_so3 (KDL.Rotation.mul (ee_pose end_eff state_a).M
          (KDL.Rotation.Inverse (ee_pose end_eff state_b).M)) ∧
      (displacement_twist env end_eff state_b state_a).rot =
        env.log_map_so3 (KDL.Rotation.Inverse (KDL.Rotation.mul (ee_pose end_eff state_a).M
          (KDL.Rotation.Inverse (ee_pose end_eff state_b).M))) ∧
      ((displacement_twist env end_eff state_a state_b).rot =
          KDL.Vector.neg (displacement_twist env end_eff state_b state_a).rot ↔
        env.log_map_so3 (KDL.Rotation.Inverse (KDL.Rotation.mul (ee_pose end_eff state_a).M
            (KDL.Rotation.Inverse (ee_pose end_eff state_b).M))) =
          KDL.Vector.neg (env.log_map_so3 (KDL.Rotation.mul (ee_pose end_eff state_a).M
            (KDL.Rotation.Inverse (ee_pose end_eff state_b).M)))) ∧
      (KDL.Rotation.Inverse (KDL.Rotation.mul (ee_pose end_eff state_a).M
            (KDL.Rotation.Inverse (ee_pose end_eff state_b).M)) =
          KDL.Rotation.mul (ee_pose end_eff state_a).M
            (KDL.Rotation.Inverse (ee_pose end_eff state_b).M) →
        (displacement_twist env end_eff state_a state_b).rot =
            (displacement_twist env end_eff state_b state_a).rot ∧
          ((displacement_twist env end_eff state_a state_b).rot =
              KDL.Vector.neg (displacement_twist env end_eff state_b state_a).rot ↔
            env.log_map_so3 (KDL.Rotation.mul (ee_pose end_eff state_a).M
              (KDL.Rotation.Inverse (ee_pose end_eff state_b).M)) = KDL.Vector.Zero)) := by
  have hab : (displacement_twist env end_eff state_a state_b).rot =
      env.log_map_so3 (KDL.Rotation.mul (ee_pose end_eff state_a).M
        (KDL.Rotation.Inverse (ee_pose end_eff state_b).M)) := rfl
  have hba : (displacement_twist env end_eff state_b state_a).rot =
      env.log_map_so3 (KDL.Rotation.Inverse (KDL.Rotation.mul (ee_pose end_eff state_a).M
        (KDL.Rotation.Inverse (ee_pose end_eff state_b).M))) := by
    rw [rotation_inverse_mul_inverse]
    rfl
  have hneg : ∀ u v : KDL.Vector α, u = KDL.Vector.neg v ↔ v = KDL.Vector.neg u := by
    intro u v
    constructor <;> intro h <;> rw [h] <;> ext <;> simp [KDL.Vector.neg]
  have hzero : ∀ u : KDL.Vector α, u = KDL.Vector.neg u ↔ u = KDL.Vector.Zero := by
    intro u
    constructor
    · intro h
      have e1 := congrArg KDL.Vector.x h
      have e2 := congrArg KDL.Vector.y h
      have e3 := congrArg KDL.Vector.z h
      simp only [KDL.Vector.neg] at e1 e2 e3
      ext
      · show u.x = 0
        linarith
      · show u.y = 0
        linarith
      · show u.z = 0
        linarith
    · intro h
      rw [h]
      ext <;> simp [KDL.Vector.neg, KDL.Vector.Zero]
  refine ⟨?_, hab, hba, ?_, ?_⟩
  · simp [displacement_twist, KDL.Vector.sub, KDL.Vector.neg]
  · rw [hab, hba]
    exact hneg _ _
  · intro hself
    rw [hba, hself, ← hab]
    exact ⟨rfl, hzero _⟩

/-- C2, at two poses a quarter-turn about z apart and the sample logarithmic
map: the linear parts are (1, 2, 3) and (-1, -2, -3), the angular parts
(0, 0, 1) and (0, 0, -1). -/
theorem displacement_twist_antisymmetry_witness :
    (displacement_twist (sample_env 0 control_mode.TORQUE (fun _ => 0)) 1
        (sample_state_at ⟨1, 2, 3⟩ sample_quarter_turn_z) (sample_state 2)).vel =
        KDL.Vector.neg (displacement_twist (sample_env 0 control_mode.TORQUE (fun _ => 0)) 1
          (sample_state 2) (sample_state_at ⟨1, 2, 3⟩ sample_quarter_turn_z)).vel ∧
      (displacement_twist (sample_env 0 control_mode.TORQUE (fun _ => 0)) 1
        (sample_state_at ⟨1, 2, 3⟩ sample_quarter_turn_z) (sample_state 2)).rot =
        KDL.Vector.neg (displacement_twist (sample_env 0 control_mode.TORQUE (fun _ => 0)) 1
          (sample_state 2) (sample_state_at ⟨1, 2, 3⟩ sample_quarter_turn_z)).rot ∧
      (displacement_twist (sample_env 0 control_mode.TORQUE (fun _ => 0)) 1
        (sample_state_at ⟨1, 2, 3⟩ sample_quarter_turn_z) (sample_state 2)).vel.x = 1 ∧
      (displacement_twist (sample_env 0 control_mode.TORQUE (fun _ => 0)) 1
        (sample_state_at ⟨1, 2, 3⟩ sample_quarter_turn_z) (sample_state 2)).rot.z = 1 ∧
      (displacement_twist (sample_env 0 control_mode.TORQUE (fun _ => 0)) 1
        (sample_state 2) (sample_state_at ⟨1, 2, 3⟩ sample_quarter_turn_z)).rot.z = -1 :=
  ⟨(displacement_twist_antisymmetry (sample_env 0 control_mode.TORQUE (fun _ => 0)) 1
      (sample_state_at ⟨1, 2, 3⟩ sample_quarter_turn_z) (sample_state 2)).1,
    (displacement_twist_antisymmetry (sample_env 0 control_mode.TORQUE (fun _ => 0)) 1
      (sample_state_at ⟨1, 2, 3⟩ sample_quarter_turn_z) (sample_state 2)).2.2.2.1.mpr
      (sample_env_log_map_antisymmetric _ _ _ _),
    by decide!, by decide!, by decide!⟩

end dynamics_controller
